import Mathlib

/-!
# Anvil queue wrapper and shader generator

A shallow embedding of `src/wrappers/queue.cpp` (sparse binding, submission,
presentation) and of the registration, source-injection and limit code of
`src/misc/glsl_to_spirv.cpp`.  Every call that leaves the
function (a native Vulkan entry point, a method of another wrapper object) and
every store into one of the fixed-capacity local arrays is recorded as an
`Event`; a run of a function is the list of its events together with the way
it ended.  Results of native calls are supplied by an environment `Env`.

Counts are `uint32_t` in the source and natural numbers here: every loop counts
from 0 up to its bound, so no counter wraps, and the statements below hold for
every count, the representable ones among them.  Offsets, sizes and flags are
passed through unchanged.  In the shader generator the 32-bit and 64-bit
operations that can wrap (the casts of the map sizes, the index after the first
newline, the product of line 178) carry their modulus.
-/

namespace Anvil

/-! ## Vulkan scalars -/

/-- A `VkResult` value (a C enum, modelled by its integer value). -/
abbrev VkResult := Int

/-- A native handle (`VkQueue`, `VkFence`, `VkSemaphore`, ...). -/
abbrev VkHandle := Nat

def VK_SUCCESS : VkResult := 0
def VK_ERROR_DEVICE_LOST : VkResult := -4
def VK_NULL_HANDLE : VkHandle := 0
def UINT64_MAX : Nat := 2 ^ 64 - 1
def VK_TRUE : Bool := true
def VK_STRUCTURE_TYPE_SUBMIT_INFO : Nat := 4
def nullptr : Nat := 0
def VK_SUBOPTIMAL_KHR : VkResult := 1000001003
def VK_ERROR_SURFACE_LOST_KHR : VkResult := -1000000000
def VK_ERROR_OUT_OF_DATE_KHR : VkResult := -1000001004
def VK_PIPELINE_STAGE_TOP_OF_PIPE_BIT : Nat := 1
def VK_STRUCTURE_TYPE_PRESENT_INFO_KHR : Nat := 1000001001
def MAX_SWAPCHAINS : Nat := 32

structure VkImageSubresource where
  aspectMask : Nat
  mipLevel : Nat
  arrayLayer : Nat
deriving DecidableEq

structure VkOffset3D where
  x : Int
  y : Int
  z : Int
deriving DecidableEq

structure VkExtent3D where
  width : Nat
  height : Nat
  depth : Nat
deriving DecidableEq

/-- The local arrays of `submit_command_buffers` (queue.cpp lines 359-361),
and the arrays `swapchains_vk` and `wait_semaphores_vk` of `present` (lines
222-223). -/
inductive LocalArray where
  | cmd_buffers_vk
  | signal_semaphores_vk
  | wait_semaphores_vk
  | swapchains_vk
  | present_wait_semaphores_vk
deriving DecidableEq

/-- The `VkSubmitInfo` record filled at queue.cpp lines 400-408.  A pointer
field holds what it points to at the time of the call: the contents of the
64-slot local array (`none` is a slot never written), respectively the
caller's stage-mask array. -/
structure VkSubmitInfo where
  commandBufferCount : Nat
  pCommandBuffers : List (Option VkHandle)
  pNext : Nat
  pSignalSemaphores : List (Option VkHandle)
  pWaitDstStageMask : List Nat
  pWaitSemaphores : List (Option VkHandle)
  signalSemaphoreCount : Nat
  sType : Nat
  waitSemaphoreCount : Nat
deriving DecidableEq

/-- The `VkPresentInfoKHR` record filled at queue.cpp lines 273-280.  A
pointer field holds what it points to at the time of the call: the image index
of the caller, the 32-slot arrays `presentation_results` and `swapchains_vk`,
the 8-slot array `wait_semaphores_vk` (`none` is a slot never written). -/
structure VkPresentInfoKHR where
  pImageIndices : List Nat
  pNext : Nat
  pResults : List (Option VkResult)
  pSwapchains : List (Option VkHandle)
  pWaitSemaphores : List (Option VkHandle)
  sType : Nat
  swapchainCount : Nat
  waitSemaphoreCount : Nat
deriving DecidableEq

/-- Wrapper objects carry their native handle (`get_fence`, `get_semaphore`,
`get_command_buffer`). -/
structure Fence where
  fence : VkHandle
deriving DecidableEq

structure Semaphore where
  semaphore : VkHandle
deriving DecidableEq

structure CommandBufferBase where
  command_buffer : VkHandle
deriving DecidableEq

/-! ## Runs -/

/-- What a function does to the world outside it, in program order.
`assertion_failed line` stands for: control reaches the assertion written at
`line` and its condition is false.  The other events are the calls the
function makes, with their arguments in the order of the call, and the stores
into the local arrays. -/
inductive Event where
  | assertion_failed (line : Nat)
  | vkQueueBindSparse (queue : VkHandle) (bindInfoCount : Nat) (pBindInfo : Nat)
      (fence : VkHandle)
  | Buffer_set_memory_sparse (buffer : Nat) (memory_block_ptr : Option Nat)
      (memory_block_start_offset : Nat) (start_offset : Nat) (size : Nat)
  | Image_set_memory_sparse (image : Nat) (subresource : VkImageSubresource)
      (offset : VkOffset3D) (extent : VkExtent3D) (memory_block_ptr : Option Nat)
      (memory_block_start_offset : Nat)
  | Image_set_memory_sparse_opaque_range (image : Nat) (resource_offset : Nat) (size : Nat)
      (memory_block_ptr : Option Nat) (memory_block_start_offset : Nat)
  | Fence_create (create_signalled : Bool)
  | array_store (array : LocalArray) (index : Nat) (value : VkHandle)
  | vkQueueSubmit (queue : VkHandle) (submitCount : Nat) (pSubmits : VkSubmitInfo)
      (fence : VkHandle)
  | vkWaitForFences (device : VkHandle) (fenceCount : Nat) (pFences : VkHandle)
      (waitAll : Bool) (timeout : Nat)
  | vkQueuePresentKHR (queue : VkHandle) (pPresentInfo : VkPresentInfoKHR)
  | submit_command_buffer_with_wait_semaphores (queue : VkHandle)
      (cmd_buffer_ptr : Option CommandBufferBase) (n_semaphores_to_wait_on : Nat)
      (semaphore_to_wait_on_ptr_ptrs : List (Option Semaphore))
      (dst_stage_masks_to_wait_on_ptrs : List Nat) (should_block : Bool)
deriving DecidableEq

/-- How a run ends: the function returns a value, a failed assertion ends the
operation, or the run dereferences a null pointer or leaves the bounds of an
array (undefined behaviour in C++). -/
inductive Outcome (α : Type) where
  | returned (value : α)
  | aborted
  | fault
deriving DecidableEq

/-- A run: the events in program order and the outcome. -/
structure Exec (α : Type) where
  trace : List Event
  outcome : Outcome α

namespace Exec

def ret {α : Type} (a : α) : Exec α := ⟨[], .returned a⟩

def andThen {α β : Type} (m : Exec α) (f : α → Exec β) : Exec β :=
  match m.outcome with
  | .returned a => ⟨m.trace ++ (f a).trace, (f a).outcome⟩
  | .aborted => ⟨m.trace, .aborted⟩
  | .fault => ⟨m.trace, .fault⟩

instance : Monad Exec where
  pure := ret
  bind := andThen

/-- One observable call. -/
def emit (e : Event) : Exec Unit := ⟨[e], .returned ()⟩

/-- Undefined behaviour: the run stops here. -/
def undefined_behaviour {α : Type} : Exec α := ⟨[], .fault⟩

/-- Dereference of a `shared_ptr`. -/
def deref {α : Type} : Option α → Exec α
  | some a => ret a
  | none => undefined_behaviour

/-- Loop body applied to the indices of `is` in turn, threading the locals. -/
def loop {σ : Type} (body : Nat → σ → Exec σ) : List Nat → σ → Exec σ
  | [], s => ret s
  | i :: is, s => andThen (body i s) (loop body is)

/-- The C loop `for (uint32_t i = 0; i < n; ++i) body`. -/
def for_lt {σ : Type} (n : Nat) (init : σ) (body : Nat → σ → Exec σ) : Exec σ :=
  loop body (List.range n) init

end Exec

/-! ## Collaborators of the queue -/

inductive DeviceType where
  | DEVICE_TYPE_SINGLE_GPU
  | DEVICE_TYPE_MULTI_GPU
deriving DecidableEq

structure BaseDevice where
  type : DeviceType
  device_vk : VkHandle
deriving DecidableEq

/-- The members `Anvil::Queue` uses: the native queue and the device the weak
device pointer locks to (a queue is handed out by its device and used while
that device lives). -/
structure Queue where
  m_queue : VkHandle
  m_device_ptr : BaseDevice
deriving DecidableEq

/-- What the code takes from outside `src/`.  `assertions_fatal` is the
behaviour of the `anvil_assert` family (misc/debug.h): `true` when a failed
assertion ends the operation (the abort-style assertion of the specification),
`false` when execution continues behind it (the check only reports, or is
compiled out).  The other fields are the helper `is_vk_call_successful`, the
result codes of the native calls, and the fence `Anvil::Fence::create` hands
out. -/
structure Env where
  assertions_fatal : Bool
  is_vk_call_successful : VkResult → Bool
  vkQueueBindSparse : VkHandle → Nat → Nat → VkHandle → VkResult
  vkQueueSubmit : VkHandle → Nat → VkSubmitInfo → VkHandle → VkResult
  vkWaitForFences : VkHandle → Nat → VkHandle → Bool → Nat → VkResult
  Fence_create : Bool → Fence

/-- Modelled from the spec: the macro `anvil_assert(cond)`, written at `line`
(misc/debug.h, which defines it, is not among the sources).  A true condition
does nothing.  A false one is a failed assertion: it ends the operation when
`env.assertions_fatal` (section 7 of the specification: "an unconditional
abort-style assertion"), and is passed over otherwise. -/
def anvil_assert (env : Env) (line : Nat) (cond : Bool) : Exec Unit :=
  if cond then Exec.ret ()
  else ⟨[.assertion_failed line], if env.assertions_fatal then .aborted else .returned ()⟩

/-- Modelled from the spec: the macro `anvil_assert_vk_call_succeeded(result)`,
written at `line` (misc/debug.h is not among the sources): the assertion that
the result code counts as successful. -/
def anvil_assert_vk_call_succeeded (env : Env) (line : Nat) (result : VkResult) : Exec Unit :=
  anvil_assert env line (env.is_vk_call_successful result)

/-! ## Sparse binding batches

`Anvil::Utils::SparseMemoryBindingUpdateInfo` is declared outside `src/`;
`bind_sparse_memory` reads it through five getters only, so a batch is its
getters.  Each getter returns what it writes through its out-pointers.  Owners
are resource identities (a request always names its buffer or image); a memory
block reference may be absent. -/

structure BindSparseCallArgs where
  n_bind_info_items : Nat
  bind_info_items : Nat
  fence_ptr : Option Fence

structure BindInfoProperties where
  n_buffer_memory_updates : Nat
  n_image_memory_updates : Nat
  n_image_opaque_memory_updates : Nat

structure BufferMemoryUpdateProperties where
  buffer_ptr : Nat
  buffer_memory_start_offset : Nat
  memory_block_ptr : Option Nat
  memory_block_start_offset : Nat
  alloc_size : Nat

structure ImageMemoryUpdateProperties where
  image_ptr : Nat
  subresource : VkImageSubresource
  offset : VkOffset3D
  extent : VkExtent3D
  flags : Nat
  memory_block_ptr : Option Nat
  memory_block_start_offset : Nat

structure ImageOpaqueMemoryUpdateProperties where
  image_ptr : Nat
  resource_offset : Nat
  size : Nat
  flags : Nat
  memory_block_ptr : Option Nat
  memory_block_start_offset : Nat

structure SparseMemoryBindingUpdateInfo where
  get_bind_sparse_call_args : BindSparseCallArgs
  get_bind_info_properties : Nat → BindInfoProperties
  get_buffer_memory_update_properties : Nat → Nat → BufferMemoryUpdateProperties
  get_image_memory_update_properties : Nat → Nat → ImageMemoryUpdateProperties
  get_image_opaque_memory_update_properties : Nat → Nat → ImageOpaqueMemoryUpdateProperties

/-! ## `Anvil::Queue::bind_sparse_memory` (queue.cpp lines 77-193) -/

/-- Body of the buffer loop, lines 115-132. -/
def buffer_memory_update_body (update : SparseMemoryBindingUpdateInfo)
    (n_bind_info n_buffer_memory_update : Nat) : Exec Unit :=
  let p := update.get_buffer_memory_update_properties n_bind_info n_buffer_memory_update
  Exec.emit (.Buffer_set_memory_sparse p.buffer_ptr p.memory_block_ptr
    p.memory_block_start_offset p.buffer_memory_start_offset p.alloc_size)

/-- Body of the image loop, lines 139-162. -/
def image_memory_update_body (update : SparseMemoryBindingUpdateInfo)
    (n_bind_info n_image_memory_update : Nat) : Exec Unit :=
  let p := update.get_image_memory_update_properties n_bind_info n_image_memory_update
  Exec.emit (.Image_set_memory_sparse p.image_ptr p.subresource p.offset p.extent
    p.memory_block_ptr p.memory_block_start_offset)

/-- Body of the image-opaque loop, lines 169-188. -/
def image_opaque_memory_update_body (update : SparseMemoryBindingUpdateInfo)
    (n_bind_info n_image_opaque_memory_update : Nat) : Exec Unit :=
  let p := update.get_image_opaque_memory_update_properties n_bind_info
    n_image_opaque_memory_update
  Exec.emit (.Image_set_memory_sparse_opaque_range p.image_ptr p.resource_offset p.size
    p.memory_block_ptr p.memory_block_start_offset)

/-- Body of the loop over the bind infos, lines 98-189. -/
def bind_info_body (update : SparseMemoryBindingUpdateInfo) (n_bind_info : Nat) : Exec Unit := do
  let props := update.get_bind_info_properties n_bind_info
  Exec.for_lt props.n_buffer_memory_updates () fun n_buffer_memory_update _ =>
    buffer_memory_update_body update n_bind_info n_buffer_memory_update
  Exec.for_lt props.n_image_memory_updates () fun n_image_memory_update _ =>
    image_memory_update_body update n_bind_info n_image_memory_update
  Exec.for_lt props.n_image_opaque_memory_updates () fun n_image_opaque_memory_update _ =>
    image_opaque_memory_update_body update n_bind_info n_image_opaque_memory_update

def bind_sparse_memory (env : Env) (q : Queue) (update : SparseMemoryBindingUpdateInfo) :
    Exec Bool := do
  let args := update.get_bind_sparse_call_args
  let fence_vk :=
    match args.fence_ptr with
    | some fence => fence.fence
    | none => VK_NULL_HANDLE
  Exec.emit (.vkQueueBindSparse q.m_queue args.n_bind_info_items args.bind_info_items fence_vk)
  let result := env.vkQueueBindSparse q.m_queue args.n_bind_info_items args.bind_info_items
    fence_vk
  anvil_assert env 92 (decide (result = VK_SUCCESS))
  Exec.for_lt args.n_bind_info_items () fun n_bind_info _ =>
    bind_info_body update n_bind_info
  return decide (result = VK_SUCCESS)

/-! ## `Anvil::Queue::submit_command_buffers` (queue.cpp lines 346-430)

An input array is the list of the `shared_ptr`s that stand behind the pointer
the caller passes (`none` is a null `shared_ptr`; a null array pointer is the
empty list).  Reading an element that is not there, or calling through a null
`shared_ptr`, is undefined behaviour. -/

/-- A local array `VkX name[64]` before its first store. -/
def uninitialised_array : List (Option VkHandle) := List.replicate 64 none

/-- The assignment `array[index] = value` on a local array. -/
def array_store (array : LocalArray) (contents : List (Option VkHandle)) (index : Nat)
    (value : VkHandle) : Exec (List (Option VkHandle)) :=
  if index < contents.length then
    ⟨[.array_store array index value], .returned (contents.set index (some value))⟩
  else Exec.undefined_behaviour

/-- The read `ptrs[index]` followed by a call through the `shared_ptr`. -/
def read_ptr {α : Type} (ptrs : List (Option α)) (index : Nat) : Exec α :=
  match ptrs[index]? with
  | some (some a) => Exec.ret a
  | _ => Exec.undefined_behaviour

/-- The cast `std::dynamic_pointer_cast<Anvil::SGPUDevice>(device)`. -/
def dynamic_pointer_cast_SGPUDevice (device : BaseDevice) : Option BaseDevice :=
  if device.type = .DEVICE_TYPE_SINGLE_GPU then some device else none

def submit_command_buffers (env : Env) (q : Queue)
    (n_command_buffers : Nat) (opt_cmd_buffer_ptrs : List (Option CommandBufferBase))
    (n_semaphores_to_signal : Nat) (opt_semaphore_to_signal_ptr_ptrs : List (Option Semaphore))
    (n_semaphores_to_wait_on : Nat) (opt_semaphore_to_wait_on_ptr_ptrs : List (Option Semaphore))
    (opt_dst_stage_masks_to_wait_on_ptrs : List Nat)
    (should_block : Bool) (opt_fence_ptr : Option Fence) : Exec Unit := do
  /- Sanity checks, lines 366-369 -/
  anvil_assert env 366 (decide (q.m_device_ptr.type = .DEVICE_TYPE_SINGLE_GPU))
  anvil_assert env 367 (decide (n_command_buffers < 64))
  anvil_assert env 368 (decide (n_semaphores_to_signal < 64))
  anvil_assert env 369 (decide (n_semaphores_to_wait_on < 64))
  /- Prepare for the submission, lines 372-398 -/
  let opt_fence_ptr ←
    (if opt_fence_ptr = none ∧ should_block = true then do
      Exec.emit (.Fence_create false)
      pure (some (env.Fence_create false))
    else pure opt_fence_ptr)
  let cmd_buffers_vk ← Exec.for_lt n_command_buffers uninitialised_array
    fun n_command_buffer cmd_buffers_vk => do
      let cmd_buffer ← read_ptr opt_cmd_buffer_ptrs n_command_buffer
      array_store .cmd_buffers_vk cmd_buffers_vk n_command_buffer cmd_buffer.command_buffer
  let signal_semaphores_vk ← Exec.for_lt n_semaphores_to_signal uninitialised_array
    fun n_signal_semaphore signal_semaphores_vk => do
      let semaphore ← read_ptr opt_semaphore_to_signal_ptr_ptrs n_signal_semaphore
      array_store .signal_semaphores_vk signal_semaphores_vk n_signal_semaphore
        semaphore.semaphore
  let wait_semaphores_vk ← Exec.for_lt n_semaphores_to_wait_on uninitialised_array
    fun n_wait_semaphore wait_semaphores_vk => do
      let semaphore ← read_ptr opt_semaphore_to_wait_on_ptr_ptrs n_wait_semaphore
      array_store .wait_semaphores_vk wait_semaphores_vk n_wait_semaphore semaphore.semaphore
  /- Lines 400-408 -/
  let submit_info : VkSubmitInfo :=
    { commandBufferCount := n_command_buffers
      pCommandBuffers := cmd_buffers_vk
      pNext := nullptr
      pSignalSemaphores := signal_semaphores_vk
      pWaitDstStageMask := opt_dst_stage_masks_to_wait_on_ptrs
      pWaitSemaphores := wait_semaphores_vk
      signalSemaphoreCount := n_semaphores_to_signal
      sType := VK_STRUCTURE_TYPE_SUBMIT_INFO
      waitSemaphoreCount := n_semaphores_to_wait_on }
  /- Go for it, lines 411-416 -/
  let fence_vk :=
    match opt_fence_ptr with
    | some fence => fence.fence
    | none => VK_NULL_HANDLE
  Exec.emit (.vkQueueSubmit q.m_queue 1 submit_info fence_vk)
  let result := env.vkQueueSubmit q.m_queue 1 submit_info fence_vk
  anvil_assert_vk_call_succeeded env 416 result
  /- Lines 418-429 -/
  if should_block = true then
    let sgpu_device_locked_ptr ← Exec.deref (dynamic_pointer_cast_SGPUDevice q.m_device_ptr)
    let fence ← Exec.deref opt_fence_ptr
    Exec.emit (.vkWaitForFences sgpu_device_locked_ptr.device_vk 1 fence.fence VK_TRUE UINT64_MAX)
    let result := env.vkWaitForFences sgpu_device_locked_ptr.device_vk 1 fence.fence VK_TRUE
      UINT64_MAX
    anvil_assert_vk_call_succeeded env 428 result

/-! ## `Anvil::Queue::present` (queue.cpp lines 212-343) -/

/-- A window platform: the two values `present` compares with, and any other
value of the enumeration (declared outside `src/`). -/
inductive WindowPlatform where
  | WINDOW_PLATFORM_DUMMY
  | WINDOW_PLATFORM_DUMMY_WITH_PNG_SNAPSHOTS
  | other (value : Nat)
deriving DecidableEq

structure Window where
  platform : WindowPlatform
deriving DecidableEq

/-- A `std::weak_ptr`: never set, set to an object that is gone, or set to a
live object. -/
inductive WeakPtr (α : Type) where
  | null
  | dangling
  | alive (object : α)
deriving DecidableEq

/-- The call `weak.expired()`. -/
def WeakPtr.expired {α : Type} : WeakPtr α → Bool
  | .alive _ => false
  | _ => true

/-- The call `weak.lock()`. -/
def WeakPtr.lock {α : Type} : WeakPtr α → Option α
  | .alive a => some a
  | _ => none

/-- A swapchain wrapper: its native handle and the window it refers to. -/
structure Swapchain where
  swapchain_vk : VkHandle
  window : WeakPtr Window
deriving DecidableEq

/-- What `present` takes from outside `src/` on top of `Env`: the result code
of the native present call, the code that call leaves in
`presentation_results[0]`, and the universal queues of a device (`none` is a
null pointer). -/
structure PresentEnv extends Env where
  vkQueuePresentKHR : VkHandle → VkPresentInfoKHR → VkResult
  presentation_result : VkHandle → VkPresentInfoKHR → VkResult
  get_universal_queue : BaseDevice → Nat → Option Queue

/-- Modelled from the spec: `Queue::submit_command_buffer_with_wait_semaphores`,
an inline member of wrappers/queue.h, which is not among the sources.  By
section 4.4 of the specification the call made for a headless target is a
submission "through the blocking submission path" that "only waits on those
semaphores": the command buffer, when there is one, is the only command
buffer of the submission, nothing is signalled, no fence is passed, and the
wait semaphores, stage masks and blocking flag go to `submit_command_buffers`
as they are. -/
def submit_command_buffer_with_wait_semaphores (env : Env) (q : Queue)
    (cmd_buffer_ptr : Option CommandBufferBase) (n_semaphores_to_wait_on : Nat)
    (semaphore_to_wait_on_ptr_ptrs : List (Option Semaphore))
    (dst_stage_masks_to_wait_on_ptrs : List Nat) (should_block : Bool) : Exec Unit :=
  submit_command_buffers env q (if cmd_buffer_ptr = none then 0 else 1) [cmd_buffer_ptr]
    0 [] n_semaphores_to_wait_on semaphore_to_wait_on_ptr_ptrs dst_stage_masks_to_wait_on_ptrs
    should_block none

/-- Lines 231-248: whether the three nested conditions that lead to the
off-screen branch hold. -/
def is_dummy_window (swapchain_ptr : Option Swapchain) : Bool :=
  match swapchain_ptr with
  | none => false
  | some swapchain =>
    let window_ptr := swapchain.window
    let window_locked_ptr := if !window_ptr.expired then window_ptr.lock else none
    match window_locked_ptr with
    | none => false
    | some window_locked =>
      decide (window_locked.platform = .WINDOW_PLATFORM_DUMMY)
        || decide (window_locked.platform = .WINDOW_PLATFORM_DUMMY_WITH_PNG_SNAPSHOTS)

/-- Lines 291-338: the switch over `presentation_results[0]`. -/
def most_important_error_code (env : Env) (result presentation_result : VkResult) :
    Exec VkResult :=
  if presentation_result = VK_ERROR_DEVICE_LOST then
    Exec.ret VK_ERROR_DEVICE_LOST
  else if presentation_result = VK_ERROR_SURFACE_LOST_KHR then
    Exec.ret (if result ≠ VK_ERROR_DEVICE_LOST then VK_ERROR_SURFACE_LOST_KHR else result)
  else if presentation_result = VK_ERROR_OUT_OF_DATE_KHR then
    Exec.ret (if result ≠ VK_ERROR_DEVICE_LOST ∧ result ≠ VK_ERROR_SURFACE_LOST_KHR then
      VK_ERROR_OUT_OF_DATE_KHR else result)
  else if presentation_result = VK_SUBOPTIMAL_KHR then
    Exec.ret (if result ≠ VK_ERROR_DEVICE_LOST ∧ result ≠ VK_ERROR_SURFACE_LOST_KHR
        ∧ result ≠ VK_ERROR_OUT_OF_DATE_KHR then
      VK_SUBOPTIMAL_KHR else result)
  else do
    anvil_assert env 336 (decide (presentation_result = VK_SUCCESS))
    pure result

/-- Lines 282-339: the native present call, its check, and the resolution of
the returned code. -/
def present_native (env : PresentEnv) (q : Queue) (image_presentation_info : VkPresentInfoKHR) :
    Exec VkResult := do
  Exec.emit (.vkQueuePresentKHR q.m_queue image_presentation_info)
  let result := env.vkQueuePresentKHR q.m_queue image_presentation_info
  anvil_assert_vk_call_succeeded env.toEnv 285 result
  if env.is_vk_call_successful result = true then
    let presentation_results_0 := env.presentation_result q.m_queue image_presentation_info
    anvil_assert env.toEnv 289 (env.is_vk_call_successful presentation_results_0)
    most_important_error_code env.toEnv result presentation_results_0
  else
    pure result

def present (env : PresentEnv) (q : Queue) (swapchain_ptr : Option Swapchain)
    (swapchain_image_index : Nat) (n_wait_semaphores : Nat)
    (wait_semaphore_ptrs : List (Option Semaphore)) : Exec VkResult := do
  /- Sanity checks, line 226 -/
  anvil_assert env.toEnv 226 (decide (n_wait_semaphores < 8))
  if is_dummy_window swapchain_ptr = true then
    /- Lines 250-259 -/
    let universal_queue ← Exec.deref (env.get_universal_queue q.m_device_ptr 0)
    Exec.emit (.submit_command_buffer_with_wait_semaphores universal_queue.m_queue none
      n_wait_semaphores wait_semaphore_ptrs [VK_PIPELINE_STAGE_TOP_OF_PIPE_BIT] true)
    submit_command_buffer_with_wait_semaphores env.toEnv universal_queue none n_wait_semaphores
      wait_semaphore_ptrs [VK_PIPELINE_STAGE_TOP_OF_PIPE_BIT] true
    pure VK_SUCCESS
  else
    /- Lines 264-280 -/
    let swapchain ← Exec.deref swapchain_ptr
    let swapchains_vk ← array_store .swapchains_vk (List.replicate MAX_SWAPCHAINS none) 0
      swapchain.swapchain_vk
    let wait_semaphores_vk ← Exec.for_lt n_wait_semaphores (List.replicate 8 none)
      fun n_wait_semaphore wait_semaphores_vk => do
        let semaphore ← read_ptr wait_semaphore_ptrs n_wait_semaphore
        array_store .present_wait_semaphores_vk wait_semaphores_vk n_wait_semaphore
          semaphore.semaphore
    let image_presentation_info : VkPresentInfoKHR :=
      { pImageIndices := [swapchain_image_index]
        pNext := nullptr
        pResults := List.replicate MAX_SWAPCHAINS none
        pSwapchains := swapchains_vk
        pWaitSemaphores := wait_semaphores_vk
        sType := VK_STRUCTURE_TYPE_PRESENT_INFO_KHR
        swapchainCount := 1
        waitSemaphoreCount := n_wait_semaphores }
    /- Lines 282-342 -/
    present_native env q image_presentation_info

/-! ## `Anvil::GLSLShaderToSPIRVGenerator` (glsl_to_spirv.cpp lines 261-402, 737-755)

The members `m_extension_behaviors` and `m_definition_values` and the
enumeration `ExtensionBehavior` are declared in misc/glsl_to_spirv.h, outside
`src/`.  The code uses the two members through `find`, `end`, `operator[]`,
`size` and iteration from `begin` to `end`: they are taken to be `std::map`
keyed by `std::string`. -/

/-- The type `std::string`: the characters in order. -/
abbrev StdString := List Char

/-- Largest value of `size_t`. -/
def SIZE_MAX : Nat := 2 ^ 64 - 1

/-- The constant `std::string::npos`. -/
def npos : Nat := SIZE_MAX

/-- The call `s.find_first_of(c)`: index of the first occurrence of `c`, `npos`
when there is none. -/
def find_first_of (s : StdString) (c : Char) : Nat :=
  if c ∈ s then s.indexOf c else npos

/-- The call `s.insert(pos, str)`.  For a position past the end it throws
`std::out_of_range`, which `bake_spirv_blob` does not catch: the run ends
there without a result. -/
def string_insert (s : StdString) (pos : Nat) (str : StdString) : Exec StdString :=
  if pos ≤ s.length then Exec.ret (s.take pos ++ str ++ s.drop pos) else ⟨[], .fault⟩

/-- The type `std::map<Key, T>`: its entries in iteration order, which is the
ascending order of the keys. -/
abbrev StdMap (κ β : Type) := List (κ × β)

/-- The call `m.find(key)`; `none` stands for `m.end()`. -/
def StdMap.find {κ β : Type} [LinearOrder κ] : StdMap κ β → κ → Option β
  | [], _ => none
  | (k, v) :: rest, key => if k = key then some v else StdMap.find rest key

/-- The statement `m[key] = value`: the entry of `key` is created at its place
in the order when there is none, and its value is set. -/
def StdMap.assign {κ β : Type} [LinearOrder κ] : StdMap κ β → κ → β → StdMap κ β
  | [], key, value => [(key, value)]
  | (k, v) :: rest, key, value =>
    if key < k then (key, value) :: (k, v) :: rest
    else if key = k then (k, value) :: rest
    else (k, v) :: StdMap.assign rest key value

/-- The call `m.size()`. -/
def StdMap.size {κ β : Type} (m : StdMap κ β) : Nat := m.length

/-- The four enumerators `get_extension_behavior_glsl_code` names; `other`
stands for any other value an object of the enumeration type holds. -/
inductive ExtensionBehavior where
  | EXTENSION_BEHAVIOR_DISABLE
  | EXTENSION_BEHAVIOR_ENABLE
  | EXTENSION_BEHAVIOR_REQUIRE
  | EXTENSION_BEHAVIOR_WARN
  | other (value : Nat)
deriving DecidableEq

/-- The members the embedded functions use. -/
structure GLSLShaderToSPIRVGenerator where
  m_definition_values : StdMap StdString StdString
  m_extension_behaviors : StdMap StdString ExtensionBehavior
deriving DecidableEq

/-- Lines 268-286.  The run hands back the result and the generator after the
call. -/
def add_extension_behavior (env : Env) (g : GLSLShaderToSPIRVGenerator)
    (extension_name : StdString) (behavior : ExtensionBehavior) :
    Exec (Bool × GLSLShaderToSPIRVGenerator) :=
  let result := false
  if (StdMap.find g.m_extension_behaviors extension_name).isSome = true then do
    anvil_assert env 275 false
    pure (result, g)
  else
    let g := { g with
      m_extension_behaviors := StdMap.assign g.m_extension_behaviors extension_name behavior }
    let result := true
    pure (result, g)

/-- Lines 289-307. -/
def add_definition_value_pair (env : Env) (g : GLSLShaderToSPIRVGenerator)
    (definition_name value : StdString) : Exec (Bool × GLSLShaderToSPIRVGenerator) :=
  let result := false
  if (StdMap.find g.m_definition_values definition_name).isSome = true then do
    anvil_assert env 296 false
    pure (result, g)
  else
    let g := { g with
      m_definition_values := StdMap.assign g.m_definition_values definition_name value }
    let result := true
    pure (result, g)

/-- Lines 261-265. -/
def add_empty_definition (env : Env) (g : GLSLShaderToSPIRVGenerator)
    (definition_name : StdString) : Exec (Bool × GLSLShaderToSPIRVGenerator) :=
  add_definition_value_pair env g definition_name "".toList

/-- Lines 737-755. -/
def get_extension_behavior_glsl_code (env : Env) (value : ExtensionBehavior) : Exec StdString :=
  let result : StdString := []
  match value with
  | .EXTENSION_BEHAVIOR_DISABLE => pure "disable".toList
  | .EXTENSION_BEHAVIOR_ENABLE => pure "enable".toList
  | .EXTENSION_BEHAVIOR_REQUIRE => pure "require".toList
  | .EXTENSION_BEHAVIOR_WARN => pure "warn".toList
  | .other _ => do
    anvil_assert env 750 false
    pure result

/-- The loop of lines 371-388 over the entries of `m_extension_behaviors` from
`begin` to `end`; the locals are the text and the insertion index. -/
def extension_behaviors_loop (env : Env) :
    List (StdString × ExtensionBehavior) → StdString → Nat → Exec (StdString × Nat)
  | [], final_glsl_source_string, glsl_source_string_second_line_index =>
    pure (final_glsl_source_string, glsl_source_string_second_line_index)
  | (current_extension_name, current_extension_behavior) :: rest, final_glsl_source_string,
      glsl_source_string_second_line_index => do
    let current_extension_behavior_glsl ←
      get_extension_behavior_glsl_code env current_extension_behavior
    let new_line := "#extension ".toList ++ current_extension_name ++ " : ".toList
      ++ current_extension_behavior_glsl ++ "\n".toList
    let final_glsl_source_string ←
      string_insert final_glsl_source_string glsl_source_string_second_line_index new_line
    extension_behaviors_loop env rest final_glsl_source_string
      ((glsl_source_string_second_line_index + new_line.length) % (SIZE_MAX + 1))

/-- The loop of lines 391-401 over the entries of `m_definition_values` from
`begin` to `end`; the insertion index does not change. -/
def definition_values_loop :
    List (StdString × StdString) → StdString → Nat → Exec StdString
  | [], final_glsl_source_string, _ => pure final_glsl_source_string
  | (current_key, current_value) :: rest, final_glsl_source_string,
      glsl_source_string_second_line_index => do
    let new_line := "#define ".toList ++ current_key ++ " ".toList ++ current_value ++ "\n".toList
    let final_glsl_source_string ←
      string_insert final_glsl_source_string glsl_source_string_second_line_index new_line
    definition_values_loop rest final_glsl_source_string glsl_source_string_second_line_index

/-- Lines 315-316 and 361-402 of `bake_spirv_blob`: what the function does to
the text `final_glsl_source_string` that the switch of lines 322-359 has set,
before it hands the text to the compiler (lines 431-432, 441). -/
def bake_spirv_blob_source (env : Env) (g : GLSLShaderToSPIRVGenerator)
    (final_glsl_source_string : StdString) : Exec StdString :=
  let n_extension_behaviors := StdMap.size g.m_extension_behaviors % 2 ^ 32
  let n_definition_values := StdMap.size g.m_definition_values % 2 ^ 32
  if n_extension_behaviors > 0 ∨ n_definition_values > 0 then do
    let glsl_source_string_second_line_index :=
      (find_first_of final_glsl_source_string '\n' + 1) % (SIZE_MAX + 1)
    let (final_glsl_source_string, glsl_source_string_second_line_index) ←
      extension_behaviors_loop env g.m_extension_behaviors final_glsl_source_string
        glsl_source_string_second_line_index
    definition_values_loop g.m_definition_values final_glsl_source_string
      glsl_source_string_second_line_index
  else
    pure final_glsl_source_string

/-! ## `Anvil::GLSLangLimits::GLSLangLimits` (glsl_to_spirv.cpp lines 73-225) -/

def VK_SAMPLE_COUNT_2_BIT : Nat := 0x2
def VK_SAMPLE_COUNT_4_BIT : Nat := 0x4
def VK_SAMPLE_COUNT_8_BIT : Nat := 0x8
def VK_SAMPLE_COUNT_16_BIT : Nat := 0x10
def INT_MAX : Nat := 2 ^ 31 - 1

/-- The fields of `VkPhysicalDeviceLimits` the embedded lines read.  Each is
a `uint32_t`: a value below 2^32. -/
structure VkPhysicalDeviceLimits where
  sampledImageColorSampleCounts : Nat
  sampledImageIntegerSampleCounts : Nat
  sampledImageDepthSampleCounts : Nat
  sampledImageStencilSampleCounts : Nat
  storageImageSampleCounts : Nat
  maxPerStageDescriptorStorageImages : Nat
deriving DecidableEq

/-- The fields of `TBuiltInResource` lines 172-178 and 215-216 write.  Each
is an `int`. -/
structure TBuiltInResource where
  maxImageSamples : Int
  maxVertexImageUniforms : Int
  maxCombinedImageUniforms : Int
  maxSamples : Int
deriving DecidableEq

/-- The macro of line 127 on a `uint32_t` operand: `INT_MAX` is converted to
unsigned for the comparison, and the value of the expression is unsigned. -/
def CLAMP_TO_INT_MAX (x : Nat) : Nat :=
  if x ≤ INT_MAX then x else INT_MAX

/-- The macro of line 127 on an `int32_t` operand. -/
def CLAMP_TO_INT_MAX_int32 (x : Int) : Int :=
  if x ≤ (INT_MAX : Int) then x else (INT_MAX : Int)

/-- The cast `static_cast<int32_t>(x)` of a `uint32_t`. -/
def static_cast_int32 (x : Nat) : Int :=
  if x % 2 ^ 32 < 2 ^ 31 then ((x % 2 ^ 32 : Nat) : Int) else ((x % 2 ^ 32 : Nat) : Int) - 2 ^ 32

/-- Body of the loop of lines 94-125 for one conversion item: the value
stored through `out_result_ptr`. -/
def sample_count_to_samples (sample_count : Nat) : Int :=
  let result : Int := 1
  if sample_count &&& VK_SAMPLE_COUNT_16_BIT ≠ 0 then 16
  else if sample_count &&& VK_SAMPLE_COUNT_8_BIT ≠ 0 then 8
  else if sample_count &&& VK_SAMPLE_COUNT_4_BIT ≠ 0 then 4
  else if sample_count &&& VK_SAMPLE_COUNT_2_BIT ≠ 0 then 2
  else result

/-- The local `max_sampled_image_sample_count` after lines 82-84. -/
def max_sampled_image_sample_count (limits : VkPhysicalDeviceLimits) : Nat :=
  let max_sampled_image_sample_count :=
    max limits.sampledImageColorSampleCounts limits.sampledImageDepthSampleCounts
  let max_sampled_image_sample_count :=
    max max_sampled_image_sample_count limits.sampledImageIntegerSampleCounts
  max max_sampled_image_sample_count limits.sampledImageStencilSampleCounts

/-- The local `max_sampled_image_samples` after the loop of lines 94-125. -/
def max_sampled_image_samples (limits : VkPhysicalDeviceLimits) : Int :=
  sample_count_to_samples (max_sampled_image_sample_count limits)

/-- The local `max_storage_image_samples` after the loop of lines 94-125. -/
def max_storage_image_samples (limits : VkPhysicalDeviceLimits) : Int :=
  let max_storage_image_sample_count := limits.storageImageSampleCounts
  sample_count_to_samples max_storage_image_sample_count

/-- The constructor, lines 73-225: the four fields it derives from the sample
counts and from `maxPerStageDescriptorStorageImages`.  The product of line 178
is a product of 32-bit unsigned values. -/
def GLSLangLimits (limits : VkPhysicalDeviceLimits) : TBuiltInResource :=
  { maxImageSamples := max_storage_image_samples limits
    maxVertexImageUniforms :=
      static_cast_int32 (CLAMP_TO_INT_MAX limits.maxPerStageDescriptorStorageImages)
    maxCombinedImageUniforms :=
      static_cast_int32
        (CLAMP_TO_INT_MAX (5 * limits.maxPerStageDescriptorStorageImages % 2 ^ 32))
    maxSamples :=
      if max_sampled_image_samples limits > max_storage_image_samples limits then
        CLAMP_TO_INT_MAX_int32 (max_sampled_image_samples limits)
      else CLAMP_TO_INT_MAX_int32 (max_storage_image_samples limits) }

/-! ## Reading a trace -/

/-- An "apply binding" call: one of the three `set_memory_sparse` overloads. -/
def Event.isApply : Event → Bool
  | .Buffer_set_memory_sparse .. => true
  | .Image_set_memory_sparse .. => true
  | .Image_set_memory_sparse_opaque_range .. => true
  | _ => false

def Event.isBufferApply : Event → Bool
  | .Buffer_set_memory_sparse .. => true
  | _ => false

def Event.isImageApply : Event → Bool
  | .Image_set_memory_sparse .. => true
  | .Image_set_memory_sparse_opaque_range .. => true
  | _ => false

def Event.isBindSparse : Event → Bool
  | .vkQueueBindSparse .. => true
  | _ => false

def Event.isSubmit : Event → Bool
  | .vkQueueSubmit .. => true
  | _ => false

def Event.isArrayStore : Event → Bool
  | .array_store .. => true
  | _ => false

def Event.isWait : Event → Bool
  | .vkWaitForFences .. => true
  | _ => false

def Event.isFenceCreate : Event → Bool
  | .Fence_create .. => true
  | _ => false

def Event.isPresent : Event → Bool
  | .vkQueuePresentKHR .. => true
  | _ => false

/-- A call of `submit_command_buffer_with_wait_semaphores`. -/
def Event.isWaitSubmission : Event → Bool
  | .submit_command_buffer_with_wait_semaphores .. => true
  | _ => false

/-- Wait-semaphore count and stage-mask array of the record of a native
submit. -/
def Event.waitStageMasks : Event → Option (Nat × List Nat)
  | .vkQueueSubmit _ _ info _ => some (info.waitSemaphoreCount, info.pWaitDstStageMask)
  | _ => none

/-- The kinds of resource an apply call can go to. -/
inductive Owner where
  | buffer (id : Nat)
  | image (id : Nat)
deriving DecidableEq

/-- The object an apply call is made on. -/
def Event.owner : Event → Option Owner
  | .Buffer_set_memory_sparse b .. => some (.buffer b)
  | .Image_set_memory_sparse i .. => some (.image i)
  | .Image_set_memory_sparse_opaque_range i .. => some (.image i)
  | _ => none

/-! ## The requests of a batch, as the specification orders them -/

/-- A request of a batch: its variant, its group and its index in the group. -/
inductive Request where
  | buffer (group : Nat) (index : Nat)
  | image (group : Nat) (index : Nat)
  | image_opaque_range (group : Nat) (index : Nat)
deriving DecidableEq

/-- Requests of one group: buffer requests, then image requests, then
image-opaque requests, each variant in ascending index order. -/
def groupRequests (update : SparseMemoryBindingUpdateInfo) (g : Nat) : List Request :=
  (List.range (update.get_bind_info_properties g).n_buffer_memory_updates).map (.buffer g)
  ++ (List.range (update.get_bind_info_properties g).n_image_memory_updates).map (.image g)
  ++ (List.range (update.get_bind_info_properties g).n_image_opaque_memory_updates).map
      (.image_opaque_range g)

/-- All requests of a batch, groups in ascending order. -/
def batchRequests (update : SparseMemoryBindingUpdateInfo) : List Request :=
  (List.range update.get_bind_sparse_call_args.n_bind_info_items).flatMap (groupRequests update)

/-- The owning resource the batch reports for a request. -/
def requestOwner (update : SparseMemoryBindingUpdateInfo) : Request → Owner
  | .buffer g i => .buffer (update.get_buffer_memory_update_properties g i).buffer_ptr
  | .image g i => .image (update.get_image_memory_update_properties g i).image_ptr
  | .image_opaque_range g i => .image (update.get_image_opaque_memory_update_properties g i).image_ptr

/-- The apply call `bind_sparse_memory` makes for a request: the arguments
are the values the batch reports for it, in the positions of the call sites
(lines 129-132, 158-162, 185-188). -/
def applyCall (update : SparseMemoryBindingUpdateInfo) : Request → Event
  | .buffer g i =>
    .Buffer_set_memory_sparse
      (update.get_buffer_memory_update_properties g i).buffer_ptr
      (update.get_buffer_memory_update_properties g i).memory_block_ptr
      (update.get_buffer_memory_update_properties g i).memory_block_start_offset
      (update.get_buffer_memory_update_properties g i).buffer_memory_start_offset
      (update.get_buffer_memory_update_properties g i).alloc_size
  | .image g i =>
    .Image_set_memory_sparse
      (update.get_image_memory_update_properties g i).image_ptr
      (update.get_image_memory_update_properties g i).subresource
      (update.get_image_memory_update_properties g i).offset
      (update.get_image_memory_update_properties g i).extent
      (update.get_image_memory_update_properties g i).memory_block_ptr
      (update.get_image_memory_update_properties g i).memory_block_start_offset
  | .image_opaque_range g i =>
    .Image_set_memory_sparse_opaque_range
      (update.get_image_opaque_memory_update_properties g i).image_ptr
      (update.get_image_opaque_memory_update_properties g i).resource_offset
      (update.get_image_opaque_memory_update_properties g i).size
      (update.get_image_opaque_memory_update_properties g i).memory_block_ptr
      (update.get_image_opaque_memory_update_properties g i).memory_block_start_offset

/-- The native handle passed for an optional fence. -/
def fenceHandle : Option Fence → VkHandle
  | some fence => fence.fence
  | none => VK_NULL_HANDLE

/-- The native sparse-bind call of a batch on a queue. -/
def bindSparseCall (q : Queue) (update : SparseMemoryBindingUpdateInfo) : Event :=
  .vkQueueBindSparse q.m_queue update.get_bind_sparse_call_args.n_bind_info_items
    update.get_bind_sparse_call_args.bind_info_items
    (fenceHandle update.get_bind_sparse_call_args.fence_ptr)

/-- The result code the environment gives the native sparse-bind call. -/
def bindSparseResult (env : Env) (q : Queue) (update : SparseMemoryBindingUpdateInfo) :
    VkResult :=
  env.vkQueueBindSparse q.m_queue update.get_bind_sparse_call_args.n_bind_info_items
    update.get_bind_sparse_call_args.bind_info_items
    (fenceHandle update.get_bind_sparse_call_args.fence_ptr)

/-- Number of requests of a batch: the three counts of every group, summed. -/
def requestCount (update : SparseMemoryBindingUpdateInfo) : Nat :=
  ((List.range update.get_bind_sparse_call_args.n_bind_info_items).map fun g =>
    (update.get_bind_info_properties g).n_buffer_memory_updates
    + (update.get_bind_info_properties g).n_image_memory_updates
    + (update.get_bind_info_properties g).n_image_opaque_memory_updates).sum

/-- The buffer requests of a batch as (group, index), in batch order. -/
def bufferRequests (update : SparseMemoryBindingUpdateInfo) : List (Nat × Nat) :=
  (List.range update.get_bind_sparse_call_args.n_bind_info_items).flatMap fun g =>
    (List.range (update.get_bind_info_properties g).n_buffer_memory_updates).map (Prod.mk g)

/-- Whether a request is one of the two image variants. -/
def Request.isImage : Request → Bool
  | .buffer .. => false
  | _ => true

/-- A batch with the binding flags of its image and image-opaque requests
replaced; everything else is kept. -/
def withFlags (update : SparseMemoryBindingUpdateInfo) (image_flags opaque_flags : Nat → Nat → Nat) :
    SparseMemoryBindingUpdateInfo :=
  { update with
    get_image_memory_update_properties := fun g i =>
      { update.get_image_memory_update_properties g i with flags := image_flags g i }
    get_image_opaque_memory_update_properties := fun g i =>
      { update.get_image_opaque_memory_update_properties g i with flags := opaque_flags g i } }

/-- Contents of a 64-slot local array after stores of `handle 0`, ...,
`handle (n - 1)` into its slots 0, ..., n - 1. -/
def filledArray (n : Nat) (handle : Nat → VkHandle) : List (Option VkHandle) :=
  (List.range n).map (fun i => some (handle i)) ++ List.replicate (64 - n) none

/-- The stores of one of the three loops of lines 379-398. -/
def storeEvents (array : LocalArray) (n : Nat) (handle : Nat → VkHandle) : List Event :=
  (List.range n).map fun i => .array_store array i (handle i)

/-- The fence in use after lines 372-377. -/
def fenceInUse (env : Env) (should_block : Bool) (opt_fence_ptr : Option Fence) : Option Fence :=
  if opt_fence_ptr = none ∧ should_block = true then some (env.Fence_create false)
  else opt_fence_ptr

/-- The fence creation of lines 372-377, when there is one. -/
def fenceCreation (should_block : Bool) (opt_fence_ptr : Option Fence) : List Event :=
  if opt_fence_ptr = none ∧ should_block = true then [.Fence_create false] else []

/-- The record of lines 400-408 for given counts, handles and stage masks. -/
def submitInfo (n_command_buffers : Nat) (cmd_buffer : Nat → VkHandle)
    (n_semaphores_to_signal : Nat) (signal_semaphore : Nat → VkHandle)
    (n_semaphores_to_wait_on : Nat) (wait_semaphore : Nat → VkHandle)
    (dst_stage_masks : List Nat) : VkSubmitInfo :=
  { commandBufferCount := n_command_buffers
    pCommandBuffers := filledArray n_command_buffers cmd_buffer
    pNext := nullptr
    pSignalSemaphores := filledArray n_semaphores_to_signal signal_semaphore
    pWaitDstStageMask := dst_stage_masks
    pWaitSemaphores := filledArray n_semaphores_to_wait_on wait_semaphore
    signalSemaphoreCount := n_semaphores_to_signal
    sType := VK_STRUCTURE_TYPE_SUBMIT_INFO
    waitSemaphoreCount := n_semaphores_to_wait_on }

/-- The native submit call of lines 411-415. -/
def submitCall (q : Queue) (info : VkSubmitInfo) (fence : Option Fence) : Event :=
  .vkQueueSubmit q.m_queue 1 info (fenceHandle fence)

/-- The result code the environment gives the native submit call. -/
def submitResult (env : Env) (q : Queue) (info : VkSubmitInfo) (fence : Option Fence) :
    VkResult :=
  env.vkQueueSubmit q.m_queue 1 info (fenceHandle fence)

/-- The fence wait of lines 423-427. -/
def waitCall (q : Queue) (fence : Option Fence) : Event :=
  .vkWaitForFences q.m_device_ptr.device_vk 1 (fenceHandle fence) VK_TRUE UINT64_MAX

/-- The result code the environment gives the fence wait. -/
def waitResult (env : Env) (q : Queue) (fence : Option Fence) : VkResult :=
  env.vkWaitForFences q.m_device_ptr.device_vk 1 (fenceHandle fence) VK_TRUE UINT64_MAX

/-- What a check at `line` leaves in the trace. -/
def checkEvents (line : Nat) (cond : Bool) : List Event :=
  if cond then [] else [.assertion_failed line]

/-- Whether a check ends the operation. -/
def checkStops (env : Env) (cond : Bool) : Bool :=
  !cond && env.assertions_fatal

/-- What the sanity checks of lines 366-369 leave in the trace. -/
def sanityEvents (q : Queue) (n_command_buffers n_semaphores_to_signal
    n_semaphores_to_wait_on : Nat) : List Event :=
  checkEvents 366 (decide (q.m_device_ptr.type = .DEVICE_TYPE_SINGLE_GPU))
  ++ checkEvents 367 (decide (n_command_buffers < 64))
  ++ checkEvents 368 (decide (n_semaphores_to_signal < 64))
  ++ checkEvents 369 (decide (n_semaphores_to_wait_on < 64))

/-- The run of lines 411-429 of `submit_command_buffers` in closed form (see
`submit_and_wait_run`): the native submit, its check, and the wait of a
blocking call with its check. -/
def submit_and_wait (env : Env) (q : Queue) (info : VkSubmitInfo) (should_block : Bool)
    (fence : Option Fence) : Exec Unit :=
  ⟨submitCall q info fence
      :: checkEvents 416 (env.is_vk_call_successful (submitResult env q info fence))
      ++ (if should_block = true ∧ checkStops env
            (env.is_vk_call_successful (submitResult env q info fence)) = false then
          waitCall q fence
            :: checkEvents 428 (env.is_vk_call_successful (waitResult env q fence))
          else []),
    if checkStops env (env.is_vk_call_successful (submitResult env q info fence)) = true
        ∨ (should_block = true ∧ checkStops env
            (env.is_vk_call_successful (waitResult env q fence)) = true)
      then .aborted else .returned ()⟩

/-- The events that order a blocking submission: fence creation, native
submit, fence wait. -/
def Event.isFenceStep (e : Event) : Bool :=
  e.isFenceCreate || e.isSubmit || e.isWait

/-- A native submit or a fence wait. -/
def Event.isSubmitOrWait (e : Event) : Bool :=
  e.isSubmit || e.isWait

/-- Contents of a local array of `capacity` slots after stores of `handle 0`,
..., `handle (n - 1)` into its slots 0, ..., n - 1. -/
def filledArrayOf (capacity n : Nat) (handle : Nat → VkHandle) : List (Option VkHandle) :=
  (List.range n).map (fun i => some (handle i)) ++ List.replicate (capacity - n) none

/-- The record of lines 273-280 for a swapchain, an image index, and wait
semaphores. -/
def presentInfo (swapchain : Swapchain) (swapchain_image_index n_wait_semaphores : Nat)
    (wait_semaphore : Nat → VkHandle) : VkPresentInfoKHR :=
  { pImageIndices := [swapchain_image_index]
    pNext := nullptr
    pResults := List.replicate MAX_SWAPCHAINS none
    pSwapchains := filledArrayOf MAX_SWAPCHAINS 1 fun _ => swapchain.swapchain_vk
    pWaitSemaphores := filledArrayOf 8 n_wait_semaphores wait_semaphore
    sType := VK_STRUCTURE_TYPE_PRESENT_INFO_KHR
    swapchainCount := 1
    waitSemaphoreCount := n_wait_semaphores }

/-- Rank of a result code in the order of the specification: device-lost,
surface-lost, out-of-date, suboptimal, anything else. -/
def severity (r : VkResult) : Nat :=
  if r = VK_ERROR_DEVICE_LOST then 4
  else if r = VK_ERROR_SURFACE_LOST_KHR then 3
  else if r = VK_ERROR_OUT_OF_DATE_KHR then 2
  else if r = VK_SUBOPTIMAL_KHR then 1
  else 0

/-- The more severe of the code of the native call and the code of the
target; the code of the native call when neither is more severe. -/
def mostSevere (result presentation_result : VkResult) : VkResult :=
  if severity result < severity presentation_result then presentation_result else result

/-- The code `present` hands back on the native path when it returns. -/
def presentedCode (env : PresentEnv) (q : Queue) (info : VkPresentInfoKHR) : VkResult :=
  if env.is_vk_call_successful (env.vkQueuePresentKHR q.m_queue info) = true then
    mostSevere (env.vkQueuePresentKHR q.m_queue info) (env.presentation_result q.m_queue info)
  else env.vkQueuePresentKHR q.m_queue info

/-! ## The lines `bake_spirv_blob` adds, as the claims describe them -/

/-- Whether a value is one of the four enumerators. -/
def ExtensionBehavior.isEnumerator : ExtensionBehavior → Bool
  | .other _ => false
  | _ => true

/-- The word of an enumerator in an extension line. -/
def behaviorCode : ExtensionBehavior → StdString
  | .EXTENSION_BEHAVIOR_DISABLE => "disable".toList
  | .EXTENSION_BEHAVIOR_ENABLE => "enable".toList
  | .EXTENSION_BEHAVIOR_REQUIRE => "require".toList
  | .EXTENSION_BEHAVIOR_WARN => "warn".toList
  | .other _ => []

/-- The line of a registered extension. -/
def extensionLine (entry : StdString × ExtensionBehavior) : StdString :=
  "#extension ".toList ++ entry.1 ++ " : ".toList ++ behaviorCode entry.2 ++ "\n".toList

/-- The line of a registered definition. -/
def defineLine (entry : StdString × StdString) : StdString :=
  "#define ".toList ++ entry.1 ++ " ".toList ++ entry.2 ++ "\n".toList

/-- The keys of a map in iteration order. -/
def StdMap.keys {κ β : Type} (m : StdMap κ β) : List κ := m.map Prod.fst

/-- The extension lines, in the iteration order of the map. -/
def extensionLines (g : GLSLShaderToSPIRVGenerator) : List StdString :=
  g.m_extension_behaviors.map extensionLine

/-- The define lines, in the reverse of the iteration order of the map. -/
def defineLines (g : GLSLShaderToSPIRVGenerator) : List StdString :=
  g.m_definition_values.reverse.map defineLine

/-- The added block: the extension lines followed by the define lines. -/
def injectedBlock (g : GLSLShaderToSPIRVGenerator) : StdString :=
  (extensionLines g).flatten ++ (defineLines g).flatten

/-- The index just after the first newline; 0 for a text without a newline. -/
def secondLineIndex (s : StdString) : Nat :=
  if '\n' ∈ s then s.indexOf '\n' + 1 else 0

/-- The generator the constructor of lines 233-247 leaves: both maps empty. -/
def emptyGenerator : GLSLShaderToSPIRVGenerator := ⟨[], []⟩

/-- The generators a program can hold: the one the constructor leaves, and the
ones a returning call of `add_extension_behavior`, `add_definition_value_pair`
or `add_empty_definition` hands back for a generator it can hold. -/
inductive Registered (env : Env) : GLSLShaderToSPIRVGenerator → Prop where
  | create : Registered env emptyGenerator
  | extension (g g' : GLSLShaderToSPIRVGenerator) (extension_name : StdString)
      (behavior : ExtensionBehavior) (result : Bool) :
      Registered env g →
      (add_extension_behavior env g extension_name behavior).outcome = .returned (result, g') →
      Registered env g'
  | definition (g g' : GLSLShaderToSPIRVGenerator) (definition_name value : StdString)
      (result : Bool) :
      Registered env g →
      (add_definition_value_pair env g definition_name value).outcome = .returned (result, g') →
      Registered env g'
  | empty_definition (g g' : GLSLShaderToSPIRVGenerator) (definition_name : StdString)
      (result : Bool) :
      Registered env g →
      (add_empty_definition env g definition_name).outcome = .returned (result, g') →
      Registered env g'

/-! ## The limits of the shader compiler, as the claims describe them -/

/-- The largest sample count among 16, 8, 4, 2 whose bit is set in at least
one of the masks; 1 when there is none. -/
def largestSupportedSampleCount (masks : List Nat) : Int :=
  if masks.any (fun mask => mask &&& 16 ≠ 0) then 16
  else if masks.any (fun mask => mask &&& 8 ≠ 0) then 8
  else if masks.any (fun mask => mask &&& 4 ≠ 0) then 4
  else if masks.any (fun mask => mask &&& 2 ≠ 0) then 2
  else 1

/-- The four sampled-image masks of a device. -/
def sampledImageMasks (limits : VkPhysicalDeviceLimits) : List Nat :=
  [limits.sampledImageColorSampleCounts, limits.sampledImageDepthSampleCounts,
    limits.sampledImageIntegerSampleCounts, limits.sampledImageStencilSampleCounts]

/-! ## Sample inputs -/


/-- The array of `n` command buffers with handles 100, 101, ... -/
def sampleCmdBuffers (n : Nat) : List (Option CommandBufferBase) :=
  (List.range n).map fun i => some ⟨100 + i⟩

/-- An environment in which the native sparse-bind call returns `result`; the
other native calls succeed, and only `VK_SUCCESS` counts as successful. -/
def sampleEnv (fatal : Bool) (result : VkResult) : Env where
  assertions_fatal := fatal
  is_vk_call_successful := fun r => decide (r = VK_SUCCESS)
  vkQueueBindSparse := fun _ _ _ _ => result
  vkQueueSubmit := fun _ _ _ _ => VK_SUCCESS
  vkWaitForFences := fun _ _ _ _ _ => VK_SUCCESS
  Fence_create := fun _ => ⟨900⟩

def sampleQueue : Queue := ⟨7, ⟨.DEVICE_TYPE_SINGLE_GPU, 3⟩⟩

/-- Two groups: the first with one request of each variant, the second with
two buffer requests; the batch carries fence 55. -/
def sampleUpdate : SparseMemoryBindingUpdateInfo where
  get_bind_sparse_call_args := ⟨2, 100, some ⟨55⟩⟩
  get_bind_info_properties := fun g => if g = 0 then ⟨1, 1, 1⟩ else ⟨2, 0, 0⟩
  get_buffer_memory_update_properties := fun g i =>
    ⟨10 + 2 * g + i, 4096 * i, some (20 + g), 65536 * (i + 1), 256⟩
  get_image_memory_update_properties := fun g i =>
    ⟨30 + g + i, ⟨1, 0, i⟩, ⟨0, 0, 0⟩, ⟨64, 64, 1⟩, 1, some 21, 131072⟩
  get_image_opaque_memory_update_properties := fun g i =>
    ⟨40 + g + i, 8192, 512, 1, none, 0⟩

/-- The empty batch without a fence. -/
def emptyUpdate : SparseMemoryBindingUpdateInfo where
  get_bind_sparse_call_args := ⟨0, 0, none⟩
  get_bind_info_properties := fun _ => ⟨0, 0, 0⟩
  get_buffer_memory_update_properties := fun _ _ => ⟨0, 0, none, 0, 0⟩
  get_image_memory_update_properties := fun _ _ =>
    ⟨0, ⟨0, 0, 0⟩, ⟨0, 0, 0⟩, ⟨0, 0, 0⟩, 0, none, 0⟩
  get_image_opaque_memory_update_properties := fun _ _ => ⟨0, 0, 0, 0, none, 0⟩

/-- An environment for `present`: the native present call returns `result`
and leaves `target_result` for the target; submit and wait succeed; only
`VK_SUCCESS` counts as successful; universal queue 0 of a device is the queue
with native handle 8. -/
def samplePresentEnv (fatal : Bool) (result target_result : VkResult) : PresentEnv where
  toEnv := sampleEnv fatal VK_SUCCESS
  vkQueuePresentKHR := fun _ _ => result
  presentation_result := fun _ _ => target_result
  get_universal_queue := fun device _ => some ⟨8, device⟩

/-- An environment in which the native sparse-bind call reports
`VK_ERROR_DEVICE_LOST` and the native present call
`VK_ERROR_OUT_OF_DATE_KHR`, for the call and for the target. -/
def sampleFailingEnv (fatal : Bool) : PresentEnv where
  toEnv := sampleEnv fatal VK_ERROR_DEVICE_LOST
  vkQueuePresentKHR := fun _ _ => VK_ERROR_OUT_OF_DATE_KHR
  presentation_result := fun _ _ => VK_ERROR_OUT_OF_DATE_KHR
  get_universal_queue := fun device _ => some ⟨8, device⟩

/-- A swapchain on a live window of the given platform. -/
def sampleSwapchain (platform : WindowPlatform) : Swapchain := ⟨70, .alive ⟨platform⟩⟩

/-- The array of `n` semaphores with handles 300, 301, ... -/
def sampleSemaphores (n : Nat) : List (Option Semaphore) :=
  (List.range n).map fun i => some ⟨300 + i⟩

/-- An environment for `present` in which every result code counts as
successful: the native present call returns `result` and leaves
`target_result` for the target. -/
def sampleLenientEnv (fatal : Bool) (result target_result : VkResult) : PresentEnv where
  toEnv :=
    { assertions_fatal := fatal
      is_vk_call_successful := fun _ => true
      vkQueueBindSparse := fun _ _ _ _ => VK_SUCCESS
      vkQueueSubmit := fun _ _ _ _ => VK_SUCCESS
      vkWaitForFences := fun _ _ _ _ _ => VK_SUCCESS
      Fence_create := fun _ => ⟨900⟩ }
  vkQueuePresentKHR := fun _ _ => result
  presentation_result := fun _ _ => target_result
  get_universal_queue := fun device _ => some ⟨8, device⟩

/-- A generator with the extensions `GL_A` (enable) and `GL_B` (require) and
the definitions `N` (value 4) and `USE_FOG` (empty value). -/
def sampleGenerator : GLSLShaderToSPIRVGenerator where
  m_definition_values := [("N".toList, "4".toList), ("USE_FOG".toList, [])]
  m_extension_behaviors :=
    [("GL_A".toList, .EXTENSION_BEHAVIOR_ENABLE), ("GL_B".toList, .EXTENSION_BEHAVIOR_REQUIRE)]

/-- A source of two lines. -/
def sampleSource : StdString := "#version 450\nvoid main();\n".toList

/-- Limits of a device whose colour images support 1, 4 and 32 samples, whose
depth and stencil images support 1 to 16 samples, whose integer images and
storage images support 1 sample; `n` storage images per stage. -/
def sampleLimits (n : Nat) : VkPhysicalDeviceLimits where
  sampledImageColorSampleCounts := 0x25
  sampledImageIntegerSampleCounts := 0x01
  sampledImageDepthSampleCounts := 0x1F
  sampledImageStencilSampleCounts := 0x1F
  storageImageSampleCounts := 0x01
  maxPerStageDescriptorStorageImages := n

/-! ## Runs compose -/

@[simp] theorem Exec.bind_eq_andThen {α β : Type} (m : Exec α) (f : α → Exec β) :
    (m >>= f) = Exec.andThen m f := rfl

@[simp] theorem Exec.pure_eq_ret {α : Type} (a : α) : (pure a : Exec α) = Exec.ret a := rfl

@[simp] theorem Exec.ret_andThen {α β : Type} (a : α) (f : α → Exec β) :
    Exec.andThen (Exec.ret a) f = f a := by
  simp [Exec.andThen, Exec.ret]

@[simp] theorem Exec.emit_andThen {β : Type} (e : Event) (f : Unit → Exec β) :
    Exec.andThen (Exec.emit e) f = ⟨e :: (f ()).trace, (f ()).outcome⟩ := by
  simp [Exec.andThen, Exec.emit]

theorem Exec.andThen_mk_returned {α β : Type} (t : List Event) (a : α) (f : α → Exec β) :
    Exec.andThen ⟨t, .returned a⟩ f = ⟨t ++ (f a).trace, (f a).outcome⟩ := rfl

theorem Exec.andThen_returned {α β : Type} (m : Exec α) (f : α → Exec β) (a : α)
    (h : m.outcome = .returned a) :
    Exec.andThen m f = ⟨m.trace ++ (f a).trace, (f a).outcome⟩ := by
  simp [Exec.andThen, h]

/-- A loop whose body always returns makes the calls of its iterations, one
iteration after the other, and returns. -/
theorem Exec.loop_unit (body : Nat → Unit → Exec Unit)
    (h : ∀ i, (body i ()).outcome = .returned ()) (l : List Nat) :
    Exec.loop body l () = ⟨l.flatMap fun i => (body i ()).trace, .returned ()⟩ := by
  induction l with
  | nil => rfl
  | cons i is ih =>
    simp [Exec.loop, Exec.andThen_returned _ _ () (h i), ih]

theorem Exec.for_lt_unit (body : Nat → Unit → Exec Unit)
    (h : ∀ i, (body i ()).outcome = .returned ()) (n : Nat) :
    Exec.for_lt n () body = ⟨(List.range n).flatMap fun i => (body i ()).trace, .returned ()⟩ :=
  Exec.loop_unit body h (List.range n)

/-! ## The run of `bind_sparse_memory` -/

theorem flatMap_singleton_map {α β : Type} (l : List α) (f : α → β) :
    (l.flatMap fun a => [f a]) = l.map f := by
  induction l with
  | nil => rfl
  | cons a l ih => simp [List.flatMap_cons, ih]

/-- One group: the calls of its requests in the order of `groupRequests`. -/
theorem bind_info_body_run (update : SparseMemoryBindingUpdateInfo) (g : Nat) :
    bind_info_body update g = ⟨(groupRequests update g).map (applyCall update), .returned ()⟩ := by
  unfold bind_info_body
  simp only [Exec.bind_eq_andThen]
  rw [Exec.for_lt_unit _ (fun _ => rfl), Exec.for_lt_unit _ (fun _ => rfl),
    Exec.for_lt_unit _ (fun _ => rfl)]
  simp [Exec.andThen, buffer_memory_update_body, image_memory_update_body,
    image_opaque_memory_update_body, Exec.emit, flatMap_singleton_map, groupRequests,
    applyCall, Function.comp_def]

/-- The fan-out loop of lines 94-190. -/
theorem fan_out_run (update : SparseMemoryBindingUpdateInfo) (n : Nat) :
    (Exec.for_lt n () fun n_bind_info _ => bind_info_body update n_bind_info)
      = ⟨((List.range n).flatMap (groupRequests update)).map (applyCall update),
          .returned ()⟩ := by
  rw [Exec.for_lt_unit _ (fun i => by rw [bind_info_body_run])]
  simp [bind_info_body_run, List.map_flatMap]

/-- The whole run of `bind_sparse_memory`, by result code of the native call
and behaviour of a failed assertion. -/
theorem bind_sparse_memory_run (env : Env) (q : Queue) (update : SparseMemoryBindingUpdateInfo) :
    bind_sparse_memory env q update =
      if bindSparseResult env q update = VK_SUCCESS then
        ⟨bindSparseCall q update :: (batchRequests update).map (applyCall update),
          .returned true⟩
      else if env.assertions_fatal = true then
        ⟨[bindSparseCall q update, .assertion_failed 92], .aborted⟩
      else
        ⟨bindSparseCall q update :: .assertion_failed 92
            :: (batchRequests update).map (applyCall update), .returned false⟩ := by
  have hf : (match update.get_bind_sparse_call_args.fence_ptr with
      | some fence => fence.fence
      | none => VK_NULL_HANDLE) = fenceHandle update.get_bind_sparse_call_args.fence_ptr := by
    cases update.get_bind_sparse_call_args.fence_ptr <;> rfl
  unfold bind_sparse_memory
  simp only [Exec.bind_eq_andThen, Exec.pure_eq_ret, Exec.emit_andThen, fan_out_run, hf]
  by_cases hr : bindSparseResult env q update = VK_SUCCESS
  · have hr2 : env.vkQueueBindSparse q.m_queue update.get_bind_sparse_call_args.n_bind_info_items
        update.get_bind_sparse_call_args.bind_info_items
        (fenceHandle update.get_bind_sparse_call_args.fence_ptr) = VK_SUCCESS := hr
    simp [hr, hr2, anvil_assert, Exec.andThen, Exec.ret, bindSparseCall, batchRequests]
  · have hr2 : ¬ env.vkQueueBindSparse q.m_queue
        update.get_bind_sparse_call_args.n_bind_info_items
        update.get_bind_sparse_call_args.bind_info_items
        (fenceHandle update.get_bind_sparse_call_args.fence_ptr) = VK_SUCCESS := hr
    cases hfatal : env.assertions_fatal <;>
      simp [hr, hr2, hfatal, anvil_assert, Exec.andThen, Exec.ret, bindSparseCall, batchRequests]

/-! ## Sparse binding: the claims -/

theorem isApply_applyCall (update : SparseMemoryBindingUpdateInfo) (r : Request) :
    (applyCall update r).isApply = true := by
  cases r <;> rfl

theorem filter_isApply_calls (update : SparseMemoryBindingUpdateInfo) (l : List Request) :
    (l.map (applyCall update)).filter Event.isApply = l.map (applyCall update) := by
  apply List.filter_eq_self.mpr
  intro e he
  obtain ⟨r, _, rfl⟩ := List.mem_map.mp he
  exact isApply_applyCall update r

theorem filter_isBindSparse_calls (update : SparseMemoryBindingUpdateInfo) (l : List Request) :
    (l.map (applyCall update)).filter Event.isBindSparse = [] := by
  apply List.filter_eq_nil_iff.mpr
  intro e he
  obtain ⟨r, _, rfl⟩ := List.mem_map.mp he
  cases r <;> simp [applyCall, Event.isBindSparse]

theorem owner_applyCall (update : SparseMemoryBindingUpdateInfo) (r : Request) :
    (applyCall update r).owner = some (requestOwner update r) := by
  cases r <;> rfl

theorem length_groupRequests (update : SparseMemoryBindingUpdateInfo) (g : Nat) :
    (groupRequests update g).length =
      (update.get_bind_info_properties g).n_buffer_memory_updates
      + (update.get_bind_info_properties g).n_image_memory_updates
      + (update.get_bind_info_properties g).n_image_opaque_memory_updates := by
  simp [groupRequests, Nat.add_assoc]

theorem length_batchRequests (update : SparseMemoryBindingUpdateInfo) :
    (batchRequests update).length = requestCount update := by
  unfold batchRequests requestCount
  rw [List.length_flatMap]
  congr 1
  exact List.map_congr_left fun g _ => length_groupRequests update g

/-- The apply calls of a run in which the fan-out is reached. -/
theorem apply_calls_of_fan_out (env : Env) (q : Queue) (update : SparseMemoryBindingUpdateInfo)
    (h : bindSparseResult env q update = VK_SUCCESS ∨ env.assertions_fatal = false) :
    (bind_sparse_memory env q update).trace.filter Event.isApply
      = (batchRequests update).map (applyCall update) := by
  rw [bind_sparse_memory_run]
  by_cases hr : bindSparseResult env q update = VK_SUCCESS
  · simp [hr, bindSparseCall, Event.isApply, filter_isApply_calls]
  · have hfatal : env.assertions_fatal = false := h.resolve_left hr
    simp [hr, hfatal, bindSparseCall, Event.isApply, filter_isApply_calls]

/-- C1: when the native sparse-bind call succeeds, the apply calls of
`bind_sparse_memory` are, position by position, the calls of the requests of
the batch in the order groups ascending, then buffer, image, image-opaque
requests, then ascending index; each call goes to the owner the batch reports
for its request, and their number is the sum of the three counts of all
groups. -/
theorem bind_sparse_memory_fans_out_in_order (env : Env) (q : Queue)
    (update : SparseMemoryBindingUpdateInfo)
    (h : bindSparseResult env q update = VK_SUCCESS) :
    (bind_sparse_memory env q update).trace.filter Event.isApply
        = (batchRequests update).map (applyCall update)
      ∧ ((bind_sparse_memory env q update).trace.filter Event.isApply).map Event.owner
        = (batchRequests update).map (fun r => some (requestOwner update r))
      ∧ ((bind_sparse_memory env q update).trace.filter Event.isApply).length
        = requestCount update := by
  have hcalls := apply_calls_of_fan_out env q update (Or.inl h)
  refine ⟨hcalls, ?_, ?_⟩
  · rw [hcalls, List.map_map]
    exact List.map_congr_left fun r _ => owner_applyCall update r
  · rw [hcalls, List.length_map, length_batchRequests]

theorem bind_sparse_memory_fans_out_in_order_sample :
    (bind_sparse_memory (sampleEnv true VK_SUCCESS) sampleQueue sampleUpdate).trace.filter
        Event.isApply
      = [.Buffer_set_memory_sparse 10 (some 20) 65536 0 256,
         .Image_set_memory_sparse 30 ⟨1, 0, 0⟩ ⟨0, 0, 0⟩ ⟨64, 64, 1⟩ (some 21) 131072,
         .Image_set_memory_sparse_opaque_range 40 8192 512 none 0,
         .Buffer_set_memory_sparse 12 (some 21) 65536 0 256,
         .Buffer_set_memory_sparse 13 (some 21) 131072 4096 256]
      ∧ requestCount sampleUpdate = 5 :=
  ⟨(bind_sparse_memory_fans_out_in_order (sampleEnv true VK_SUCCESS) sampleQueue sampleUpdate
      rfl).1.trans rfl, rfl⟩

/-- C2, as stated, fails where a failed assertion ends the operation: with one
batch and one queue, a native call that reports `VK_ERROR_DEVICE_LOST` is
followed by no apply call, a native call that succeeds by five. -/
theorem bind_sparse_memory_failure_stops_at_assertion :
    (bind_sparse_memory (sampleEnv true VK_ERROR_DEVICE_LOST) sampleQueue sampleUpdate).trace
        = [.vkQueueBindSparse 7 2 100 55, .assertion_failed 92]
      ∧ (bind_sparse_memory (sampleEnv true VK_ERROR_DEVICE_LOST) sampleQueue
          sampleUpdate).trace.filter Event.isApply
        ≠ (bind_sparse_memory (sampleEnv true VK_SUCCESS) sampleQueue
          sampleUpdate).trace.filter Event.isApply := by
  decide

/-- C2, amended: when the native call reports a failure code and execution
continues behind a failed assertion, the apply calls are those of every run of
the same batch in which the native call succeeds, same parameters, same order;
when a failed assertion ends the operation, the run ends at the assertion of
line 92 and makes no apply call. -/
theorem bind_sparse_memory_fan_out_on_failure (env : Env) (q : Queue)
    (update : SparseMemoryBindingUpdateInfo)
    (h : bindSparseResult env q update ≠ VK_SUCCESS) :
    (env.assertions_fatal = false →
        ∀ (env_ok : Env) (q_ok : Queue), bindSparseResult env_ok q_ok update = VK_SUCCESS →
          (bind_sparse_memory env q update).trace.filter Event.isApply
            = (bind_sparse_memory env_ok q_ok update).trace.filter Event.isApply)
      ∧ (env.assertions_fatal = true →
          (bind_sparse_memory env q update).trace
              = [bindSparseCall q update, .assertion_failed 92]
            ∧ (bind_sparse_memory env q update).trace.filter Event.isApply = []
            ∧ (bind_sparse_memory env q update).outcome = .aborted) := by
  refine ⟨fun hfatal env_ok q_ok hok => ?_, fun hfatal => ?_⟩
  · rw [apply_calls_of_fan_out env q update (Or.inr hfatal),
      apply_calls_of_fan_out env_ok q_ok update (Or.inl hok)]
  · rw [bind_sparse_memory_run]
    simp [h, hfatal, bindSparseCall, Event.isApply]

theorem bind_sparse_memory_fan_out_on_failure_sample :
    (bind_sparse_memory (sampleEnv false VK_ERROR_DEVICE_LOST) sampleQueue
        sampleUpdate).trace.filter Event.isApply
      = (bind_sparse_memory (sampleEnv true VK_SUCCESS) sampleQueue
        sampleUpdate).trace.filter Event.isApply :=
  (bind_sparse_memory_fan_out_on_failure (sampleEnv false VK_ERROR_DEVICE_LOST) sampleQueue
    sampleUpdate (by decide)).1 rfl (sampleEnv true VK_SUCCESS) sampleQueue rfl

/-- C3, as stated, fails where a failed assertion ends the operation: on
`VK_ERROR_DEVICE_LOST` the run ends at the assertion of line 92 and returns
nothing, so it does not return false. -/
theorem bind_sparse_memory_failure_not_returned :
    (bind_sparse_memory (sampleEnv true VK_ERROR_DEVICE_LOST) sampleQueue sampleUpdate).outcome
        = .aborted
      ∧ (bind_sparse_memory (sampleEnv true VK_ERROR_DEVICE_LOST) sampleQueue
          sampleUpdate).outcome ≠ .returned false := by
  decide

/-- C3, amended: `bind_sparse_memory` returns true exactly when the native
call returns `VK_SUCCESS`; on any other code it returns false when
execution continues behind a failed assertion, and ends at the assertion of
line 92 without a return value when a failed assertion ends the operation.
In each case the native call is made once (no retry). -/
theorem bind_sparse_memory_result (env : Env) (q : Queue)
    (update : SparseMemoryBindingUpdateInfo) :
    ((bind_sparse_memory env q update).outcome = .returned true
        ↔ bindSparseResult env q update = VK_SUCCESS)
      ∧ ((bind_sparse_memory env q update).outcome = .returned false
        ↔ bindSparseResult env q update ≠ VK_SUCCESS ∧ env.assertions_fatal = false)
      ∧ ((bind_sparse_memory env q update).outcome = .aborted
        ↔ bindSparseResult env q update ≠ VK_SUCCESS ∧ env.assertions_fatal = true)
      ∧ (bind_sparse_memory env q update).trace.filter Event.isBindSparse
        = [bindSparseCall q update] := by
  rw [bind_sparse_memory_run]
  by_cases hr : bindSparseResult env q update = VK_SUCCESS
  · simp [hr, bindSparseCall, Event.isBindSparse, filter_isBindSparse_calls]
  · cases hfatal : env.assertions_fatal <;>
      simp [hr, hfatal, bindSparseCall, Event.isBindSparse, filter_isBindSparse_calls]

/-- C4: every run of `bind_sparse_memory` makes exactly one native sparse-bind
call, on the queue, with the count and the array of
`get_bind_sparse_call_args`, and with the handle of the batch fence, or the
null handle when the batch has no fence. -/
theorem bind_sparse_memory_one_native_call (env : Env) (q : Queue)
    (update : SparseMemoryBindingUpdateInfo) :
    ∃ fence_vk : VkHandle,
      (bind_sparse_memory env q update).trace.filter Event.isBindSparse
        = [.vkQueueBindSparse q.m_queue update.get_bind_sparse_call_args.n_bind_info_items
            update.get_bind_sparse_call_args.bind_info_items fence_vk]
      ∧ (∀ fence : Fence, update.get_bind_sparse_call_args.fence_ptr = some fence →
          fence_vk = fence.fence)
      ∧ (update.get_bind_sparse_call_args.fence_ptr = none → fence_vk = VK_NULL_HANDLE) := by
  refine ⟨fenceHandle update.get_bind_sparse_call_args.fence_ptr, ?_, ?_, ?_⟩
  · rw [bind_sparse_memory_run]
    by_cases hr : bindSparseResult env q update = VK_SUCCESS
    · simp [hr, bindSparseCall, Event.isBindSparse, filter_isBindSparse_calls]
    · cases hfatal : env.assertions_fatal <;>
        simp [hr, hfatal, bindSparseCall, Event.isBindSparse, filter_isBindSparse_calls]
  · intro fence hfence
    rw [hfence]; rfl
  · intro hfence
    rw [hfence]; rfl

theorem filter_isImageApply_calls (update : SparseMemoryBindingUpdateInfo) (l : List Request) :
    (l.map (applyCall update)).filter Event.isImageApply
      = (l.filter Request.isImage).map (applyCall update) := by
  induction l with
  | nil => rfl
  | cons r l ih => cases r <;> simp [applyCall, Event.isImageApply, Request.isImage, ih]

theorem filter_isBufferApply_group (update : SparseMemoryBindingUpdateInfo) (g : Nat) :
    ((groupRequests update g).map (applyCall update)).filter Event.isBufferApply
      = ((List.range (update.get_bind_info_properties g).n_buffer_memory_updates).map
          (Prod.mk g)).map fun gi => applyCall update (.buffer gi.1 gi.2) := by
  simp [groupRequests, List.filter_map, Function.comp_def, applyCall, Event.isBufferApply]

theorem filter_isBufferApply_calls (update : SparseMemoryBindingUpdateInfo) :
    ((batchRequests update).map (applyCall update)).filter Event.isBufferApply
      = (bufferRequests update).map fun gi => applyCall update (.buffer gi.1 gi.2) := by
  unfold batchRequests bufferRequests
  rw [List.map_flatMap, List.filter_flatMap, List.map_flatMap]
  congr 1
  funext g
  exact filter_isBufferApply_group update g

theorem applyCall_withFlags (update : SparseMemoryBindingUpdateInfo)
    (image_flags opaque_flags : Nat → Nat → Nat) :
    applyCall (withFlags update image_flags opaque_flags) = applyCall update := by
  funext r
  cases r <;> rfl

theorem batchRequests_withFlags (update : SparseMemoryBindingUpdateInfo)
    (image_flags opaque_flags : Nat → Nat → Nat) :
    batchRequests (withFlags update image_flags opaque_flags) = batchRequests update := rfl

/-- C5, as stated, fails: two batches that differ in nothing but the binding
flags of their image and image-opaque requests (1 in one, 0 in the other) lead
to the same apply calls with the same arguments, so the flags are not among
the arguments of the apply calls. -/
theorem binding_flags_do_not_reach_apply_calls :
    (sampleUpdate.get_image_memory_update_properties 0 0).flags = 1
      ∧ ((withFlags sampleUpdate (fun _ _ => 0) (fun _ _ => 0)).get_image_memory_update_properties
          0 0).flags = 0
      ∧ (sampleUpdate.get_image_opaque_memory_update_properties 0 0).flags = 1
      ∧ ((withFlags sampleUpdate (fun _ _ => 0)
          (fun _ _ => 0)).get_image_opaque_memory_update_properties 0 0).flags = 0
      ∧ (bind_sparse_memory (sampleEnv true VK_SUCCESS) sampleQueue sampleUpdate).trace.filter
          Event.isApply
        = (bind_sparse_memory (sampleEnv true VK_SUCCESS) sampleQueue
            (withFlags sampleUpdate (fun _ _ => 0) (fun _ _ => 0))).trace.filter
              Event.isApply := by
  decide

/-- C5, amended: in every run that reaches the fan-out, the calls made on
images are those of the image and image-opaque requests in batch order; the
call of an image request passes image, subresource, offset, extent, memory
block reference and memory-block offset of the request, the call of an
image-opaque request passes image, resource offset, length, memory block
reference and memory-block offset.  The binding flags are read from the batch
and passed to neither: replacing the flags the batch reports for its requests
changes no apply call. -/
theorem bind_sparse_memory_image_calls (env : Env) (q : Queue)
    (update : SparseMemoryBindingUpdateInfo)
    (h : bindSparseResult env q update = VK_SUCCESS ∨ env.assertions_fatal = false) :
    (bind_sparse_memory env q update).trace.filter Event.isImageApply
        = ((batchRequests update).filter Request.isImage).map (applyCall update)
      ∧ (∀ g i : Nat, applyCall update (.image g i)
          = .Image_set_memory_sparse
              (update.get_image_memory_update_properties g i).image_ptr
              (update.get_image_memory_update_properties g i).subresource
              (update.get_image_memory_update_properties g i).offset
              (update.get_image_memory_update_properties g i).extent
              (update.get_image_memory_update_properties g i).memory_block_ptr
              (update.get_image_memory_update_properties g i).memory_block_start_offset)
      ∧ (∀ g i : Nat, applyCall update (.image_opaque_range g i)
          = .Image_set_memory_sparse_opaque_range
              (update.get_image_opaque_memory_update_properties g i).image_ptr
              (update.get_image_opaque_memory_update_properties g i).resource_offset
              (update.get_image_opaque_memory_update_properties g i).size
              (update.get_image_opaque_memory_update_properties g i).memory_block_ptr
              (update.get_image_opaque_memory_update_properties g i).memory_block_start_offset)
      ∧ ∀ image_flags opaque_flags : Nat → Nat → Nat,
          (bind_sparse_memory env q (withFlags update image_flags opaque_flags)).trace.filter
              Event.isApply
            = (bind_sparse_memory env q update).trace.filter Event.isApply := by
  refine ⟨?_, fun _ _ => rfl, fun _ _ => rfl, fun image_flags opaque_flags => ?_⟩
  · rw [bind_sparse_memory_run]
    by_cases hr : bindSparseResult env q update = VK_SUCCESS
    · simp [hr, bindSparseCall, Event.isImageApply, filter_isImageApply_calls]
    · have hfatal : env.assertions_fatal = false := h.resolve_left hr
      simp [hr, hfatal, bindSparseCall, Event.isImageApply, filter_isImageApply_calls]
  · have hres : bindSparseResult env q (withFlags update image_flags opaque_flags)
        = bindSparseResult env q update := rfl
    have hcall : bindSparseCall q (withFlags update image_flags opaque_flags)
        = bindSparseCall q update := rfl
    rw [bind_sparse_memory_run, bind_sparse_memory_run, hres, hcall, applyCall_withFlags,
      batchRequests_withFlags]

theorem bind_sparse_memory_image_calls_sample :
    (bind_sparse_memory (sampleEnv false VK_ERROR_DEVICE_LOST) sampleQueue
        sampleUpdate).trace.filter Event.isImageApply
      = [.Image_set_memory_sparse 30 ⟨1, 0, 0⟩ ⟨0, 0, 0⟩ ⟨64, 64, 1⟩ (some 21) 131072,
         .Image_set_memory_sparse_opaque_range 40 8192 512 none 0] :=
  (bind_sparse_memory_image_calls (sampleEnv false VK_ERROR_DEVICE_LOST) sampleQueue sampleUpdate
    (Or.inr rfl)).1.trans rfl

/-- C6: in every run that reaches the fan-out (the native call succeeds, or
execution continues behind the failed assertion of line 92), the calls made on
buffers are, position by position, those of the buffer requests (g, i) of the
batch, and the call of request (g, i) is made on the buffer the batch reports
for (g, i) with, in this order, its memory block reference, its offset into
the memory block, its offset into the buffer and its length.  A run that ends
at the assertion makes no call on a buffer. -/
theorem bind_sparse_memory_buffer_calls (env : Env) (q : Queue)
    (update : SparseMemoryBindingUpdateInfo) :
    (bindSparseResult env q update = VK_SUCCESS ∨ env.assertions_fatal = false →
        (bind_sparse_memory env q update).trace.filter Event.isBufferApply
          = (bufferRequests update).map fun gi =>
              .Buffer_set_memory_sparse
                (update.get_buffer_memory_update_properties gi.1 gi.2).buffer_ptr
                (update.get_buffer_memory_update_properties gi.1 gi.2).memory_block_ptr
                (update.get_buffer_memory_update_properties gi.1 gi.2).memory_block_start_offset
                (update.get_buffer_memory_update_properties gi.1 gi.2).buffer_memory_start_offset
                (update.get_buffer_memory_update_properties gi.1 gi.2).alloc_size)
      ∧ (bindSparseResult env q update ≠ VK_SUCCESS ∧ env.assertions_fatal = true →
          (bind_sparse_memory env q update).trace.filter Event.isBufferApply = []) := by
  rw [bind_sparse_memory_run]
  refine ⟨fun h => ?_, fun h => ?_⟩
  · by_cases hr : bindSparseResult env q update = VK_SUCCESS
    · simp [hr, bindSparseCall, Event.isBufferApply, filter_isBufferApply_calls, applyCall]
    · have hfatal : env.assertions_fatal = false := h.resolve_left hr
      simp [hr, hfatal, bindSparseCall, Event.isBufferApply, filter_isBufferApply_calls,
        applyCall]
  · simp [h.1, h.2, bindSparseCall, Event.isBufferApply]

theorem bind_sparse_memory_buffer_calls_sample :
    bufferRequests sampleUpdate = [(0, 0), (1, 0), (1, 1)]
      ∧ (bind_sparse_memory (sampleEnv true VK_SUCCESS) sampleQueue
          sampleUpdate).trace.filter Event.isBufferApply
        = [.Buffer_set_memory_sparse 10 (some 20) 65536 0 256,
           .Buffer_set_memory_sparse 12 (some 21) 65536 0 256,
           .Buffer_set_memory_sparse 13 (some 21) 131072 4096 256] :=
  ⟨rfl, ((bind_sparse_memory_buffer_calls (sampleEnv true VK_SUCCESS) sampleQueue
    sampleUpdate).1 (Or.inl rfl)).trans rfl⟩

theorem bind_sparse_memory_one_native_call_empty :
    (bind_sparse_memory (sampleEnv true VK_SUCCESS) sampleQueue emptyUpdate).trace.filter
        Event.isBindSparse = [.vkQueueBindSparse 7 0 0 VK_NULL_HANDLE] := by
  obtain ⟨fence_vk, hcall, _, hnone⟩ :=
    bind_sparse_memory_one_native_call (sampleEnv true VK_SUCCESS) sampleQueue emptyUpdate
  rw [hcall, hnone rfl]
  rfl

/-! ## Loops that fill a local array -/

theorem Exec.andThen_assoc {α β γ : Type} (m : Exec α) (f : α → Exec β) (g : β → Exec γ) :
    Exec.andThen (Exec.andThen m f) g = Exec.andThen m fun a => Exec.andThen (f a) g := by
  obtain ⟨t, o⟩ := m
  cases o with
  | returned a =>
    simp only [Exec.andThen]
    cases (f a).outcome <;> simp
  | aborted => simp [Exec.andThen]
  | fault => simp [Exec.andThen]

@[simp] theorem Exec.andThen_ret {α : Type} (m : Exec α) : Exec.andThen m Exec.ret = m := by
  obtain ⟨t, o⟩ := m
  cases o <;> simp [Exec.andThen, Exec.ret]

theorem Exec.loop_append {σ : Type} (body : Nat → σ → Exec σ) (l₁ l₂ : List Nat) (s : σ) :
    Exec.loop body (l₁ ++ l₂) s = Exec.andThen (Exec.loop body l₁ s) (Exec.loop body l₂) := by
  induction l₁ generalizing s with
  | nil => simp [Exec.loop]
  | cons i is ih =>
    simp only [List.cons_append, Exec.loop, Exec.andThen_assoc]
    congr 1
    funext s1
    exact ih s1

theorem Exec.for_lt_succ {σ : Type} (body : Nat → σ → Exec σ) (n : Nat) (s : σ) :
    Exec.for_lt (n + 1) s body = Exec.andThen (Exec.for_lt n s body) (body n) := by
  unfold Exec.for_lt
  rw [List.range_succ, Exec.loop_append]
  congr 1
  funext s1
  simp [Exec.loop]

theorem filledArray_length (n : Nat) (handle : Nat → VkHandle) (hn : n ≤ 64) :
    (filledArray n handle).length = 64 := by
  simp [filledArray]; omega

theorem filledArray_set (n : Nat) (handle : Nat → VkHandle) (hn : n < 64) :
    (filledArray n handle).set n (some (handle n)) = filledArray (n + 1) handle := by
  unfold filledArray
  have h64 : 64 - n = (64 - (n + 1)) + 1 := by omega
  rw [h64, List.replicate_succ, List.range_succ, List.map_append, List.append_assoc]
  rw [List.set_append_right _ _ (by simp)]
  simp

theorem filledArray_getElem? (n : Nat) (handle : Nat → VkHandle) (i : Nat) (hi : i < n) :
    (filledArray n handle)[i]? = some (some (handle i)) := by
  unfold filledArray
  rw [List.getElem?_append_left (by simpa using hi)]
  simp [hi]

theorem read_ptr_some {α : Type} (ptrs : List (Option α)) (i : Nat) (a : α)
    (h : ptrs[i]? = some (some a)) : read_ptr ptrs i = Exec.ret a := by
  simp [read_ptr, h]

/-- A loop of lines 379-398 over `n` readable, non-null pointers with `n`
within the array: it stores the handles in input order and returns the array
filled up to `n`. -/
theorem fill_loop_run {α : Type} (array : LocalArray) (ptrs : List (Option α))
    (get_handle : α → VkHandle) (objs : Nat → α) (n : Nat) (hn : n ≤ 64)
    (h : ∀ i, i < n → ptrs[i]? = some (some (objs i))) :
    (Exec.for_lt n uninitialised_array fun i contents => do
        let obj ← read_ptr ptrs i
        array_store array contents i (get_handle obj))
      = ⟨storeEvents array n fun i => get_handle (objs i),
          .returned (filledArray n fun i => get_handle (objs i))⟩ := by
  induction n with
  | zero => rfl
  | succ n ih =>
    rw [Exec.for_lt_succ, ih (by omega) (fun i hi => h i (by omega))]
    have hlen := filledArray_length n (fun i => get_handle (objs i)) (by omega)
    simp only [Exec.bind_eq_andThen, read_ptr_some ptrs n (objs n) (h n (by omega)),
      Exec.ret_andThen]
    simp [Exec.andThen, array_store, hlen, show n < 64 by omega, storeEvents, List.range_succ,
      filledArray_set n (fun i => get_handle (objs i)) (by omega)]

/-! ## The run of `submit_command_buffers` -/

theorem anvil_assert_andThen {β : Type} (env : Env) (line : Nat) (cond : Bool)
    (f : Unit → Exec β) :
    Exec.andThen (anvil_assert env line cond) f
      = if checkStops env cond = true then ⟨[.assertion_failed line], .aborted⟩
        else ⟨checkEvents line cond ++ (f ()).trace, (f ()).outcome⟩ := by
  cases cond <;> cases hfatal : env.assertions_fatal <;>
    simp [anvil_assert, Exec.andThen, Exec.ret, checkStops, checkEvents, hfatal]

theorem anvil_assert_andThen_of_continues {β : Type} (env : Env) (line : Nat) (cond : Bool)
    (f : Unit → Exec β) (h : env.assertions_fatal = true → cond = true) :
    Exec.andThen (anvil_assert env line cond) f
      = ⟨checkEvents line cond ++ (f ()).trace, (f ()).outcome⟩ := by
  rw [anvil_assert_andThen]
  have : checkStops env cond = false := by
    cases cond <;> cases hfatal : env.assertions_fatal <;> simp_all [checkStops]
  simp [this]

/-- Lines 411-429: the native submit, its check, and the wait of a blocking
call with its check. -/
theorem submit_and_wait_run (env : Env) (q : Queue) (info : VkSubmitInfo) (should_block : Bool)
    (fence : Option Fence) (hdev : should_block = true →
      q.m_device_ptr.type = .DEVICE_TYPE_SINGLE_GPU)
    (hfence : should_block = true → fence ≠ none) :
    (do
      Exec.emit (.vkQueueSubmit q.m_queue 1 info (fenceHandle fence))
      let result := env.vkQueueSubmit q.m_queue 1 info (fenceHandle fence)
      anvil_assert_vk_call_succeeded env 416 result
      if should_block = true then
        let sgpu_device_locked_ptr ← Exec.deref (dynamic_pointer_cast_SGPUDevice q.m_device_ptr)
        let fence ← Exec.deref fence
        Exec.emit (.vkWaitForFences sgpu_device_locked_ptr.device_vk 1 fence.fence VK_TRUE
          UINT64_MAX)
        let result := env.vkWaitForFences sgpu_device_locked_ptr.device_vk 1 fence.fence VK_TRUE
          UINT64_MAX
        anvil_assert_vk_call_succeeded env 428 result : Exec Unit)
      = submit_and_wait env q info should_block fence := by
  unfold submit_and_wait
  cases should_block with
  | false =>
    cases h1 : env.is_vk_call_successful (env.vkQueueSubmit q.m_queue 1 info (fenceHandle fence))
      <;> cases hfatal : env.assertions_fatal <;>
      simp [anvil_assert_vk_call_succeeded, anvil_assert, Exec.andThen, Exec.ret, Exec.emit,
        submitCall, submitResult, checkEvents, checkStops, h1, hfatal]
  | true =>
    have hd := hdev rfl
    cases fence with
    | none => exact absurd rfl (hfence rfl)
    | some f =>
      cases h1 : env.is_vk_call_successful
          (env.vkQueueSubmit q.m_queue 1 info (fenceHandle (some f)))
        <;> cases h2 : env.is_vk_call_successful
          (env.vkWaitForFences q.m_device_ptr.device_vk 1 (fenceHandle (some f)) VK_TRUE
            UINT64_MAX)
        <;> cases hfatal : env.assertions_fatal <;>
        simp_all [anvil_assert_vk_call_succeeded, anvil_assert, Exec.andThen, Exec.ret, Exec.emit,
          Exec.deref, dynamic_pointer_cast_SGPUDevice, submitCall, submitResult, waitCall,
          waitResult, checkEvents, checkStops, fenceHandle]

theorem fence_match_eq (o : Option Fence) :
    (match o with
      | some fence => fence.fence
      | none => VK_NULL_HANDLE) = fenceHandle o := by
  cases o <;> rfl

theorem fenceInUse_ne_none (env : Env) (should_block : Bool) (opt_fence_ptr : Option Fence)
    (h : should_block = true) : fenceInUse env should_block opt_fence_ptr ≠ none := by
  cases opt_fence_ptr <;> simp [fenceInUse, h]

/-- Lines 372-377. -/
theorem fence_preparation_run (env : Env) (should_block : Bool) (opt_fence_ptr : Option Fence) :
    (if opt_fence_ptr = none ∧ should_block = true then
        Exec.andThen (Exec.emit (.Fence_create false)) fun _ =>
          Exec.ret (some (env.Fence_create false))
      else Exec.ret opt_fence_ptr)
      = ⟨fenceCreation should_block opt_fence_ptr,
          .returned (fenceInUse env should_block opt_fence_ptr)⟩ := by
  by_cases h : opt_fence_ptr = none ∧ should_block = true
  · simp [h, fenceCreation, fenceInUse, Exec.ret]
  · simp only [h, fenceCreation, fenceInUse, if_false, Exec.ret]

/-- The whole run of `submit_command_buffers` when no sanity check ends the
operation, the counts fit the local arrays, the first `n` entries of each
input array are non-null pointers, and a blocking call is made on a queue of a
single-GPU device. -/
theorem submit_command_buffers_run (env : Env) (q : Queue)
    (n_command_buffers : Nat) (opt_cmd_buffer_ptrs : List (Option CommandBufferBase))
    (n_semaphores_to_signal : Nat) (opt_semaphore_to_signal_ptr_ptrs : List (Option Semaphore))
    (n_semaphores_to_wait_on : Nat) (opt_semaphore_to_wait_on_ptr_ptrs : List (Option Semaphore))
    (opt_dst_stage_masks_to_wait_on_ptrs : List Nat)
    (should_block : Bool) (opt_fence_ptr : Option Fence)
    (cmd_buffers : Nat → CommandBufferBase) (signal_semaphores wait_semaphores : Nat → Semaphore)
    (hsanity : env.assertions_fatal = true →
      q.m_device_ptr.type = .DEVICE_TYPE_SINGLE_GPU ∧ n_command_buffers < 64
        ∧ n_semaphores_to_signal < 64 ∧ n_semaphores_to_wait_on < 64)
    (hfit : n_command_buffers ≤ 64 ∧ n_semaphores_to_signal ≤ 64 ∧ n_semaphores_to_wait_on ≤ 64)
    (hdev : should_block = true → q.m_device_ptr.type = .DEVICE_TYPE_SINGLE_GPU)
    (hcmd : ∀ i, i < n_command_buffers → opt_cmd_buffer_ptrs[i]? = some (some (cmd_buffers i)))
    (hsignal : ∀ i, i < n_semaphores_to_signal →
      opt_semaphore_to_signal_ptr_ptrs[i]? = some (some (signal_semaphores i)))
    (hwait : ∀ i, i < n_semaphores_to_wait_on →
      opt_semaphore_to_wait_on_ptr_ptrs[i]? = some (some (wait_semaphores i))) :
    submit_command_buffers env q n_command_buffers opt_cmd_buffer_ptrs n_semaphores_to_signal
        opt_semaphore_to_signal_ptr_ptrs n_semaphores_to_wait_on opt_semaphore_to_wait_on_ptr_ptrs
        opt_dst_stage_masks_to_wait_on_ptrs should_block opt_fence_ptr
      = ⟨sanityEvents q n_command_buffers n_semaphores_to_signal n_semaphores_to_wait_on
          ++ fenceCreation should_block opt_fence_ptr
          ++ storeEvents .cmd_buffers_vk n_command_buffers (fun i => (cmd_buffers i).command_buffer)
          ++ storeEvents .signal_semaphores_vk n_semaphores_to_signal
              (fun i => (signal_semaphores i).semaphore)
          ++ storeEvents .wait_semaphores_vk n_semaphores_to_wait_on
              (fun i => (wait_semaphores i).semaphore)
          ++ (submit_and_wait env q
              (submitInfo n_command_buffers (fun i => (cmd_buffers i).command_buffer)
                n_semaphores_to_signal (fun i => (signal_semaphores i).semaphore)
                n_semaphores_to_wait_on (fun i => (wait_semaphores i).semaphore)
                opt_dst_stage_masks_to_wait_on_ptrs)
              should_block (fenceInUse env should_block opt_fence_ptr)).trace,
          (submit_and_wait env q
              (submitInfo n_command_buffers (fun i => (cmd_buffers i).command_buffer)
                n_semaphores_to_signal (fun i => (signal_semaphores i).semaphore)
                n_semaphores_to_wait_on (fun i => (wait_semaphores i).semaphore)
                opt_dst_stage_masks_to_wait_on_ptrs)
              should_block (fenceInUse env should_block opt_fence_ptr)).outcome⟩ := by
  have hrun := submit_and_wait_run env q
    (submitInfo n_command_buffers (fun i => (cmd_buffers i).command_buffer)
      n_semaphores_to_signal (fun i => (signal_semaphores i).semaphore)
      n_semaphores_to_wait_on (fun i => (wait_semaphores i).semaphore)
      opt_dst_stage_masks_to_wait_on_ptrs)
    should_block (fenceInUse env should_block opt_fence_ptr) hdev
    (fun h => fenceInUse_ne_none env should_block opt_fence_ptr h)
  have hcmd_loop := fill_loop_run .cmd_buffers_vk opt_cmd_buffer_ptrs
    CommandBufferBase.command_buffer cmd_buffers n_command_buffers hfit.1 hcmd
  have hsignal_loop := fill_loop_run .signal_semaphores_vk opt_semaphore_to_signal_ptr_ptrs
    Semaphore.semaphore signal_semaphores n_semaphores_to_signal hfit.2.1 hsignal
  have hwait_loop := fill_loop_run .wait_semaphores_vk opt_semaphore_to_wait_on_ptr_ptrs
    Semaphore.semaphore wait_semaphores n_semaphores_to_wait_on hfit.2.2 hwait
  unfold submit_command_buffers
  simp only [Exec.bind_eq_andThen, Exec.pure_eq_ret, fence_match_eq] at hrun hcmd_loop hsignal_loop hwait_loop ⊢
  rw [anvil_assert_andThen_of_continues _ _ _ _ (fun h => by simpa using (hsanity h).1),
    anvil_assert_andThen_of_continues _ _ _ _ (fun h => by simpa using (hsanity h).2.1),
    anvil_assert_andThen_of_continues _ _ _ _ (fun h => by simpa using (hsanity h).2.2.1),
    anvil_assert_andThen_of_continues _ _ _ _ (fun h => by simpa using (hsanity h).2.2.2),
    fence_preparation_run, hcmd_loop, hsignal_loop, hwait_loop]
  rw [← hrun]
  simp only [Exec.andThen_mk_returned, submitInfo, sanityEvents, List.append_assoc]

/-! ## Submission: the claims -/

theorem filter_checkEvents (p : Event → Bool) (hp : ∀ l, p (.assertion_failed l) = false)
    (line : Nat) (cond : Bool) : (checkEvents line cond).filter p = [] := by
  cases cond <;> simp [checkEvents, hp]

theorem filter_sanityEvents (p : Event → Bool) (hp : ∀ l, p (.assertion_failed l) = false)
    (q : Queue) (n_command_buffers n_semaphores_to_signal n_semaphores_to_wait_on : Nat) :
    (sanityEvents q n_command_buffers n_semaphores_to_signal n_semaphores_to_wait_on).filter p
      = [] := by
  simp [sanityEvents, List.filter_append, filter_checkEvents p hp]

theorem filter_storeEvents (p : Event → Bool) (hp : ∀ a i v, p (.array_store a i v) = false)
    (array : LocalArray) (n : Nat) (handle : Nat → VkHandle) :
    (storeEvents array n handle).filter p = [] := by
  apply List.filter_eq_nil_iff.mpr
  intro e he
  obtain ⟨i, _, rfl⟩ := List.mem_map.mp he
  simp [hp]

theorem filter_isSubmit_submit_and_wait (env : Env) (q : Queue) (info : VkSubmitInfo)
    (should_block : Bool) (fence : Option Fence) :
    (submit_and_wait env q info should_block fence).trace.filter Event.isSubmit
      = [submitCall q info fence] := by
  unfold submit_and_wait
  by_cases h : should_block = true ∧ checkStops env
      (env.is_vk_call_successful (submitResult env q info fence)) = false
  · simp [h, List.filter_cons, List.filter_append, filter_checkEvents Event.isSubmit (fun _ => rfl),
      submitCall, waitCall, Event.isSubmit]
  · simp only [h, if_false, List.append_nil]
    simp [List.filter_cons, filter_checkEvents Event.isSubmit (fun _ => rfl), submitCall,
      Event.isSubmit]

theorem filter_isFenceCreate_submit_and_wait (env : Env) (q : Queue) (info : VkSubmitInfo)
    (should_block : Bool) (fence : Option Fence) :
    (submit_and_wait env q info should_block fence).trace.filter Event.isFenceCreate = [] := by
  unfold submit_and_wait
  by_cases h : should_block = true ∧ checkStops env
      (env.is_vk_call_successful (submitResult env q info fence)) = false
  · simp [h, List.filter_cons, List.filter_append,
      filter_checkEvents Event.isFenceCreate (fun _ => rfl), submitCall, waitCall,
      Event.isFenceCreate]
  · simp only [h, if_false, List.append_nil]
    simp [List.filter_cons, filter_checkEvents Event.isFenceCreate (fun _ => rfl), submitCall,
      Event.isFenceCreate]

theorem filter_isFenceStep_submit_and_wait (env : Env) (q : Queue) (info : VkSubmitInfo)
    (fence : Option Fence)
    (h : checkStops env (env.is_vk_call_successful (submitResult env q info fence)) = false) :
    (submit_and_wait env q info true fence).trace.filter Event.isFenceStep
      = [submitCall q info fence, waitCall q fence] := by
  unfold submit_and_wait
  simp [h, List.filter_cons, List.filter_append,
    filter_checkEvents Event.isFenceStep (fun _ => rfl), submitCall, waitCall, Event.isFenceStep,
    Event.isSubmit, Event.isWait, Event.isFenceCreate]

theorem submit_and_wait_returned (env : Env) (q : Queue) (info : VkSubmitInfo)
    (should_block : Bool) (fence : Option Fence)
    (h : (submit_and_wait env q info should_block fence).outcome = .returned ()) :
    checkStops env (env.is_vk_call_successful (submitResult env q info fence)) = false := by
  unfold submit_and_wait at h
  cases hs : checkStops env (env.is_vk_call_successful (submitResult env q info fence))
  · rfl
  · simp [hs] at h

theorem anvil_assert_pass_andThen {β : Type} (env : Env) (line : Nat) (cond : Bool)
    (f : Unit → Exec β) (h : cond = true) :
    Exec.andThen (anvil_assert env line cond) f = f () := by
  simp [anvil_assert, h]

theorem anvil_assert_fail_andThen {β : Type} (env : Env) (line : Nat) (cond : Bool)
    (f : Unit → Exec β) (h : cond = false) :
    ∃ rest, (Exec.andThen (anvil_assert env line cond) f).trace = .assertion_failed line :: rest
      ∧ (env.assertions_fatal = true →
          rest = [] ∧ (Exec.andThen (anvil_assert env line cond) f).outcome = .aborted) := by
  cases hfatal : env.assertions_fatal
  · exact ⟨(f ()).trace, by simp [anvil_assert, h, hfatal, Exec.andThen], by simp⟩
  · exact ⟨[], by simp [anvil_assert, h, hfatal, Exec.andThen],
      by simp [anvil_assert, h, hfatal, Exec.andThen]⟩

/-- C7, at the failing input: a submission of exactly 64 command buffers (and
no semaphores) on a queue of a single-GPU device fails the capacity assertion
of line 367.  Where a failed assertion ends the operation nothing else
happens; where execution continues, the 64 handles are stored into the 64
slots and the submission is made with a count of 64. -/
theorem submit_command_buffers_rejects_full_capacity :
    (submit_command_buffers (sampleEnv true VK_SUCCESS) sampleQueue 64 (sampleCmdBuffers 64)
        0 [] 0 [] [] false none).trace = [.assertion_failed 367]
      ∧ (submit_command_buffers (sampleEnv true VK_SUCCESS) sampleQueue 64 (sampleCmdBuffers 64)
        0 [] 0 [] [] false none).outcome = .aborted
      ∧ (submit_command_buffers (sampleEnv false VK_SUCCESS) sampleQueue 64 (sampleCmdBuffers 64)
        0 [] 0 [] [] false none).trace.head? = some (.assertion_failed 367)
      ∧ ((submit_command_buffers (sampleEnv false VK_SUCCESS) sampleQueue 64
        (sampleCmdBuffers 64) 0 [] 0 [] [] false none).trace.filter Event.isArrayStore).length
          = 64
      ∧ (submit_command_buffers (sampleEnv false VK_SUCCESS) sampleQueue 64 (sampleCmdBuffers 64)
        0 [] 0 [] [] false none).outcome = .returned () := by
  decide

/-- C8: on a queue of a single-GPU device, a submission in which a count
exceeds 64 fails a capacity assertion (line 367, 368 or 369) as the first
event of the run, so before any store into a local array and before any
native submit; where a failed assertion ends the operation the run consists
of that failure alone.  The operation is of type `Exec Unit`: no code is
returned. -/
theorem submit_command_buffers_capacity_exceeded (env : Env) (q : Queue)
    (n_command_buffers : Nat) (opt_cmd_buffer_ptrs : List (Option CommandBufferBase))
    (n_semaphores_to_signal : Nat) (opt_semaphore_to_signal_ptr_ptrs : List (Option Semaphore))
    (n_semaphores_to_wait_on : Nat) (opt_semaphore_to_wait_on_ptr_ptrs : List (Option Semaphore))
    (opt_dst_stage_masks_to_wait_on_ptrs : List Nat)
    (should_block : Bool) (opt_fence_ptr : Option Fence)
    (hdev : q.m_device_ptr.type = .DEVICE_TYPE_SINGLE_GPU)
    (h : 64 < n_command_buffers ∨ 64 < n_semaphores_to_signal ∨ 64 < n_semaphores_to_wait_on) :
    ∃ line rest, line ∈ [367, 368, 369]
      ∧ (submit_command_buffers env q n_command_buffers opt_cmd_buffer_ptrs
          n_semaphores_to_signal opt_semaphore_to_signal_ptr_ptrs n_semaphores_to_wait_on
          opt_semaphore_to_wait_on_ptr_ptrs opt_dst_stage_masks_to_wait_on_ptrs should_block
          opt_fence_ptr).trace = .assertion_failed line :: rest
      ∧ (env.assertions_fatal = true → rest = []
          ∧ (submit_command_buffers env q n_command_buffers opt_cmd_buffer_ptrs
              n_semaphores_to_signal opt_semaphore_to_signal_ptr_ptrs n_semaphores_to_wait_on
              opt_semaphore_to_wait_on_ptr_ptrs opt_dst_stage_masks_to_wait_on_ptrs should_block
              opt_fence_ptr).outcome = .aborted) := by
  unfold submit_command_buffers
  simp only [Exec.bind_eq_andThen]
  rw [anvil_assert_pass_andThen _ _ _ _ (by simpa using hdev)]
  by_cases h1 : n_command_buffers < 64
  · rw [anvil_assert_pass_andThen _ _ _ _ (by simpa using h1)]
    by_cases h2 : n_semaphores_to_signal < 64
    · rw [anvil_assert_pass_andThen _ _ _ _ (by simpa using h2)]
      have h3 : ¬ n_semaphores_to_wait_on < 64 := by omega
      obtain ⟨rest, ht, hf⟩ := anvil_assert_fail_andThen env 369
        (decide (n_semaphores_to_wait_on < 64)) _ (by simpa using h3)
      exact ⟨369, rest, by simp, ht, hf⟩
    · obtain ⟨rest, ht, hf⟩ := anvil_assert_fail_andThen env 368
        (decide (n_semaphores_to_signal < 64)) _ (by simpa using h2)
      exact ⟨368, rest, by simp, ht, hf⟩
  · obtain ⟨rest, ht, hf⟩ := anvil_assert_fail_andThen env 367
      (decide (n_command_buffers < 64)) _ (by simpa using h1)
    exact ⟨367, rest, by simp, ht, hf⟩

theorem submit_command_buffers_capacity_exceeded_sample :
    ∃ line rest, line ∈ [367, 368, 369]
      ∧ (submit_command_buffers (sampleEnv true VK_SUCCESS) sampleQueue 65 (sampleCmdBuffers 65)
          0 [] 0 [] [] false none).trace = .assertion_failed line :: rest
      ∧ ((sampleEnv true VK_SUCCESS).assertions_fatal = true → rest = []
          ∧ (submit_command_buffers (sampleEnv true VK_SUCCESS) sampleQueue 65
              (sampleCmdBuffers 65) 0 [] 0 [] [] false none).outcome = .aborted) :=
  submit_command_buffers_capacity_exceeded (sampleEnv true VK_SUCCESS) sampleQueue 65
    (sampleCmdBuffers 65) 0 [] 0 [] [] false none rfl (Or.inl (by decide))

/-- C9: a blocking submission without a fence, on a queue of a single-GPU
device, with counts that fit the arrays and pass the sanity checks wherever a
failed check would end the operation, creates exactly one fence, unsignalled;
its one native submit carries the handle of that fence; whenever the run gets
past the check of the submit result, and so whenever it returns, the fence
steps of the run are the creation, then the submit, then one wait on that
same fence; and the run returns when both native results count as
successful, or when execution continues behind a failed assertion. -/
theorem submit_command_buffers_blocking_without_fence (env : Env) (q : Queue)
    (n_command_buffers : Nat) (opt_cmd_buffer_ptrs : List (Option CommandBufferBase))
    (n_semaphores_to_signal : Nat) (opt_semaphore_to_signal_ptr_ptrs : List (Option Semaphore))
    (n_semaphores_to_wait_on : Nat) (opt_semaphore_to_wait_on_ptr_ptrs : List (Option Semaphore))
    (opt_dst_stage_masks_to_wait_on_ptrs : List Nat)
    (cmd_buffers : Nat → CommandBufferBase) (signal_semaphores wait_semaphores : Nat → Semaphore)
    (hdev : q.m_device_ptr.type = .DEVICE_TYPE_SINGLE_GPU)
    (hsanity : env.assertions_fatal = true →
      n_command_buffers < 64 ∧ n_semaphores_to_signal < 64 ∧ n_semaphores_to_wait_on < 64)
    (hfit : n_command_buffers ≤ 64 ∧ n_semaphores_to_signal ≤ 64 ∧ n_semaphores_to_wait_on ≤ 64)
    (hcmd : ∀ i, i < n_command_buffers → opt_cmd_buffer_ptrs[i]? = some (some (cmd_buffers i)))
    (hsignal : ∀ i, i < n_semaphores_to_signal →
      opt_semaphore_to_signal_ptr_ptrs[i]? = some (some (signal_semaphores i)))
    (hwait : ∀ i, i < n_semaphores_to_wait_on →
      opt_semaphore_to_wait_on_ptr_ptrs[i]? = some (some (wait_semaphores i))) :
    ∃ info : VkSubmitInfo,
      (submit_command_buffers env q n_command_buffers opt_cmd_buffer_ptrs
          n_semaphores_to_signal opt_semaphore_to_signal_ptr_ptrs n_semaphores_to_wait_on
          opt_semaphore_to_wait_on_ptr_ptrs opt_dst_stage_masks_to_wait_on_ptrs true
          none).trace.filter Event.isFenceCreate = [.Fence_create false]
      ∧ (submit_command_buffers env q n_command_buffers opt_cmd_buffer_ptrs
          n_semaphores_to_signal opt_semaphore_to_signal_ptr_ptrs n_semaphores_to_wait_on
          opt_semaphore_to_wait_on_ptr_ptrs opt_dst_stage_masks_to_wait_on_ptrs true
          none).trace.filter Event.isSubmit
        = [.vkQueueSubmit q.m_queue 1 info (env.Fence_create false).fence]
      ∧ ((env.is_vk_call_successful
            (env.vkQueueSubmit q.m_queue 1 info (env.Fence_create false).fence) = true
          ∨ env.assertions_fatal = false
          ∨ (submit_command_buffers env q n_command_buffers opt_cmd_buffer_ptrs
              n_semaphores_to_signal opt_semaphore_to_signal_ptr_ptrs n_semaphores_to_wait_on
              opt_semaphore_to_wait_on_ptr_ptrs opt_dst_stage_masks_to_wait_on_ptrs true
              none).outcome = .returned ()) →
          (submit_command_buffers env q n_command_buffers opt_cmd_buffer_ptrs
              n_semaphores_to_signal opt_semaphore_to_signal_ptr_ptrs n_semaphores_to_wait_on
              opt_semaphore_to_wait_on_ptr_ptrs opt_dst_stage_masks_to_wait_on_ptrs true
              none).trace.filter Event.isFenceStep
            = [.Fence_create false,
               .vkQueueSubmit q.m_queue 1 info (env.Fence_create false).fence,
               .vkWaitForFences q.m_device_ptr.device_vk 1 (env.Fence_create false).fence VK_TRUE
                 UINT64_MAX])
      ∧ (env.assertions_fatal = false
          ∨ (env.is_vk_call_successful
              (env.vkQueueSubmit q.m_queue 1 info (env.Fence_create false).fence) = true
            ∧ env.is_vk_call_successful
              (env.vkWaitForFences q.m_device_ptr.device_vk 1 (env.Fence_create false).fence
                VK_TRUE UINT64_MAX) = true) →
          (submit_command_buffers env q n_command_buffers opt_cmd_buffer_ptrs
              n_semaphores_to_signal opt_semaphore_to_signal_ptr_ptrs n_semaphores_to_wait_on
              opt_semaphore_to_wait_on_ptr_ptrs opt_dst_stage_masks_to_wait_on_ptrs true
              none).outcome = .returned ()) := by
  have hrun := submit_command_buffers_run env q n_command_buffers opt_cmd_buffer_ptrs
    n_semaphores_to_signal opt_semaphore_to_signal_ptr_ptrs n_semaphores_to_wait_on
    opt_semaphore_to_wait_on_ptr_ptrs opt_dst_stage_masks_to_wait_on_ptrs true none cmd_buffers
    signal_semaphores wait_semaphores (fun hf => ⟨hdev, hsanity hf⟩) hfit (fun _ => hdev) hcmd
    hsignal hwait
  have hfence : fenceInUse env true none = some (env.Fence_create false) := rfl
  have hcreate : fenceCreation true none = [.Fence_create false] := rfl
  rw [hfence, hcreate] at hrun
  refine ⟨submitInfo n_command_buffers (fun i => (cmd_buffers i).command_buffer)
    n_semaphores_to_signal (fun i => (signal_semaphores i).semaphore)
    n_semaphores_to_wait_on (fun i => (wait_semaphores i).semaphore)
    opt_dst_stage_masks_to_wait_on_ptrs, ?_, ?_, ?_, ?_⟩
  · rw [hrun]
    simp only [List.filter_append, filter_sanityEvents Event.isFenceCreate (fun _ => rfl),
      filter_storeEvents Event.isFenceCreate (fun _ _ _ => rfl),
      filter_isFenceCreate_submit_and_wait]
    simp [Event.isFenceCreate]
  · rw [hrun]
    simp only [List.filter_append, filter_sanityEvents Event.isSubmit (fun _ => rfl),
      filter_storeEvents Event.isSubmit (fun _ _ _ => rfl), filter_isSubmit_submit_and_wait]
    simp [submitCall, fenceHandle, Event.isSubmit]
  · intro hpast
    have hstop : checkStops env (env.is_vk_call_successful (submitResult env q
        (submitInfo n_command_buffers (fun i => (cmd_buffers i).command_buffer)
          n_semaphores_to_signal (fun i => (signal_semaphores i).semaphore)
          n_semaphores_to_wait_on (fun i => (wait_semaphores i).semaphore)
          opt_dst_stage_masks_to_wait_on_ptrs) (some (env.Fence_create false)))) = false := by
      rcases hpast with h1 | h2 | h3
      · simp [checkStops, submitResult, fenceHandle, h1]
      · simp [checkStops, h2]
      · rw [hrun] at h3
        exact submit_and_wait_returned _ _ _ _ _ h3
    rw [hrun]
    simp only [List.filter_append, filter_sanityEvents Event.isFenceStep (fun _ => rfl),
      filter_storeEvents Event.isFenceStep (fun _ _ _ => rfl),
      filter_isFenceStep_submit_and_wait _ _ _ _ hstop]
    simp [submitCall, waitCall, fenceHandle, Event.isFenceStep, Event.isFenceCreate]
  · intro hret
    rw [hrun]
    rcases hret with hfatal | ⟨h1, h2⟩
    · simp [submit_and_wait, checkStops, hfatal]
    · simp [submit_and_wait, checkStops, submitResult, waitResult, fenceHandle, h1, h2]

theorem submit_command_buffers_blocking_without_fence_sample :
    ∃ info : VkSubmitInfo,
      (submit_command_buffers (sampleEnv true VK_SUCCESS) sampleQueue 2 (sampleCmdBuffers 2)
          1 [some ⟨201⟩] 1 [some ⟨301⟩] [1] true none).trace.filter Event.isFenceStep
        = [.Fence_create false, .vkQueueSubmit 7 1 info 900,
           .vkWaitForFences 3 1 900 true (2 ^ 64 - 1)] := by
  obtain ⟨info, _, _, hsteps, _⟩ := submit_command_buffers_blocking_without_fence
    (sampleEnv true VK_SUCCESS) sampleQueue 2 (sampleCmdBuffers 2) 1 [some ⟨201⟩] 1 [some ⟨301⟩]
    [1] (fun i => ⟨100 + i⟩) (fun _ => ⟨201⟩) (fun _ => ⟨301⟩) rfl (fun _ => by decide)
    (by decide) (by decide) (by decide) (by decide)
  exact ⟨info, hsteps (Or.inl rfl)⟩

/-- C10: a submission whose counts fit the arrays (at most 64), whose first
`n` array entries are non-null, and that no sanity check ends (where a failed
assertion ends the operation: single-GPU device and counts below 64; a
blocking call needs the single-GPU device in any case) makes exactly one
native submit call, with a submit count of 1; the three counts of its record
are the input counts, entry `i` of each handle array is the native handle of
input object `i`, and the stage masks are the array of the caller. -/
theorem submit_command_buffers_one_submit (env : Env) (q : Queue)
    (n_command_buffers : Nat) (opt_cmd_buffer_ptrs : List (Option CommandBufferBase))
    (n_semaphores_to_signal : Nat) (opt_semaphore_to_signal_ptr_ptrs : List (Option Semaphore))
    (n_semaphores_to_wait_on : Nat) (opt_semaphore_to_wait_on_ptr_ptrs : List (Option Semaphore))
    (opt_dst_stage_masks_to_wait_on_ptrs : List Nat)
    (should_block : Bool) (opt_fence_ptr : Option Fence)
    (cmd_buffers : Nat → CommandBufferBase) (signal_semaphores wait_semaphores : Nat → Semaphore)
    (hsanity : env.assertions_fatal = true →
      q.m_device_ptr.type = .DEVICE_TYPE_SINGLE_GPU ∧ n_command_buffers < 64
        ∧ n_semaphores_to_signal < 64 ∧ n_semaphores_to_wait_on < 64)
    (hfit : n_command_buffers ≤ 64 ∧ n_semaphores_to_signal ≤ 64 ∧ n_semaphores_to_wait_on ≤ 64)
    (hdev : should_block = true → q.m_device_ptr.type = .DEVICE_TYPE_SINGLE_GPU)
    (hcmd : ∀ i, i < n_command_buffers → opt_cmd_buffer_ptrs[i]? = some (some (cmd_buffers i)))
    (hsignal : ∀ i, i < n_semaphores_to_signal →
      opt_semaphore_to_signal_ptr_ptrs[i]? = some (some (signal_semaphores i)))
    (hwait : ∀ i, i < n_semaphores_to_wait_on →
      opt_semaphore_to_wait_on_ptr_ptrs[i]? = some (some (wait_semaphores i))) :
    ∃ (info : VkSubmitInfo) (fence_vk : VkHandle),
      (submit_command_buffers env q n_command_buffers opt_cmd_buffer_ptrs
          n_semaphores_to_signal opt_semaphore_to_signal_ptr_ptrs n_semaphores_to_wait_on
          opt_semaphore_to_wait_on_ptr_ptrs opt_dst_stage_masks_to_wait_on_ptrs should_block
          opt_fence_ptr).trace.filter Event.isSubmit
        = [.vkQueueSubmit q.m_queue 1 info fence_vk]
      ∧ info.commandBufferCount = n_command_buffers
      ∧ info.signalSemaphoreCount = n_semaphores_to_signal
      ∧ info.waitSemaphoreCount = n_semaphores_to_wait_on
      ∧ (∀ i, i < n_command_buffers →
          info.pCommandBuffers[i]? = some (some (cmd_buffers i).command_buffer))
      ∧ (∀ i, i < n_semaphores_to_signal →
          info.pSignalSemaphores[i]? = some (some (signal_semaphores i).semaphore))
      ∧ (∀ i, i < n_semaphores_to_wait_on →
          info.pWaitSemaphores[i]? = some (some (wait_semaphores i).semaphore))
      ∧ info.pWaitDstStageMask = opt_dst_stage_masks_to_wait_on_ptrs := by
  have hrun := submit_command_buffers_run env q n_command_buffers opt_cmd_buffer_ptrs
    n_semaphores_to_signal opt_semaphore_to_signal_ptr_ptrs n_semaphores_to_wait_on
    opt_semaphore_to_wait_on_ptr_ptrs opt_dst_stage_masks_to_wait_on_ptrs should_block
    opt_fence_ptr cmd_buffers signal_semaphores wait_semaphores hsanity hfit hdev hcmd hsignal
    hwait
  refine ⟨submitInfo n_command_buffers (fun i => (cmd_buffers i).command_buffer)
    n_semaphores_to_signal (fun i => (signal_semaphores i).semaphore)
    n_semaphores_to_wait_on (fun i => (wait_semaphores i).semaphore)
    opt_dst_stage_masks_to_wait_on_ptrs,
    fenceHandle (fenceInUse env should_block opt_fence_ptr), ?_, rfl, rfl, rfl,
    fun i hi => filledArray_getElem? _ _ i hi, fun i hi => filledArray_getElem? _ _ i hi,
    fun i hi => filledArray_getElem? _ _ i hi, rfl⟩
  rw [hrun]
  have hcreate : (fenceCreation should_block opt_fence_ptr).filter Event.isSubmit = [] := by
    unfold fenceCreation
    split <;> simp [Event.isSubmit]
  simp only [List.filter_append, filter_sanityEvents Event.isSubmit (fun _ => rfl),
    filter_storeEvents Event.isSubmit (fun _ _ _ => rfl), filter_isSubmit_submit_and_wait,
    hcreate]
  simp [submitCall]

theorem submit_command_buffers_one_submit_sample :
    ∃ (info : VkSubmitInfo) (fence_vk : VkHandle),
      (submit_command_buffers (sampleEnv true VK_SUCCESS) sampleQueue 2 (sampleCmdBuffers 2)
          1 [some ⟨201⟩] 1 [some ⟨301⟩] [1] false (some ⟨55⟩)).trace.filter Event.isSubmit
        = [.vkQueueSubmit 7 1 info fence_vk]
      ∧ info.commandBufferCount = 2
      ∧ info.signalSemaphoreCount = 1
      ∧ info.waitSemaphoreCount = 1
      ∧ (∀ i, i < 2 → info.pCommandBuffers[i]? = some (some (100 + i)))
      ∧ (∀ i, i < 1 → info.pSignalSemaphores[i]? = some (some 201))
      ∧ (∀ i, i < 1 → info.pWaitSemaphores[i]? = some (some 301))
      ∧ info.pWaitDstStageMask = [1] :=
  submit_command_buffers_one_submit (sampleEnv true VK_SUCCESS) sampleQueue 2
    (sampleCmdBuffers 2) 1 [some ⟨201⟩] 1 [some ⟨301⟩] [1] false (some ⟨55⟩)
    (fun i => ⟨100 + i⟩) (fun _ => ⟨201⟩) (fun _ => ⟨301⟩) (fun _ => by decide) (by decide)
    (fun h => absurd h (by decide)) (by decide) (by decide) (by decide)

/-! ## Submission: waits, fences, failures -/

theorem filter_fenceCreation (p : Event → Bool) (hp : ∀ b, p (.Fence_create b) = false)
    (should_block : Bool) (opt_fence_ptr : Option Fence) :
    (fenceCreation should_block opt_fence_ptr).filter p = [] := by
  unfold fenceCreation
  split <;> simp [hp]

theorem filter_isWait_submit_and_wait (env : Env) (q : Queue) (info : VkSubmitInfo)
    (should_block : Bool) (fence : Option Fence) :
    (submit_and_wait env q info should_block fence).trace.filter Event.isWait
      = if should_block = true ∧ checkStops env
            (env.is_vk_call_successful (submitResult env q info fence)) = false
        then [waitCall q fence] else [] := by
  unfold submit_and_wait
  by_cases h : should_block = true ∧ checkStops env
      (env.is_vk_call_successful (submitResult env q info fence)) = false
  · simp [h, List.filter_cons, List.filter_append, filter_checkEvents Event.isWait (fun _ => rfl),
      submitCall, waitCall, Event.isWait]
  · simp only [h, if_false, List.append_nil]
    simp [List.filter_cons, filter_checkEvents Event.isWait (fun _ => rfl), submitCall,
      Event.isWait]

theorem filter_isSubmitOrWait_submit_and_wait (env : Env) (q : Queue) (info : VkSubmitInfo)
    (should_block : Bool) (fence : Option Fence) :
    (submit_and_wait env q info should_block fence).trace.filter Event.isSubmitOrWait
      = submitCall q info fence
          :: if should_block = true ∧ checkStops env
              (env.is_vk_call_successful (submitResult env q info fence)) = false
            then [waitCall q fence] else [] := by
  unfold submit_and_wait
  by_cases h : should_block = true ∧ checkStops env
      (env.is_vk_call_successful (submitResult env q info fence)) = false
  · simp [h, List.filter_cons, List.filter_append,
      filter_checkEvents Event.isSubmitOrWait (fun _ => rfl), submitCall, waitCall,
      Event.isSubmitOrWait, Event.isSubmit, Event.isWait]
  · simp only [h, if_false, List.append_nil]
    simp [List.filter_cons, filter_checkEvents Event.isSubmitOrWait (fun _ => rfl), submitCall,
      Event.isSubmitOrWait, Event.isSubmit, Event.isWait]

theorem submit_and_wait_outcome_returned (env : Env) (q : Queue) (info : VkSubmitInfo)
    (should_block : Bool) (fence : Option Fence)
    (h : env.assertions_fatal = false
      ∨ (env.is_vk_call_successful (submitResult env q info fence) = true
        ∧ (should_block = true →
            env.is_vk_call_successful (waitResult env q fence) = true))) :
    (submit_and_wait env q info should_block fence).outcome = .returned () := by
  unfold submit_and_wait
  rcases h with hfatal | ⟨h1, h2⟩
  · simp [checkStops, hfatal]
  · cases should_block
    · simp [checkStops, h1]
    · simp [checkStops, h1, h2 rfl]

/-- The trace of `submit_command_buffers` with one kind of event kept, when
the sanity checks, the fence creation and the stores are not of that kind. -/
theorem filter_submit_trace (p : Event → Bool) (hassert : ∀ l, p (.assertion_failed l) = false)
    (hcreate : ∀ b, p (.Fence_create b) = false) (hstore : ∀ a i v, p (.array_store a i v) = false)
    (q : Queue) (n_command_buffers n_semaphores_to_signal n_semaphores_to_wait_on : Nat)
    (should_block : Bool) (opt_fence_ptr : Option Fence) (h1 h2 h3 : Nat → VkHandle)
    (tail : List Event) :
    (sanityEvents q n_command_buffers n_semaphores_to_signal n_semaphores_to_wait_on
        ++ fenceCreation should_block opt_fence_ptr
        ++ storeEvents .cmd_buffers_vk n_command_buffers h1
        ++ storeEvents .signal_semaphores_vk n_semaphores_to_signal h2
        ++ storeEvents .wait_semaphores_vk n_semaphores_to_wait_on h3
        ++ tail).filter p = tail.filter p := by
  simp only [List.filter_append, filter_sanityEvents p hassert, filter_fenceCreation p hcreate,
    filter_storeEvents p hstore, List.nil_append]

/-- C11: in a submission whose counts fit the arrays, whose inputs are
non-null and that no sanity check ends (a blocking call being made on a queue
of a single-GPU device), a wait is issued only if `should_block` is true, and
no run issues more than one.  Every run that gets past the check of the submit
result, so every run that returns, consists, for submits and waits, of the one
native submit followed, exactly when `should_block` is true, by one
`vkWaitForFences` on one fence, the fence whose handle went to the submit (the
fence of the caller when one was supplied), with wait-all set and timeout
`UINT64_MAX`.  The run returns when no native result fails its check, or
when execution continues behind a failed assertion. -/
theorem submit_command_buffers_waits_iff_blocking (env : Env) (q : Queue)
    (n_command_buffers : Nat) (opt_cmd_buffer_ptrs : List (Option CommandBufferBase))
    (n_semaphores_to_signal : Nat) (opt_semaphore_to_signal_ptr_ptrs : List (Option Semaphore))
    (n_semaphores_to_wait_on : Nat) (opt_semaphore_to_wait_on_ptr_ptrs : List (Option Semaphore))
    (opt_dst_stage_masks_to_wait_on_ptrs : List Nat)
    (should_block : Bool) (opt_fence_ptr : Option Fence)
    (cmd_buffers : Nat → CommandBufferBase) (signal_semaphores wait_semaphores : Nat → Semaphore)
    (hsanity : env.assertions_fatal = true →
      q.m_device_ptr.type = .DEVICE_TYPE_SINGLE_GPU ∧ n_command_buffers < 64
        ∧ n_semaphores_to_signal < 64 ∧ n_semaphores_to_wait_on < 64)
    (hfit : n_command_buffers ≤ 64 ∧ n_semaphores_to_signal ≤ 64 ∧ n_semaphores_to_wait_on ≤ 64)
    (hdev : should_block = true → q.m_device_ptr.type = .DEVICE_TYPE_SINGLE_GPU)
    (hcmd : ∀ i, i < n_command_buffers → opt_cmd_buffer_ptrs[i]? = some (some (cmd_buffers i)))
    (hsignal : ∀ i, i < n_semaphores_to_signal →
      opt_semaphore_to_signal_ptr_ptrs[i]? = some (some (signal_semaphores i)))
    (hwait : ∀ i, i < n_semaphores_to_wait_on →
      opt_semaphore_to_wait_on_ptr_ptrs[i]? = some (some (wait_semaphores i))) :
    ∃ (info : VkSubmitInfo) (fence_vk : VkHandle),
      (∀ f : Fence, opt_fence_ptr = some f → fence_vk = f.fence)
      ∧ (submit_command_buffers env q n_command_buffers opt_cmd_buffer_ptrs
          n_semaphores_to_signal opt_semaphore_to_signal_ptr_ptrs n_semaphores_to_wait_on
          opt_semaphore_to_wait_on_ptr_ptrs opt_dst_stage_masks_to_wait_on_ptrs should_block
          opt_fence_ptr).trace.filter Event.isSubmit = [.vkQueueSubmit q.m_queue 1 info fence_vk]
      ∧ ((submit_command_buffers env q n_command_buffers opt_cmd_buffer_ptrs
          n_semaphores_to_signal opt_semaphore_to_signal_ptr_ptrs n_semaphores_to_wait_on
          opt_semaphore_to_wait_on_ptr_ptrs opt_dst_stage_masks_to_wait_on_ptrs should_block
          opt_fence_ptr).trace.filter Event.isWait ≠ [] → should_block = true)
      ∧ ((submit_command_buffers env q n_command_buffers opt_cmd_buffer_ptrs
          n_semaphores_to_signal opt_semaphore_to_signal_ptr_ptrs n_semaphores_to_wait_on
          opt_semaphore_to_wait_on_ptr_ptrs opt_dst_stage_masks_to_wait_on_ptrs should_block
          opt_fence_ptr).trace.filter Event.isWait = []
          ∨ (submit_command_buffers env q n_command_buffers opt_cmd_buffer_ptrs
          n_semaphores_to_signal opt_semaphore_to_signal_ptr_ptrs n_semaphores_to_wait_on
          opt_semaphore_to_wait_on_ptr_ptrs opt_dst_stage_masks_to_wait_on_ptrs should_block
          opt_fence_ptr).trace.filter Event.isWait
            = [.vkWaitForFences q.m_device_ptr.device_vk 1 fence_vk VK_TRUE UINT64_MAX])
      ∧ ((env.is_vk_call_successful (env.vkQueueSubmit q.m_queue 1 info fence_vk) = true
          ∨ env.assertions_fatal = false
          ∨ (submit_command_buffers env q n_command_buffers opt_cmd_buffer_ptrs
          n_semaphores_to_signal opt_semaphore_to_signal_ptr_ptrs n_semaphores_to_wait_on
          opt_semaphore_to_wait_on_ptr_ptrs opt_dst_stage_masks_to_wait_on_ptrs should_block
          opt_fence_ptr).outcome = .returned ()) →
          (submit_command_buffers env q n_command_buffers opt_cmd_buffer_ptrs
          n_semaphores_to_signal opt_semaphore_to_signal_ptr_ptrs n_semaphores_to_wait_on
          opt_semaphore_to_wait_on_ptr_ptrs opt_dst_stage_masks_to_wait_on_ptrs should_block
          opt_fence_ptr).trace.filter Event.isSubmitOrWait
            = .vkQueueSubmit q.m_queue 1 info fence_vk
                :: if should_block = true then
                    [.vkWaitForFences q.m_device_ptr.device_vk 1 fence_vk VK_TRUE UINT64_MAX]
                  else [])
      ∧ ((env.assertions_fatal = false
          ∨ (env.is_vk_call_successful (env.vkQueueSubmit q.m_queue 1 info fence_vk) = true
            ∧ (should_block = true → env.is_vk_call_successful
                (env.vkWaitForFences q.m_device_ptr.device_vk 1 fence_vk VK_TRUE UINT64_MAX)
                  = true))) →
          (submit_command_buffers env q n_command_buffers opt_cmd_buffer_ptrs
          n_semaphores_to_signal opt_semaphore_to_signal_ptr_ptrs n_semaphores_to_wait_on
          opt_semaphore_to_wait_on_ptr_ptrs opt_dst_stage_masks_to_wait_on_ptrs should_block
          opt_fence_ptr).outcome = .returned ()) := by
  have hrun := submit_command_buffers_run env q n_command_buffers opt_cmd_buffer_ptrs
    n_semaphores_to_signal opt_semaphore_to_signal_ptr_ptrs n_semaphores_to_wait_on
    opt_semaphore_to_wait_on_ptr_ptrs opt_dst_stage_masks_to_wait_on_ptrs should_block
    opt_fence_ptr cmd_buffers signal_semaphores wait_semaphores hsanity hfit hdev hcmd hsignal
    hwait
  refine ⟨submitInfo n_command_buffers (fun i => (cmd_buffers i).command_buffer)
    n_semaphores_to_signal (fun i => (signal_semaphores i).semaphore)
    n_semaphores_to_wait_on (fun i => (wait_semaphores i).semaphore)
    opt_dst_stage_masks_to_wait_on_ptrs,
    fenceHandle (fenceInUse env should_block opt_fence_ptr), ?_, ?_, ?_, ?_, ?_, ?_⟩
  · intro f hf
    simp [hf, fenceInUse, fenceHandle]
  · rw [hrun]
    simp only [filter_submit_trace Event.isSubmit (fun _ => rfl) (fun _ => rfl)
      (fun _ _ _ => rfl), filter_isSubmit_submit_and_wait]
    rfl
  · rw [hrun]
    simp only [filter_submit_trace Event.isWait (fun _ => rfl) (fun _ => rfl)
      (fun _ _ _ => rfl), filter_isWait_submit_and_wait]
    intro hne
    by_contra hb
    simp [hb] at hne
  · rw [hrun]
    simp only [filter_submit_trace Event.isWait (fun _ => rfl) (fun _ => rfl)
      (fun _ _ _ => rfl), filter_isWait_submit_and_wait]
    split
    · exact Or.inr rfl
    · exact Or.inl rfl
  · intro hpast
    have hstop : checkStops env (env.is_vk_call_successful (submitResult env q
        (submitInfo n_command_buffers (fun i => (cmd_buffers i).command_buffer)
    n_semaphores_to_signal (fun i => (signal_semaphores i).semaphore)
    n_semaphores_to_wait_on (fun i => (wait_semaphores i).semaphore)
    opt_dst_stage_masks_to_wait_on_ptrs) (fenceInUse env should_block opt_fence_ptr))) = false := by
      rcases hpast with h1 | h2 | h3
      · simp only [checkStops, submitResult, h1]; rfl
      · simp [checkStops, h2]
      · rw [hrun] at h3
        exact submit_and_wait_returned _ _ _ _ _ h3
    rw [hrun]
    simp only [filter_submit_trace Event.isSubmitOrWait (fun _ => rfl) (fun _ => rfl)
      (fun _ _ _ => rfl), filter_isSubmitOrWait_submit_and_wait, hstop, and_true]
    rfl
  · intro hret
    rw [hrun]
    exact submit_and_wait_outcome_returned _ _ _ _ _ hret

theorem submit_command_buffers_waits_iff_blocking_sample :
    ∃ (info : VkSubmitInfo),
      (submit_command_buffers (sampleEnv true VK_SUCCESS) sampleQueue 2 (sampleCmdBuffers 2)
          1 [some ⟨201⟩] 1 [some ⟨301⟩] [1] true (some ⟨55⟩)).trace.filter Event.isSubmitOrWait
        = [.vkQueueSubmit 7 1 info 55, .vkWaitForFences 3 1 55 true (2 ^ 64 - 1)] := by
  obtain ⟨info, fence_vk, hfence, _, _, _, hsteps, _⟩ :=
    submit_command_buffers_waits_iff_blocking (sampleEnv true VK_SUCCESS) sampleQueue 2
      (sampleCmdBuffers 2) 1 [some ⟨201⟩] 1 [some ⟨301⟩] [1] true (some ⟨55⟩)
      (fun i => ⟨100 + i⟩) (fun _ => ⟨201⟩) (fun _ => ⟨301⟩) (fun _ => by decide) (by decide)
      (fun _ => rfl) (by decide) (by decide) (by decide)
  have h55 : fence_vk = 55 := hfence ⟨55⟩ rfl
  subst h55
  exact ⟨info, hsteps (Or.inr (Or.inr (by decide)))⟩

theorem filter_isFenceCreate_submit_trace (env : Env) (q : Queue)
    (n_command_buffers n_semaphores_to_signal n_semaphores_to_wait_on : Nat)
    (should_block : Bool) (opt_fence_ptr : Option Fence) (h1 h2 h3 : Nat → VkHandle)
    (info : VkSubmitInfo) (fence : Option Fence) :
    (sanityEvents q n_command_buffers n_semaphores_to_signal n_semaphores_to_wait_on
        ++ fenceCreation should_block opt_fence_ptr
        ++ storeEvents .cmd_buffers_vk n_command_buffers h1
        ++ storeEvents .signal_semaphores_vk n_semaphores_to_signal h2
        ++ storeEvents .wait_semaphores_vk n_semaphores_to_wait_on h3
        ++ (submit_and_wait env q info should_block fence).trace).filter Event.isFenceCreate
      = fenceCreation should_block opt_fence_ptr := by
  have hcreate : (fenceCreation should_block opt_fence_ptr).filter Event.isFenceCreate
      = fenceCreation should_block opt_fence_ptr := by
    unfold fenceCreation
    split <;> simp [Event.isFenceCreate]
  simp only [List.filter_append, filter_sanityEvents Event.isFenceCreate (fun _ => rfl),
    filter_storeEvents Event.isFenceCreate (fun _ _ _ => rfl),
    filter_isFenceCreate_submit_and_wait, hcreate, List.nil_append, List.append_nil]

/-- C20: in a submission whose counts fit the arrays, whose inputs are
non-null and that no sanity check ends (a blocking call being made on a queue
of a single-GPU device), a fence is created exactly when `should_block` is
true and no fence was supplied, and then once, unsignalled.  Without a fence
and without blocking, the native submit receives the null handle and no wait
is issued.  With a fence supplied, none is created and the handle of the
supplied fence goes to the native submit. -/
theorem submit_command_buffers_fence_synthesis (env : Env) (q : Queue)
    (n_command_buffers : Nat) (opt_cmd_buffer_ptrs : List (Option CommandBufferBase))
    (n_semaphores_to_signal : Nat) (opt_semaphore_to_signal_ptr_ptrs : List (Option Semaphore))
    (n_semaphores_to_wait_on : Nat) (opt_semaphore_to_wait_on_ptr_ptrs : List (Option Semaphore))
    (opt_dst_stage_masks_to_wait_on_ptrs : List Nat)
    (should_block : Bool) (opt_fence_ptr : Option Fence)
    (cmd_buffers : Nat → CommandBufferBase) (signal_semaphores wait_semaphores : Nat → Semaphore)
    (hsanity : env.assertions_fatal = true →
      q.m_device_ptr.type = .DEVICE_TYPE_SINGLE_GPU ∧ n_command_buffers < 64
        ∧ n_semaphores_to_signal < 64 ∧ n_semaphores_to_wait_on < 64)
    (hfit : n_command_buffers ≤ 64 ∧ n_semaphores_to_signal ≤ 64 ∧ n_semaphores_to_wait_on ≤ 64)
    (hdev : should_block = true → q.m_device_ptr.type = .DEVICE_TYPE_SINGLE_GPU)
    (hcmd : ∀ i, i < n_command_buffers → opt_cmd_buffer_ptrs[i]? = some (some (cmd_buffers i)))
    (hsignal : ∀ i, i < n_semaphores_to_signal →
      opt_semaphore_to_signal_ptr_ptrs[i]? = some (some (signal_semaphores i)))
    (hwait : ∀ i, i < n_semaphores_to_wait_on →
      opt_semaphore_to_wait_on_ptr_ptrs[i]? = some (some (wait_semaphores i))) :
    ∃ info : VkSubmitInfo,
      (submit_command_buffers env q n_command_buffers opt_cmd_buffer_ptrs
          n_semaphores_to_signal opt_semaphore_to_signal_ptr_ptrs n_semaphores_to_wait_on
          opt_semaphore_to_wait_on_ptr_ptrs opt_dst_stage_masks_to_wait_on_ptrs should_block
          opt_fence_ptr).trace.filter Event.isFenceCreate
        = (if opt_fence_ptr = none ∧ should_block = true then [.Fence_create false] else [])
      ∧ (opt_fence_ptr = none → should_block = false →
          (submit_command_buffers env q n_command_buffers opt_cmd_buffer_ptrs
          n_semaphores_to_signal opt_semaphore_to_signal_ptr_ptrs n_semaphores_to_wait_on
          opt_semaphore_to_wait_on_ptr_ptrs opt_dst_stage_masks_to_wait_on_ptrs should_block
          opt_fence_ptr).trace.filter Event.isFenceCreate = []
          ∧ (submit_command_buffers env q n_command_buffers opt_cmd_buffer_ptrs
          n_semaphores_to_signal opt_semaphore_to_signal_ptr_ptrs n_semaphores_to_wait_on
          opt_semaphore_to_wait_on_ptr_ptrs opt_dst_stage_masks_to_wait_on_ptrs should_block
          opt_fence_ptr).trace.filter Event.isSubmit = [.vkQueueSubmit q.m_queue 1 info VK_NULL_HANDLE]
          ∧ (submit_command_buffers env q n_command_buffers opt_cmd_buffer_ptrs
          n_semaphores_to_signal opt_semaphore_to_signal_ptr_ptrs n_semaphores_to_wait_on
          opt_semaphore_to_wait_on_ptr_ptrs opt_dst_stage_masks_to_wait_on_ptrs should_block
          opt_fence_ptr).trace.filter Event.isWait = [])
      ∧ (∀ f : Fence, opt_fence_ptr = some f →
          (submit_command_buffers env q n_command_buffers opt_cmd_buffer_ptrs
          n_semaphores_to_signal opt_semaphore_to_signal_ptr_ptrs n_semaphores_to_wait_on
          opt_semaphore_to_wait_on_ptr_ptrs opt_dst_stage_masks_to_wait_on_ptrs should_block
          opt_fence_ptr).trace.filter Event.isFenceCreate = []
          ∧ (submit_command_buffers env q n_command_buffers opt_cmd_buffer_ptrs
          n_semaphores_to_signal opt_semaphore_to_signal_ptr_ptrs n_semaphores_to_wait_on
          opt_semaphore_to_wait_on_ptr_ptrs opt_dst_stage_masks_to_wait_on_ptrs should_block
          opt_fence_ptr).trace.filter Event.isSubmit = [.vkQueueSubmit q.m_queue 1 info f.fence]) := by
  have hrun := submit_command_buffers_run env q n_command_buffers opt_cmd_buffer_ptrs
    n_semaphores_to_signal opt_semaphore_to_signal_ptr_ptrs n_semaphores_to_wait_on
    opt_semaphore_to_wait_on_ptr_ptrs opt_dst_stage_masks_to_wait_on_ptrs should_block
    opt_fence_ptr cmd_buffers signal_semaphores wait_semaphores hsanity hfit hdev hcmd hsignal
    hwait
  have hcreate : (submit_command_buffers env q n_command_buffers opt_cmd_buffer_ptrs
          n_semaphores_to_signal opt_semaphore_to_signal_ptr_ptrs n_semaphores_to_wait_on
          opt_semaphore_to_wait_on_ptr_ptrs opt_dst_stage_masks_to_wait_on_ptrs should_block
          opt_fence_ptr).trace.filter Event.isFenceCreate
      = fenceCreation should_block opt_fence_ptr := by
    rw [hrun]
    exact filter_isFenceCreate_submit_trace _ _ _ _ _ _ _ _ _ _ _ _
  have hsubmit : (submit_command_buffers env q n_command_buffers opt_cmd_buffer_ptrs
          n_semaphores_to_signal opt_semaphore_to_signal_ptr_ptrs n_semaphores_to_wait_on
          opt_semaphore_to_wait_on_ptr_ptrs opt_dst_stage_masks_to_wait_on_ptrs should_block
          opt_fence_ptr).trace.filter Event.isSubmit
      = [submitCall q (submitInfo n_command_buffers (fun i => (cmd_buffers i).command_buffer)
    n_semaphores_to_signal (fun i => (signal_semaphores i).semaphore)
    n_semaphores_to_wait_on (fun i => (wait_semaphores i).semaphore)
    opt_dst_stage_masks_to_wait_on_ptrs) (fenceInUse env should_block opt_fence_ptr)] := by
    rw [hrun]
    simp only [filter_submit_trace Event.isSubmit (fun _ => rfl) (fun _ => rfl)
      (fun _ _ _ => rfl), filter_isSubmit_submit_and_wait]
  have hwaits : (submit_command_buffers env q n_command_buffers opt_cmd_buffer_ptrs
          n_semaphores_to_signal opt_semaphore_to_signal_ptr_ptrs n_semaphores_to_wait_on
          opt_semaphore_to_wait_on_ptr_ptrs opt_dst_stage_masks_to_wait_on_ptrs should_block
          opt_fence_ptr).trace.filter Event.isWait
      = if should_block = true ∧ checkStops env (env.is_vk_call_successful (submitResult env q
            (submitInfo n_command_buffers (fun i => (cmd_buffers i).command_buffer)
    n_semaphores_to_signal (fun i => (signal_semaphores i).semaphore)
    n_semaphores_to_wait_on (fun i => (wait_semaphores i).semaphore)
    opt_dst_stage_masks_to_wait_on_ptrs) (fenceInUse env should_block opt_fence_ptr))) = false
        then [waitCall q (fenceInUse env should_block opt_fence_ptr)] else [] := by
    rw [hrun]
    simp only [filter_submit_trace Event.isWait (fun _ => rfl) (fun _ => rfl)
      (fun _ _ _ => rfl), filter_isWait_submit_and_wait]
  refine ⟨submitInfo n_command_buffers (fun i => (cmd_buffers i).command_buffer)
    n_semaphores_to_signal (fun i => (signal_semaphores i).semaphore)
    n_semaphores_to_wait_on (fun i => (wait_semaphores i).semaphore)
    opt_dst_stage_masks_to_wait_on_ptrs, ?_, ?_, ?_⟩
  · rw [hcreate]; rfl
  · intro hnone hblock
    refine ⟨?_, ?_, ?_⟩
    · rw [hcreate]; simp [fenceCreation, hblock]
    · rw [hsubmit]; simp [submitCall, fenceInUse, fenceHandle, hnone, hblock]
    · rw [hwaits]; simp [hblock]
  · intro f hf
    refine ⟨?_, ?_⟩
    · rw [hcreate]; simp [fenceCreation, hf]
    · rw [hsubmit]; simp [submitCall, fenceInUse, fenceHandle, hf]

theorem submit_command_buffers_fence_synthesis_sample :
    (submit_command_buffers (sampleEnv true VK_SUCCESS) sampleQueue 2 (sampleCmdBuffers 2)
        1 [some ⟨201⟩] 1 [some ⟨301⟩] [1] false none).trace.filter Event.isFenceCreate = []
      ∧ ∃ info : VkSubmitInfo,
        (submit_command_buffers (sampleEnv true VK_SUCCESS) sampleQueue 2 (sampleCmdBuffers 2)
          1 [some ⟨201⟩] 1 [some ⟨301⟩] [1] false none).trace.filter Event.isSubmit
            = [.vkQueueSubmit 7 1 info 0] := by
  obtain ⟨info, _, hnone, _⟩ :=
    submit_command_buffers_fence_synthesis (sampleEnv true VK_SUCCESS) sampleQueue 2
      (sampleCmdBuffers 2) 1 [some ⟨201⟩] 1 [some ⟨301⟩] [1] false none
      (fun i => ⟨100 + i⟩) (fun _ => ⟨201⟩) (fun _ => ⟨301⟩) (fun _ => by decide) (by decide)
      (fun h => absurd h (by decide)) (by decide) (by decide) (by decide)
  exact ⟨(hnone rfl rfl).1, info, (hnone rfl rfl).2.1⟩

theorem filledArrayOf_length (capacity n : Nat) (handle : Nat → VkHandle) (hn : n ≤ capacity) :
    (filledArrayOf capacity n handle).length = capacity := by
  simp [filledArrayOf]; omega

theorem filledArrayOf_set (capacity n : Nat) (handle : Nat → VkHandle) (hn : n < capacity) :
    (filledArrayOf capacity n handle).set n (some (handle n))
      = filledArrayOf capacity (n + 1) handle := by
  unfold filledArrayOf
  have hcap : capacity - n = (capacity - (n + 1)) + 1 := by omega
  rw [hcap, List.replicate_succ, List.range_succ, List.map_append, List.append_assoc]
  rw [List.set_append_right _ _ (by simp)]
  simp

theorem filledArrayOf_getElem? (capacity n : Nat) (handle : Nat → VkHandle) (i : Nat)
    (hi : i < n) : (filledArrayOf capacity n handle)[i]? = some (some (handle i)) := by
  unfold filledArrayOf
  rw [List.getElem?_append_left (by simpa using hi)]
  simp [hi]

/-- A loop that reads `n` non-null pointers and stores their handles into a
fresh local array of `capacity` slots, with `n` within the array. -/
theorem fill_loop_run_of {α : Type} (capacity : Nat) (array : LocalArray)
    (ptrs : List (Option α)) (get_handle : α → VkHandle) (objs : Nat → α) (n : Nat)
    (hn : n ≤ capacity) (h : ∀ i, i < n → ptrs[i]? = some (some (objs i))) :
    (Exec.for_lt n (List.replicate capacity none) fun i contents => do
        let obj ← read_ptr ptrs i
        array_store array contents i (get_handle obj))
      = ⟨storeEvents array n fun i => get_handle (objs i),
          .returned (filledArrayOf capacity n fun i => get_handle (objs i))⟩ := by
  induction n with
  | zero => simp [Exec.for_lt, Exec.loop, Exec.ret, storeEvents, filledArrayOf]
  | succ n ih =>
    rw [Exec.for_lt_succ, ih (by omega) (fun i hi => h i (by omega))]
    have hlen := filledArrayOf_length capacity n (fun i => get_handle (objs i)) (by omega)
    simp only [Exec.bind_eq_andThen, read_ptr_some ptrs n (objs n) (h n (by omega)),
      Exec.ret_andThen]
    simp [Exec.andThen, array_store, hlen, show n < capacity by omega, storeEvents,
      List.range_succ, filledArrayOf_set capacity n (fun i => get_handle (objs i)) (by omega)]

/-- The branch condition of lines 231-248 holds exactly for a swapchain whose
window is alive and of one of the two dummy platforms. -/
theorem is_dummy_window_iff (swapchain_ptr : Option Swapchain) :
    is_dummy_window swapchain_ptr = true
      ↔ ∃ swapchain window, swapchain_ptr = some swapchain
          ∧ swapchain.window = .alive window
          ∧ (window.platform = .WINDOW_PLATFORM_DUMMY
            ∨ window.platform = .WINDOW_PLATFORM_DUMMY_WITH_PNG_SNAPSHOTS) := by
  cases swapchain_ptr with
  | none => simp [is_dummy_window]
  | some swapchain =>
    obtain ⟨handle, window_ptr⟩ := swapchain
    cases window_ptr <;> simp [is_dummy_window, WeakPtr.expired, WeakPtr.lock]

/-- The native path of `present`, lines 264-342, for a non-null swapchain, a
count within the array that passes the check of line 226 wherever a failed
check would end the operation, and non-null semaphores. -/
theorem present_live_run (env : PresentEnv) (q : Queue) (swapchain : Swapchain)
    (swapchain_image_index n_wait_semaphores : Nat)
    (wait_semaphore_ptrs : List (Option Semaphore)) (wait_semaphores : Nat → Semaphore)
    (hlive : is_dummy_window (some swapchain) = false)
    (hfit : n_wait_semaphores ≤ 8)
    (hsanity : env.assertions_fatal = true → n_wait_semaphores < 8)
    (hwait : ∀ i, i < n_wait_semaphores →
      wait_semaphore_ptrs[i]? = some (some (wait_semaphores i))) :
    present env q (some swapchain) swapchain_image_index n_wait_semaphores wait_semaphore_ptrs
      = ⟨checkEvents 226 (decide (n_wait_semaphores < 8))
          ++ .array_store .swapchains_vk 0 swapchain.swapchain_vk
          :: storeEvents .present_wait_semaphores_vk n_wait_semaphores
              (fun i => (wait_semaphores i).semaphore)
          ++ (present_native env q (presentInfo swapchain swapchain_image_index
              n_wait_semaphores fun i => (wait_semaphores i).semaphore)).trace,
          (present_native env q (presentInfo swapchain swapchain_image_index
              n_wait_semaphores fun i => (wait_semaphores i).semaphore)).outcome⟩ := by
  have hloop := fill_loop_run_of 8 .present_wait_semaphores_vk wait_semaphore_ptrs
    Semaphore.semaphore wait_semaphores n_wait_semaphores hfit hwait
  unfold present
  simp only [Exec.bind_eq_andThen, Exec.pure_eq_ret] at hloop ⊢
  rw [anvil_assert_andThen_of_continues _ _ _ _ (fun h => by simpa using hsanity h)]
  simp only [hlive, Bool.false_eq_true, if_false, Exec.deref, Exec.ret_andThen, hloop]
  simp [array_store, MAX_SWAPCHAINS, Exec.andThen, presentInfo, filledArrayOf]

theorem severity_cases (r : VkResult) :
    (r = VK_ERROR_DEVICE_LOST ∧ severity r = 4)
      ∨ (r = VK_ERROR_SURFACE_LOST_KHR ∧ severity r = 3)
      ∨ (r = VK_ERROR_OUT_OF_DATE_KHR ∧ severity r = 2)
      ∨ (r = VK_SUBOPTIMAL_KHR ∧ severity r = 1)
      ∨ (r ≠ VK_ERROR_DEVICE_LOST ∧ r ≠ VK_ERROR_SURFACE_LOST_KHR
          ∧ r ≠ VK_ERROR_OUT_OF_DATE_KHR ∧ r ≠ VK_SUBOPTIMAL_KHR ∧ severity r = 0) := by
  unfold severity
  split_ifs <;> simp_all

theorem result_codes_distinct :
    VK_ERROR_SURFACE_LOST_KHR ≠ VK_ERROR_DEVICE_LOST
      ∧ VK_ERROR_OUT_OF_DATE_KHR ≠ VK_ERROR_DEVICE_LOST
      ∧ VK_ERROR_OUT_OF_DATE_KHR ≠ VK_ERROR_SURFACE_LOST_KHR
      ∧ VK_SUBOPTIMAL_KHR ≠ VK_ERROR_DEVICE_LOST
      ∧ VK_SUBOPTIMAL_KHR ≠ VK_ERROR_SURFACE_LOST_KHR
      ∧ VK_SUBOPTIMAL_KHR ≠ VK_ERROR_OUT_OF_DATE_KHR := by
  decide

/-- The switch of lines 291-338 in closed form: for a code of the target that
has a rank it hands back the more severe of the two codes; for any other code
it asserts that the code is `VK_SUCCESS` and hands back the code of the native
call. -/
theorem most_important_error_code_eq (env : Env) (result presentation_result : VkResult) :
    most_important_error_code env result presentation_result
      = if severity presentation_result = 0 then
          Exec.andThen (anvil_assert env 336 (decide (presentation_result = VK_SUCCESS)))
            fun _ => Exec.ret result
        else Exec.ret (mostSevere result presentation_result) := by
  obtain ⟨d1, d2, d3, d4, d5, d6⟩ := result_codes_distinct
  rcases severity_cases presentation_result with
    ⟨hp, hs⟩ | ⟨hp, hs⟩ | ⟨hp, hs⟩ | ⟨hp, hs⟩ | ⟨hp1, hp2, hp3, hp4, hs⟩
  · rcases severity_cases result with
      ⟨hc, hr⟩ | ⟨hc, hr⟩ | ⟨hc, hr⟩ | ⟨hc, hr⟩ | ⟨hc1, hc2, hc3, hc4, hr⟩ <;>
      simp_all [most_important_error_code, mostSevere]
  · rcases severity_cases result with
      ⟨hc, hr⟩ | ⟨hc, hr⟩ | ⟨hc, hr⟩ | ⟨hc, hr⟩ | ⟨hc1, hc2, hc3, hc4, hr⟩ <;>
      simp_all [most_important_error_code, mostSevere]
  · rcases severity_cases result with
      ⟨hc, hr⟩ | ⟨hc, hr⟩ | ⟨hc, hr⟩ | ⟨hc, hr⟩ | ⟨hc1, hc2, hc3, hc4, hr⟩ <;>
      simp_all [most_important_error_code, mostSevere]
  · rcases severity_cases result with
      ⟨hc, hr⟩ | ⟨hc, hr⟩ | ⟨hc, hr⟩ | ⟨hc, hr⟩ | ⟨hc1, hc2, hc3, hc4, hr⟩ <;>
      simp_all [most_important_error_code, mostSevere]
  · simp [most_important_error_code, hs, hp1, hp2, hp3, hp4]

/-! ## The native present call and the code handed back -/

theorem filter_present_native (p : Event → Bool) (hp : ∀ l, p (.assertion_failed l) = false)
    (env : PresentEnv) (q : Queue) (info : VkPresentInfoKHR) :
    (present_native env q info).trace.filter p
      = [Event.vkQueuePresentKHR q.m_queue info].filter p := by
  unfold present_native
  simp only [Exec.bind_eq_andThen, Exec.pure_eq_ret, most_important_error_code_eq]
  by_cases hsev : severity (env.presentation_result q.m_queue info) = 0 <;>
    cases hc : env.is_vk_call_successful (env.vkQueuePresentKHR q.m_queue info) <;>
    cases hp2 : env.is_vk_call_successful (env.presentation_result q.m_queue info) <;>
    cases hf : env.assertions_fatal <;>
    cases hs : decide (env.presentation_result q.m_queue info = VK_SUCCESS) <;>
    simp [anvil_assert_vk_call_succeeded, anvil_assert, Exec.andThen, Exec.ret, Exec.emit,
      hsev, hc, hp2, hf, hs, hp, List.filter_cons]

theorem present_native_returned (env : PresentEnv) (q : Queue) (info : VkPresentInfoKHR)
    (x : VkResult) (h : (present_native env q info).outcome = .returned x) :
    x = presentedCode env q info := by
  revert h
  unfold present_native
  simp only [Exec.bind_eq_andThen, Exec.pure_eq_ret, most_important_error_code_eq]
  by_cases hsev : severity (env.presentation_result q.m_queue info) = 0 <;>
    cases hc : env.is_vk_call_successful (env.vkQueuePresentKHR q.m_queue info) <;>
    cases hp : env.is_vk_call_successful (env.presentation_result q.m_queue info) <;>
    cases hf : env.assertions_fatal <;>
    cases hs : decide (env.presentation_result q.m_queue info = VK_SUCCESS) <;>
    simp [anvil_assert_vk_call_succeeded, anvil_assert, Exec.andThen, Exec.ret, Exec.emit,
      presentedCode, mostSevere, hsev, hc, hp, hf, hs] <;>
    intro h <;> exact h.symm

theorem present_native_continues (env : PresentEnv) (q : Queue) (info : VkPresentInfoKHR)
    (h : env.assertions_fatal = false
      ∨ (env.is_vk_call_successful (env.vkQueuePresentKHR q.m_queue info) = true
        ∧ env.is_vk_call_successful (env.presentation_result q.m_queue info) = true
        ∧ (severity (env.presentation_result q.m_queue info) ≠ 0
          ∨ env.presentation_result q.m_queue info = VK_SUCCESS))) :
    (present_native env q info).outcome = .returned (presentedCode env q info) := by
  revert h
  unfold present_native
  simp only [Exec.bind_eq_andThen, Exec.pure_eq_ret, most_important_error_code_eq]
  by_cases hsev : severity (env.presentation_result q.m_queue info) = 0 <;>
    cases hc : env.is_vk_call_successful (env.vkQueuePresentKHR q.m_queue info) <;>
    cases hp : env.is_vk_call_successful (env.presentation_result q.m_queue info) <;>
    cases hf : env.assertions_fatal <;>
    cases hs : decide (env.presentation_result q.m_queue info = VK_SUCCESS) <;>
    simp [anvil_assert_vk_call_succeeded, anvil_assert, Exec.andThen, Exec.ret, Exec.emit,
      presentedCode, mostSevere, hsev, hc, hp, hf, hs]
  simpa using hs

theorem present_native_assertion_285 (env : PresentEnv) (q : Queue) (info : VkPresentInfoKHR) :
    (.assertion_failed 285 ∈ (present_native env q info).trace
        ↔ env.is_vk_call_successful (env.vkQueuePresentKHR q.m_queue info) = false)
      ∧ (env.is_vk_call_successful (env.vkQueuePresentKHR q.m_queue info) = false →
          env.assertions_fatal = true → (present_native env q info).outcome = .aborted) := by
  unfold present_native
  simp only [Exec.bind_eq_andThen, Exec.pure_eq_ret, most_important_error_code_eq]
  by_cases hsev : severity (env.presentation_result q.m_queue info) = 0 <;>
    cases hc : env.is_vk_call_successful (env.vkQueuePresentKHR q.m_queue info) <;>
    cases hp : env.is_vk_call_successful (env.presentation_result q.m_queue info) <;>
    cases hf : env.assertions_fatal <;>
    cases hs : decide (env.presentation_result q.m_queue info = VK_SUCCESS) <;>
    simp [anvil_assert_vk_call_succeeded, anvil_assert, Exec.andThen, Exec.ret, Exec.emit,
      hsev, hc, hp, hf, hs]

/-- The assertions of lines 289 and 336 and the runs a failed assertion ends.
The assertion of line 289 fails exactly when the code of the native call
counts as successful and the code of the target does not; the assertion of
line 336 fails exactly when the run reaches the switch, the code of the target
has no rank and is not `VK_SUCCESS`; and the run ends at a failed assertion
exactly when failed assertions end the operation and one of the three
assertions fails. -/
theorem present_native_assertions (env : PresentEnv) (q : Queue) (info : VkPresentInfoKHR) :
    (.assertion_failed 289 ∈ (present_native env q info).trace
        ↔ env.is_vk_call_successful (env.vkQueuePresentKHR q.m_queue info) = true
          ∧ env.is_vk_call_successful (env.presentation_result q.m_queue info) = false)
      ∧ (.assertion_failed 336 ∈ (present_native env q info).trace
        ↔ env.is_vk_call_successful (env.vkQueuePresentKHR q.m_queue info) = true
          ∧ (env.assertions_fatal = false
            ∨ env.is_vk_call_successful (env.presentation_result q.m_queue info) = true)
          ∧ severity (env.presentation_result q.m_queue info) = 0
          ∧ env.presentation_result q.m_queue info ≠ VK_SUCCESS)
      ∧ ((present_native env q info).outcome = .aborted
        ↔ env.assertions_fatal = true
          ∧ (env.is_vk_call_successful (env.vkQueuePresentKHR q.m_queue info) = false
            ∨ env.is_vk_call_successful (env.presentation_result q.m_queue info) = false
            ∨ (severity (env.presentation_result q.m_queue info) = 0
              ∧ env.presentation_result q.m_queue info ≠ VK_SUCCESS))) := by
  have hzero : severity VK_SUCCESS = 0 := by decide
  unfold present_native
  simp only [Exec.bind_eq_andThen, Exec.pure_eq_ret, most_important_error_code_eq]
  by_cases hsev : severity (env.presentation_result q.m_queue info) = 0 <;>
    cases hc : env.is_vk_call_successful (env.vkQueuePresentKHR q.m_queue info) <;>
    cases hp : env.is_vk_call_successful (env.presentation_result q.m_queue info) <;>
    cases hf : env.assertions_fatal <;>
    by_cases hs : env.presentation_result q.m_queue info = VK_SUCCESS <;>
    simp [anvil_assert_vk_call_succeeded, anvil_assert, Exec.andThen, Exec.ret, Exec.emit,
      hsev, hc, hp, hf, hs, hzero]

/-! ## Presentation on the native path: the claims -/

/-- The trace of the native path of `present` with one kind of event kept,
when the check of line 226 and the stores are not of that kind. -/
theorem filter_live_trace (p : Event → Bool) (hassert : ∀ l, p (.assertion_failed l) = false)
    (hstore : ∀ a i v, p (.array_store a i v) = false) (n : Nat) (cond : Bool)
    (swapchain_vk : VkHandle) (handle : Nat → VkHandle) (tail : List Event) :
    (checkEvents 226 cond
        ++ .array_store .swapchains_vk 0 swapchain_vk
        :: storeEvents .present_wait_semaphores_vk n handle
        ++ tail).filter p = tail.filter p := by
  simp [List.filter_append, List.filter_cons, filter_checkEvents p hassert, hstore,
    filter_storeEvents p hstore]

theorem severity_le (r : VkResult) : severity r ≤ 4 := by
  rcases severity_cases r with h | h | h | h | h <;> omega

theorem assertion_mem_live_trace (line : Nat) (hline : line ≠ 226) (n : Nat) (cond : Bool)
    (swapchain_vk : VkHandle) (handle : Nat → VkHandle) (tail : List Event) :
    .assertion_failed line ∈
        (checkEvents 226 cond
          ++ .array_store .swapchains_vk 0 swapchain_vk
          :: storeEvents .present_wait_semaphores_vk n handle
          ++ tail)
      ↔ .assertion_failed line ∈ tail := by
  have hst : Event.assertion_failed line ∉ storeEvents .present_wait_semaphores_vk n handle := by
    intro hmem
    obtain ⟨i, _, hi⟩ := List.mem_map.mp hmem
    cases hi
  cases cond <;> simp [checkEvents, hline, hst]

/-- The assertions of the native path of `present` (hypotheses of C16), and
the runs a failed assertion ends, in terms of the code `c` of the native call
and the code `p` of the target: the assertion of line 285 fails exactly when
`c` does not count as successful, that of line 289 exactly when `c` counts as
successful and `p` does not, that of line 336 exactly when the run reaches the
switch and `p` has no rank and is not `VK_SUCCESS`; the run ends without a
code exactly when failed assertions end the operation and one of the three
fails. -/
theorem present_live_assertions (env : PresentEnv) (q : Queue) (swapchain : Swapchain)
    (swapchain_image_index n_wait_semaphores : Nat)
    (wait_semaphore_ptrs : List (Option Semaphore)) (wait_semaphores : Nat → Semaphore)
    (hlive : is_dummy_window (some swapchain) = false)
    (hfit : n_wait_semaphores ≤ 8)
    (hsanity : env.assertions_fatal = true → n_wait_semaphores < 8)
    (hwait : ∀ i, i < n_wait_semaphores →
      wait_semaphore_ptrs[i]? = some (some (wait_semaphores i)))
    (info : VkPresentInfoKHR)
    (hinfo : info = presentInfo swapchain swapchain_image_index n_wait_semaphores
      fun i => (wait_semaphores i).semaphore) :
    (.assertion_failed 285 ∈ (present env q (some swapchain) swapchain_image_index
          n_wait_semaphores wait_semaphore_ptrs).trace
        ↔ env.is_vk_call_successful (env.vkQueuePresentKHR q.m_queue info) = false)
      ∧ (.assertion_failed 289 ∈ (present env q (some swapchain) swapchain_image_index
          n_wait_semaphores wait_semaphore_ptrs).trace
        ↔ env.is_vk_call_successful (env.vkQueuePresentKHR q.m_queue info) = true
          ∧ env.is_vk_call_successful (env.presentation_result q.m_queue info) = false)
      ∧ (.assertion_failed 336 ∈ (present env q (some swapchain) swapchain_image_index
          n_wait_semaphores wait_semaphore_ptrs).trace
        ↔ env.is_vk_call_successful (env.vkQueuePresentKHR q.m_queue info) = true
          ∧ (env.assertions_fatal = false
            ∨ env.is_vk_call_successful (env.presentation_result q.m_queue info) = true)
          ∧ severity (env.presentation_result q.m_queue info) = 0
          ∧ env.presentation_result q.m_queue info ≠ VK_SUCCESS)
      ∧ ((present env q (some swapchain) swapchain_image_index n_wait_semaphores
          wait_semaphore_ptrs).outcome = .aborted
        ↔ env.assertions_fatal = true
          ∧ (env.is_vk_call_successful (env.vkQueuePresentKHR q.m_queue info) = false
            ∨ env.is_vk_call_successful (env.presentation_result q.m_queue info) = false
            ∨ (severity (env.presentation_result q.m_queue info) = 0
              ∧ env.presentation_result q.m_queue info ≠ VK_SUCCESS))) := by
  subst hinfo
  have hrun := present_live_run env q swapchain swapchain_image_index n_wait_semaphores
    wait_semaphore_ptrs wait_semaphores hlive hfit hsanity hwait
  obtain ⟨h289, h336, haborted⟩ := present_native_assertions env q (presentInfo swapchain
    swapchain_image_index n_wait_semaphores fun i => (wait_semaphores i).semaphore)
  rw [hrun]
  simp only [assertion_mem_live_trace 285 (by decide), assertion_mem_live_trace 289 (by decide),
    assertion_mem_live_trace 336 (by decide)]
  exact ⟨(present_native_assertion_285 env q _).1, h289, h336, haborted⟩

/-- C16: a presentation to a target that does not take the off-screen branch
(non-null swapchain, branch condition of lines 231-248 false), with a
wait-semaphore count that fits the array and passes the check of line 226
wherever a failed check would end the operation, and non-null semaphores,
makes exactly one native present call; its record has a swapchain count of 1,
the handle of the swapchain at index 0, the image index of the caller, the
wait-semaphore count of the caller, and at index `i` the native handle of
input semaphore `i`.  It makes no submission. -/
theorem present_one_native_call (env : PresentEnv) (q : Queue) (swapchain : Swapchain)
    (swapchain_image_index n_wait_semaphores : Nat)
    (wait_semaphore_ptrs : List (Option Semaphore)) (wait_semaphores : Nat → Semaphore)
    (hlive : is_dummy_window (some swapchain) = false)
    (hfit : n_wait_semaphores ≤ 8)
    (hsanity : env.assertions_fatal = true → n_wait_semaphores < 8)
    (hwait : ∀ i, i < n_wait_semaphores →
      wait_semaphore_ptrs[i]? = some (some (wait_semaphores i))) :
    ∃ info : VkPresentInfoKHR,
      (present env q (some swapchain) swapchain_image_index n_wait_semaphores
          wait_semaphore_ptrs).trace.filter Event.isPresent = [.vkQueuePresentKHR q.m_queue info]
      ∧ info.swapchainCount = 1
      ∧ info.pSwapchains[0]? = some (some swapchain.swapchain_vk)
      ∧ info.pImageIndices = [swapchain_image_index]
      ∧ info.waitSemaphoreCount = n_wait_semaphores
      ∧ (∀ i, i < n_wait_semaphores →
          info.pWaitSemaphores[i]? = some (some (wait_semaphores i).semaphore))
      ∧ (present env q (some swapchain) swapchain_image_index n_wait_semaphores
          wait_semaphore_ptrs).trace.filter Event.isSubmit = []
      ∧ (present env q (some swapchain) swapchain_image_index n_wait_semaphores
          wait_semaphore_ptrs).trace.filter Event.isWaitSubmission = [] := by
  have hrun := present_live_run env q swapchain swapchain_image_index n_wait_semaphores
    wait_semaphore_ptrs wait_semaphores hlive hfit hsanity hwait
  refine ⟨presentInfo swapchain swapchain_image_index n_wait_semaphores
    fun i => (wait_semaphores i).semaphore, ?_, rfl, rfl, rfl, rfl,
    fun i hi => filledArrayOf_getElem? _ _ _ i hi, ?_, ?_⟩
  · rw [hrun]
    simp only [filter_live_trace Event.isPresent (fun _ => rfl) (fun _ _ _ => rfl),
      filter_present_native Event.isPresent (fun _ => rfl)]
    rfl
  · rw [hrun]
    simp only [filter_live_trace Event.isSubmit (fun _ => rfl) (fun _ _ _ => rfl),
      filter_present_native Event.isSubmit (fun _ => rfl)]
    rfl
  · rw [hrun]
    simp only [filter_live_trace Event.isWaitSubmission (fun _ => rfl) (fun _ _ _ => rfl),
      filter_present_native Event.isWaitSubmission (fun _ => rfl)]
    rfl

theorem present_one_native_call_sample :
    ∃ info : VkPresentInfoKHR,
      (present (samplePresentEnv true VK_SUCCESS VK_SUCCESS) sampleQueue
          (some (sampleSwapchain (.other 3))) 5 2 [some ⟨301⟩, some ⟨302⟩]).trace.filter
            Event.isPresent = [.vkQueuePresentKHR 7 info]
      ∧ info.swapchainCount = 1
      ∧ info.pSwapchains[0]? = some (some 70)
      ∧ info.pImageIndices = [5]
      ∧ info.waitSemaphoreCount = 2
      ∧ (∀ i, i < 2 → info.pWaitSemaphores[i]? = some (some (301 + i))) := by
  obtain ⟨info, h1, h2, h3, h4, h5, h6, _⟩ :=
    present_one_native_call (samplePresentEnv true VK_SUCCESS VK_SUCCESS) sampleQueue
      (sampleSwapchain (.other 3)) 5 2 [some ⟨301⟩, some ⟨302⟩] (fun i => ⟨301 + i⟩) rfl
      (by decide) (fun _ => by decide) (by decide)
  exact ⟨info, h1, h2, h3, h4, h5, h6⟩

/-- C14, as stated, fails: with the native call returning
`VK_ERROR_OUT_OF_DATE_KHR`, a code that does not count as successful, and the
target reporting `VK_ERROR_DEVICE_LOST`, `present` hands back the out-of-date
code where execution continues behind the failed assertion of line 285,
although device-lost ranks higher; where a failed assertion ends the
operation it hands back nothing. -/
theorem present_ignores_target_code_after_failure :
    (present (samplePresentEnv false VK_ERROR_OUT_OF_DATE_KHR VK_ERROR_DEVICE_LOST) sampleQueue
        (some (sampleSwapchain (.other 3))) 5 1 [some ⟨301⟩]).outcome
      = .returned VK_ERROR_OUT_OF_DATE_KHR
      ∧ mostSevere VK_ERROR_OUT_OF_DATE_KHR VK_ERROR_DEVICE_LOST = VK_ERROR_DEVICE_LOST
      ∧ VK_ERROR_OUT_OF_DATE_KHR ≠ VK_ERROR_DEVICE_LOST
      ∧ (present (samplePresentEnv true VK_ERROR_OUT_OF_DATE_KHR VK_ERROR_DEVICE_LOST)
          sampleQueue (some (sampleSwapchain (.other 3))) 5 1 [some ⟨301⟩]).outcome
        = .aborted := by
  decide

/-- C14, amended: on the native path (hypotheses of C16) `present` makes one
native call with result code `c` and target code `p`.  Whenever it returns,
it returns the more severe of `c` and `p` under the ranking device-lost,
surface-lost, out-of-date, suboptimal, other, if `c` counts as
successful, and `c` itself, whatever `p` is, if `c` does not.  It returns
whenever execution continues behind failed assertions, and also when `c` and
`p` count as successful and `p` has a rank or is `VK_SUCCESS`.  A device-lost
code of the native call is returned as device-lost whatever the target
reports.  The assertion of line 285 fails exactly when `c` does not count as
successful; that of line 289 exactly when `c` counts as successful and `p`
does not; that of line 336 exactly when `c` counts as successful, the run
gets past line 289, and `p` has no rank and is not `VK_SUCCESS`.  Nothing is
returned (the run ends at the failed assertion) exactly when failed assertions
end the operation and one of these three conditions holds. -/
theorem present_result_code (env : PresentEnv) (q : Queue) (swapchain : Swapchain)
    (swapchain_image_index n_wait_semaphores : Nat)
    (wait_semaphore_ptrs : List (Option Semaphore)) (wait_semaphores : Nat → Semaphore)
    (hlive : is_dummy_window (some swapchain) = false)
    (hfit : n_wait_semaphores ≤ 8)
    (hsanity : env.assertions_fatal = true → n_wait_semaphores < 8)
    (hwait : ∀ i, i < n_wait_semaphores →
      wait_semaphore_ptrs[i]? = some (some (wait_semaphores i))) :
    ∃ info : VkPresentInfoKHR,
      (present env q (some swapchain) swapchain_image_index n_wait_semaphores
          wait_semaphore_ptrs).trace.filter Event.isPresent = [.vkQueuePresentKHR q.m_queue info]
      ∧ (∀ x, (present env q (some swapchain) swapchain_image_index n_wait_semaphores
          wait_semaphore_ptrs).outcome = .returned x →
          x = if env.is_vk_call_successful (env.vkQueuePresentKHR q.m_queue info) = true then
                mostSevere (env.vkQueuePresentKHR q.m_queue info)
                  (env.presentation_result q.m_queue info)
              else env.vkQueuePresentKHR q.m_queue info)
      ∧ (env.assertions_fatal = false
          ∨ (env.is_vk_call_successful (env.vkQueuePresentKHR q.m_queue info) = true
            ∧ env.is_vk_call_successful (env.presentation_result q.m_queue info) = true
            ∧ (severity (env.presentation_result q.m_queue info) ≠ 0
              ∨ env.presentation_result q.m_queue info = VK_SUCCESS)) →
          (present env q (some swapchain) swapchain_image_index n_wait_semaphores
          wait_semaphore_ptrs).outcome = .returned
            (if env.is_vk_call_successful (env.vkQueuePresentKHR q.m_queue info) = true then
              mostSevere (env.vkQueuePresentKHR q.m_queue info)
                (env.presentation_result q.m_queue info)
            else env.vkQueuePresentKHR q.m_queue info))
      ∧ (env.vkQueuePresentKHR q.m_queue info = VK_ERROR_DEVICE_LOST →
          ∀ x, (present env q (some swapchain) swapchain_image_index n_wait_semaphores
          wait_semaphore_ptrs).outcome = .returned x → x = VK_ERROR_DEVICE_LOST)
      ∧ (.assertion_failed 285 ∈ (present env q (some swapchain) swapchain_image_index n_wait_semaphores
          wait_semaphore_ptrs).trace
          ↔ env.is_vk_call_successful (env.vkQueuePresentKHR q.m_queue info) = false)
      ∧ (.assertion_failed 289 ∈ (present env q (some swapchain) swapchain_image_index n_wait_semaphores
          wait_semaphore_ptrs).trace
          ↔ env.is_vk_call_successful (env.vkQueuePresentKHR q.m_queue info) = true
            ∧ env.is_vk_call_successful (env.presentation_result q.m_queue info) = false)
      ∧ (.assertion_failed 336 ∈ (present env q (some swapchain) swapchain_image_index n_wait_semaphores
          wait_semaphore_ptrs).trace
          ↔ env.is_vk_call_successful (env.vkQueuePresentKHR q.m_queue info) = true
            ∧ (env.assertions_fatal = false
              ∨ env.is_vk_call_successful (env.presentation_result q.m_queue info) = true)
            ∧ severity (env.presentation_result q.m_queue info) = 0
            ∧ env.presentation_result q.m_queue info ≠ VK_SUCCESS)
      ∧ ((present env q (some swapchain) swapchain_image_index n_wait_semaphores
          wait_semaphore_ptrs).outcome = .aborted
          ↔ env.assertions_fatal = true
            ∧ (env.is_vk_call_successful (env.vkQueuePresentKHR q.m_queue info) = false
              ∨ env.is_vk_call_successful (env.presentation_result q.m_queue info) = false
              ∨ (severity (env.presentation_result q.m_queue info) = 0
                ∧ env.presentation_result q.m_queue info ≠ VK_SUCCESS))) := by
  have hrun := present_live_run env q swapchain swapchain_image_index n_wait_semaphores
    wait_semaphore_ptrs wait_semaphores hlive hfit hsanity hwait
  have hcode : ∀ x, (present env q (some swapchain) swapchain_image_index n_wait_semaphores
          wait_semaphore_ptrs).outcome = .returned x →
      x = presentedCode env q (presentInfo swapchain swapchain_image_index n_wait_semaphores
    fun i => (wait_semaphores i).semaphore) := by
    intro x hx
    rw [hrun] at hx
    exact present_native_returned env q _ x hx
  refine ⟨presentInfo swapchain swapchain_image_index n_wait_semaphores
    fun i => (wait_semaphores i).semaphore, ?_, hcode, ?_, ?_,
    present_live_assertions env q swapchain swapchain_image_index n_wait_semaphores
      wait_semaphore_ptrs wait_semaphores hlive hfit hsanity hwait _ rfl⟩
  · rw [hrun]
    simp only [filter_live_trace Event.isPresent (fun _ => rfl) (fun _ _ _ => rfl),
      filter_present_native Event.isPresent (fun _ => rfl)]
    rfl
  · intro h
    rw [hrun]
    exact present_native_continues env q _ h
  · intro hdl x hx
    rw [hcode x hx]
    unfold presentedCode mostSevere
    rw [hdl]
    have hle := severity_le (env.presentation_result q.m_queue (presentInfo swapchain swapchain_image_index n_wait_semaphores
    fun i => (wait_semaphores i).semaphore))
    have h4 : severity VK_ERROR_DEVICE_LOST = 4 := by decide
    split_ifs <;> first | rfl | omega

theorem present_result_code_sample :
    (present (samplePresentEnv false VK_ERROR_DEVICE_LOST VK_SUBOPTIMAL_KHR) sampleQueue
        (some (sampleSwapchain (.other 3))) 5 1 [some ⟨301⟩]).outcome
      = .returned VK_ERROR_DEVICE_LOST
      ∧ .assertion_failed 336 ∈ (present (samplePresentEnv false VK_SUCCESS 5) sampleQueue
          (some (sampleSwapchain (.other 3))) 5 1 [some ⟨301⟩]).trace
      ∧ (present (samplePresentEnv true VK_SUCCESS 5) sampleQueue
          (some (sampleSwapchain (.other 3))) 5 1 [some ⟨301⟩]).outcome = .aborted := by
  obtain ⟨info, _, _, hreturns, _⟩ :=
    present_result_code (samplePresentEnv false VK_ERROR_DEVICE_LOST VK_SUBOPTIMAL_KHR)
      sampleQueue (sampleSwapchain (.other 3)) 5 1 [some ⟨301⟩] (fun _ => ⟨301⟩) rfl
      (by decide) (fun _ => by decide) (by decide)
  obtain ⟨_, _, _, _, _, _, _, h336, _⟩ :=
    present_result_code (samplePresentEnv false VK_SUCCESS 5)
      sampleQueue (sampleSwapchain (.other 3)) 5 1 [some ⟨301⟩] (fun _ => ⟨301⟩) rfl
      (by decide) (fun _ => by decide) (by decide)
  obtain ⟨_, _, _, _, _, _, _, _, haborted⟩ :=
    present_result_code (samplePresentEnv true VK_SUCCESS 5)
      sampleQueue (sampleSwapchain (.other 3)) 5 1 [some ⟨301⟩] (fun _ => ⟨301⟩) rfl
      (by decide) (fun _ => by decide) (by decide)
  exact ⟨hreturns (Or.inl rfl),
    h336.mpr ⟨rfl, Or.inl rfl, by show severity 5 = 0; decide,
      by show (5 : VkResult) ≠ VK_SUCCESS; decide⟩,
    haborted.mpr ⟨rfl, Or.inr (Or.inl rfl)⟩⟩

/-- C15, at the failing input: a presentation with exactly 8 wait semaphores
fails the capacity assertion of line 226.  Where a failed assertion ends the
operation nothing else happens; where execution continues, the swapchain
handle and the 8 semaphore handles are stored into their arrays, the native
present call is made, and its code is returned. -/
theorem present_rejects_full_capacity :
    (present (samplePresentEnv true VK_SUCCESS VK_SUCCESS) sampleQueue
        (some (sampleSwapchain (.other 3))) 5 8 (sampleSemaphores 8)).trace
      = [.assertion_failed 226]
      ∧ (present (samplePresentEnv true VK_SUCCESS VK_SUCCESS) sampleQueue
        (some (sampleSwapchain (.other 3))) 5 8 (sampleSemaphores 8)).outcome = .aborted
      ∧ (present (samplePresentEnv false VK_SUCCESS VK_SUCCESS) sampleQueue
        (some (sampleSwapchain (.other 3))) 5 8 (sampleSemaphores 8)).trace.head?
          = some (.assertion_failed 226)
      ∧ ((present (samplePresentEnv false VK_SUCCESS VK_SUCCESS) sampleQueue
        (some (sampleSwapchain (.other 3))) 5 8 (sampleSemaphores 8)).trace.filter
          Event.isArrayStore).length = 9
      ∧ ((present (samplePresentEnv false VK_SUCCESS VK_SUCCESS) sampleQueue
        (some (sampleSwapchain (.other 3))) 5 8 (sampleSemaphores 8)).trace.filter
          Event.isPresent).length = 1
      ∧ (present (samplePresentEnv false VK_SUCCESS VK_SUCCESS) sampleQueue
        (some (sampleSwapchain (.other 3))) 5 8 (sampleSemaphores 8)).outcome
          = .returned VK_SUCCESS
      ∧ (present (samplePresentEnv true VK_SUCCESS VK_SUCCESS) sampleQueue
        (some (sampleSwapchain (.other 3))) 5 7 (sampleSemaphores 7)).outcome
          = .returned VK_SUCCESS := by
  decide

/-- C17, as stated, fails: an error code of the native sparse-bind call fails
the assertion of line 92, and a code of the native present call that does not
count as successful fails the assertion of line 285; where a failed assertion
ends the operation neither function returns a status. -/
theorem failure_codes_trigger_assertions :
    .assertion_failed 92 ∈
        (bind_sparse_memory (sampleEnv false VK_ERROR_DEVICE_LOST) sampleQueue
          sampleUpdate).trace
      ∧ (bind_sparse_memory (sampleEnv true VK_ERROR_DEVICE_LOST) sampleQueue
          sampleUpdate).trace.getLast? = some (.assertion_failed 92)
      ∧ (bind_sparse_memory (sampleEnv true VK_ERROR_DEVICE_LOST) sampleQueue
          sampleUpdate).outcome = .aborted
      ∧ .assertion_failed 285 ∈
        (present (samplePresentEnv false VK_ERROR_OUT_OF_DATE_KHR VK_ERROR_OUT_OF_DATE_KHR)
          sampleQueue (some (sampleSwapchain (.other 3))) 5 1 [some ⟨301⟩]).trace
      ∧ (present (samplePresentEnv true VK_ERROR_OUT_OF_DATE_KHR VK_ERROR_OUT_OF_DATE_KHR)
          sampleQueue (some (sampleSwapchain (.other 3))) 5 1 [some ⟨301⟩]).trace.getLast?
        = some (.assertion_failed 285)
      ∧ (present (samplePresentEnv true VK_ERROR_OUT_OF_DATE_KHR VK_ERROR_OUT_OF_DATE_KHR)
          sampleQueue (some (sampleSwapchain (.other 3))) 5 1 [some ⟨301⟩]).outcome
        = .aborted := by
  decide

/-- C17, amended: a result code of the native sparse-bind call other than
`VK_SUCCESS` fails the assertion of line 92, and on the native path of
`present` (hypotheses of C16) a result code of the native present call that
does not count as successful fails the assertion of line 285.  Where
execution continues behind a failed assertion the failure reaches the caller,
as the boolean false, respectively as the result code of the native call;
where a failed assertion ends the operation nothing is returned. -/
theorem failures_reported_behind_assertions (env : PresentEnv) (q : Queue) (swapchain : Swapchain)
    (swapchain_image_index n_wait_semaphores : Nat)
    (wait_semaphore_ptrs : List (Option Semaphore)) (wait_semaphores : Nat → Semaphore)
    (hlive : is_dummy_window (some swapchain) = false)
    (hfit : n_wait_semaphores ≤ 8)
    (hsanity : env.assertions_fatal = true → n_wait_semaphores < 8)
    (hwait : ∀ i, i < n_wait_semaphores →
      wait_semaphore_ptrs[i]? = some (some (wait_semaphores i)))
    (update : SparseMemoryBindingUpdateInfo) :
    (bindSparseResult env.toEnv q update ≠ VK_SUCCESS →
        .assertion_failed 92 ∈ (bind_sparse_memory env.toEnv q update).trace
        ∧ (env.assertions_fatal = false →
            (bind_sparse_memory env.toEnv q update).outcome = .returned false)
        ∧ (env.assertions_fatal = true →
            (bind_sparse_memory env.toEnv q update).outcome = .aborted))
      ∧ ∃ info : VkPresentInfoKHR,
          (present env q (some swapchain) swapchain_image_index n_wait_semaphores
          wait_semaphore_ptrs).trace.filter Event.isPresent = [.vkQueuePresentKHR q.m_queue info]
          ∧ (env.is_vk_call_successful (env.vkQueuePresentKHR q.m_queue info) = false →
              .assertion_failed 285 ∈ (present env q (some swapchain) swapchain_image_index n_wait_semaphores
          wait_semaphore_ptrs).trace
              ∧ (env.assertions_fatal = false →
                  (present env q (some swapchain) swapchain_image_index n_wait_semaphores
          wait_semaphore_ptrs).outcome = .returned (env.vkQueuePresentKHR q.m_queue info))
              ∧ (env.assertions_fatal = true → (present env q (some swapchain) swapchain_image_index n_wait_semaphores
          wait_semaphore_ptrs).outcome = .aborted)) := by
  have hrun := present_live_run env q swapchain swapchain_image_index n_wait_semaphores
    wait_semaphore_ptrs wait_semaphores hlive hfit hsanity hwait
  refine ⟨fun hfail => ?_, presentInfo swapchain swapchain_image_index n_wait_semaphores
    fun i => (wait_semaphores i).semaphore, ?_, fun hfail => ⟨?_, ?_, ?_⟩⟩
  · rw [bind_sparse_memory_run]
    cases hfatal : env.assertions_fatal <;> simp [hfail, hfatal]
  · rw [hrun]
    simp only [filter_live_trace Event.isPresent (fun _ => rfl) (fun _ _ _ => rfl),
      filter_present_native Event.isPresent (fun _ => rfl)]
    rfl
  · rw [hrun]
    simp only [assertion_mem_live_trace 285 (by decide)]
    exact (present_native_assertion_285 env q _).1.mpr hfail
  · intro hfatal
    rw [hrun]
    simp only [present_native_continues env q _ (Or.inl hfatal), presentedCode, hfail]
    rfl
  · intro hfatal
    rw [hrun]
    exact (present_native_assertion_285 env q _).2 hfail hfatal

theorem failures_reported_behind_assertions_sample :
    (bind_sparse_memory (sampleEnv false VK_ERROR_DEVICE_LOST) sampleQueue
        sampleUpdate).outcome = .returned false
      ∧ (present (sampleFailingEnv false) sampleQueue (some (sampleSwapchain (.other 3))) 5 1
          [some ⟨301⟩]).outcome = .returned VK_ERROR_OUT_OF_DATE_KHR := by
  obtain ⟨hbind, info, _, hpresent⟩ :=
    failures_reported_behind_assertions (sampleFailingEnv false) sampleQueue
      (sampleSwapchain (.other 3)) 5 1 [some ⟨301⟩] (fun _ => ⟨301⟩) rfl (by decide)
      (fun _ => by decide) (by decide) sampleUpdate
  exact ⟨(hbind (by decide)).2.1 rfl, (hpresent rfl).2.1 rfl⟩

/-- C19: for a non-null swapchain, a wait-semaphore count that fits the array
and passes the check of line 226 wherever a failed check would end the
operation, and non-null semaphores: if the window reference of the swapchain
is null or expired, or the platform of the window is neither
`WINDOW_PLATFORM_DUMMY` nor `WINDOW_PLATFORM_DUMMY_WITH_PNG_SNAPSHOTS`,
`present` makes no submission and makes the native present call; and a run
that makes a submission, or makes no native present call, is a run on a live
window of one of these two platforms. -/
theorem present_path_selection (env : PresentEnv) (q : Queue) (swapchain : Swapchain)
    (swapchain_image_index n_wait_semaphores : Nat)
    (wait_semaphore_ptrs : List (Option Semaphore)) (wait_semaphores : Nat → Semaphore)
    (hfit : n_wait_semaphores ≤ 8)
    (hsanity : env.assertions_fatal = true → n_wait_semaphores < 8)
    (hwait : ∀ i, i < n_wait_semaphores →
      wait_semaphore_ptrs[i]? = some (some (wait_semaphores i))) :
    ((swapchain.window = .null ∨ swapchain.window = .dangling
        ∨ ∃ window, swapchain.window = .alive window
            ∧ window.platform ≠ .WINDOW_PLATFORM_DUMMY
            ∧ window.platform ≠ .WINDOW_PLATFORM_DUMMY_WITH_PNG_SNAPSHOTS) →
        (present env q (some swapchain) swapchain_image_index n_wait_semaphores
          wait_semaphore_ptrs).trace.filter Event.isWaitSubmission = []
        ∧ (present env q (some swapchain) swapchain_image_index n_wait_semaphores
          wait_semaphore_ptrs).trace.filter Event.isSubmit = []
        ∧ ∃ info, (present env q (some swapchain) swapchain_image_index n_wait_semaphores
          wait_semaphore_ptrs).trace.filter Event.isPresent = [.vkQueuePresentKHR q.m_queue info])
      ∧ ((present env q (some swapchain) swapchain_image_index n_wait_semaphores
          wait_semaphore_ptrs).trace.filter Event.isWaitSubmission ≠ []
          ∨ (present env q (some swapchain) swapchain_image_index n_wait_semaphores
          wait_semaphore_ptrs).trace.filter Event.isSubmit ≠ []
          ∨ (present env q (some swapchain) swapchain_image_index n_wait_semaphores
          wait_semaphore_ptrs).trace.filter Event.isPresent = [] →
          ∃ window, swapchain.window = .alive window
            ∧ (window.platform = .WINDOW_PLATFORM_DUMMY
              ∨ window.platform = .WINDOW_PLATFORM_DUMMY_WITH_PNG_SNAPSHOTS)) := by
  have hlive_calls : is_dummy_window (some swapchain) = false →
      (present env q (some swapchain) swapchain_image_index n_wait_semaphores
          wait_semaphore_ptrs).trace.filter Event.isWaitSubmission = []
      ∧ (present env q (some swapchain) swapchain_image_index n_wait_semaphores
          wait_semaphore_ptrs).trace.filter Event.isSubmit = []
      ∧ ∃ info, (present env q (some swapchain) swapchain_image_index n_wait_semaphores
          wait_semaphore_ptrs).trace.filter Event.isPresent = [.vkQueuePresentKHR q.m_queue info] := by
    intro hlive
    have hrun := present_live_run env q swapchain swapchain_image_index n_wait_semaphores
      wait_semaphore_ptrs wait_semaphores hlive hfit hsanity hwait
    refine ⟨?_, ?_, presentInfo swapchain swapchain_image_index n_wait_semaphores
      (fun i => (wait_semaphores i).semaphore), ?_⟩
    · rw [hrun]
      simp only [filter_live_trace Event.isWaitSubmission (fun _ => rfl) (fun _ _ _ => rfl),
        filter_present_native Event.isWaitSubmission (fun _ => rfl)]
      rfl
    · rw [hrun]
      simp only [filter_live_trace Event.isSubmit (fun _ => rfl) (fun _ _ _ => rfl),
        filter_present_native Event.isSubmit (fun _ => rfl)]
      rfl
    · rw [hrun]
      simp only [filter_live_trace Event.isPresent (fun _ => rfl) (fun _ _ _ => rfl),
        filter_present_native Event.isPresent (fun _ => rfl)]
      rfl
  have hdummy : is_dummy_window (some swapchain) = true →
      ∃ window, swapchain.window = .alive window
        ∧ (window.platform = .WINDOW_PLATFORM_DUMMY
          ∨ window.platform = .WINDOW_PLATFORM_DUMMY_WITH_PNG_SNAPSHOTS) := by
    intro h
    obtain ⟨sc, window, hsc, hw, hp⟩ := (is_dummy_window_iff (some swapchain)).mp h
    cases hsc
    exact ⟨window, hw, hp⟩
  refine ⟨fun hwin => ?_, fun hsigns => ?_⟩
  · apply hlive_calls
    cases hd : is_dummy_window (some swapchain)
    · rfl
    · obtain ⟨window, hw, hp⟩ := hdummy hd
      rcases hwin with h | h | ⟨w, h, hp1, hp2⟩
      · rw [h] at hw; cases hw
      · rw [h] at hw; cases hw
      · rw [h] at hw
        cases hw
        rcases hp with hp | hp
        · exact absurd hp hp1
        · exact absurd hp hp2
  · cases hd : is_dummy_window (some swapchain)
    · obtain ⟨h1, h2, info, h3⟩ := hlive_calls hd
      rcases hsigns with h | h | h
      · exact absurd h1 h
      · exact absurd h2 h
      · rw [h3] at h; cases h
    · exact hdummy hd

theorem present_path_selection_sample :
    (present (samplePresentEnv true VK_SUCCESS VK_SUCCESS) sampleQueue (some ⟨70, .dangling⟩)
        5 1 [some ⟨301⟩]).trace.filter Event.isSubmit = []
      ∧ ∃ info, (present (samplePresentEnv true VK_SUCCESS VK_SUCCESS) sampleQueue
          (some ⟨70, .dangling⟩) 5 1 [some ⟨301⟩]).trace.filter Event.isPresent
            = [.vkQueuePresentKHR 7 info] := by
  obtain ⟨_, hsubmit, hpresent⟩ :=
    (present_path_selection (samplePresentEnv true VK_SUCCESS VK_SUCCESS) sampleQueue
      ⟨70, .dangling⟩ 5 1 [some ⟨301⟩] (fun _ => ⟨301⟩) (by decide) (fun _ => by decide)
      (by decide)).1 (Or.inr (Or.inl rfl))
  exact ⟨hsubmit, hpresent⟩

/-! ## Presentation to an off-screen target -/

/-- The off-screen branch of `present`, lines 250-259, when the device has a
universal queue 0 and the check of line 226 passes wherever a failed check
would end the operation. -/
theorem present_headless_run (env : PresentEnv) (q : Queue) (swapchain_ptr : Option Swapchain)
    (swapchain_image_index n_wait_semaphores : Nat)
    (wait_semaphore_ptrs : List (Option Semaphore)) (universal_queue : Queue)
    (hdummy : is_dummy_window swapchain_ptr = true)
    (hqueue : env.get_universal_queue q.m_device_ptr 0 = some universal_queue)
    (hsanity : env.assertions_fatal = true → n_wait_semaphores < 8) :
    present env q swapchain_ptr swapchain_image_index n_wait_semaphores wait_semaphore_ptrs
      = ⟨checkEvents 226 (decide (n_wait_semaphores < 8))
          ++ .submit_command_buffer_with_wait_semaphores universal_queue.m_queue none
              n_wait_semaphores wait_semaphore_ptrs [VK_PIPELINE_STAGE_TOP_OF_PIPE_BIT] true
          :: (submit_command_buffers env.toEnv universal_queue 0 [none] 0 [] n_wait_semaphores
              wait_semaphore_ptrs [VK_PIPELINE_STAGE_TOP_OF_PIPE_BIT] true none).trace,
          (Exec.andThen (submit_command_buffers env.toEnv universal_queue 0 [none] 0 []
              n_wait_semaphores wait_semaphore_ptrs [VK_PIPELINE_STAGE_TOP_OF_PIPE_BIT] true
              none) fun _ => Exec.ret VK_SUCCESS).outcome⟩ := by
  unfold present
  simp only [Exec.bind_eq_andThen, Exec.pure_eq_ret]
  rw [anvil_assert_andThen_of_continues _ _ _ _ (fun h => by simpa using hsanity h)]
  simp only [hdummy, if_true, hqueue, Exec.deref, Exec.ret_andThen, Exec.emit_andThen,
    submit_command_buffer_with_wait_semaphores]
  cases h : (submit_command_buffers env.toEnv universal_queue 0 [none] 0 [] n_wait_semaphores
      wait_semaphore_ptrs [VK_PIPELINE_STAGE_TOP_OF_PIPE_BIT] true none).outcome <;>
    simp [Exec.andThen, Exec.ret, h]

theorem filter_submit_and_wait_nil (p : Event → Bool)
    (hassert : ∀ l, p (.assertion_failed l) = false)
    (hsubmit : ∀ a b c d, p (.vkQueueSubmit a b c d) = false)
    (hwaits : ∀ a b c d e, p (.vkWaitForFences a b c d e) = false)
    (env : Env) (q : Queue) (info : VkSubmitInfo) (should_block : Bool) (fence : Option Fence) :
    (submit_and_wait env q info should_block fence).trace.filter p = [] := by
  unfold submit_and_wait
  by_cases h : should_block = true ∧ checkStops env
      (env.is_vk_call_successful (submitResult env q info fence)) = false
  · simp [h, List.filter_cons, List.filter_append, filter_checkEvents p hassert, submitCall,
      waitCall, hsubmit, hwaits]
  · simp only [h, if_false, List.append_nil]
    simp [List.filter_cons, filter_checkEvents p hassert, submitCall, hsubmit]

/-- C12: a presentation to a swapchain whose window is alive and of platform
`WINDOW_PLATFORM_DUMMY` or `WINDOW_PLATFORM_DUMMY_WITH_PNG_SNAPSHOTS`, on a
device whose universal queue 0 exists and belongs to a single-GPU device, with
at most 8 non-null wait semaphores (fewer than 8 where a failed assertion ends
the operation), makes no native present call and exactly one call of
`submit_command_buffer_with_wait_semaphores`, with a null command buffer, the
wait semaphores of the caller and `should_block` true.  That call makes one
native submit whose record has no command buffer, no signal semaphore, and
the handles of the given wait semaphores in order, and, once past the check
of the submit result, one wait on the fence of that submit.  Whenever
`present` returns, it returns `VK_SUCCESS`; it returns when execution
continues behind failed assertions or the submit and the wait count as
successful. -/
theorem present_headless (env : PresentEnv) (q : Queue) (swapchain : Swapchain)
    (window : Window) (swapchain_image_index n_wait_semaphores : Nat)
    (wait_semaphore_ptrs : List (Option Semaphore)) (wait_semaphores : Nat → Semaphore)
    (universal_queue : Queue)
    (hwindow : swapchain.window = .alive window)
    (hplatform : window.platform = .WINDOW_PLATFORM_DUMMY
      ∨ window.platform = .WINDOW_PLATFORM_DUMMY_WITH_PNG_SNAPSHOTS)
    (hqueue : env.get_universal_queue q.m_device_ptr 0 = some universal_queue)
    (hdevice : universal_queue.m_device_ptr.type = .DEVICE_TYPE_SINGLE_GPU)
    (hfit : n_wait_semaphores ≤ 8)
    (hsanity : env.assertions_fatal = true → n_wait_semaphores < 8)
    (hwait : ∀ i, i < n_wait_semaphores →
      wait_semaphore_ptrs[i]? = some (some (wait_semaphores i))) :
    (present env q (some swapchain) swapchain_image_index n_wait_semaphores
          wait_semaphore_ptrs).trace.filter Event.isPresent = []
      ∧ (present env q (some swapchain) swapchain_image_index n_wait_semaphores
          wait_semaphore_ptrs).trace.filter Event.isWaitSubmission
        = [.submit_command_buffer_with_wait_semaphores universal_queue.m_queue none
            n_wait_semaphores wait_semaphore_ptrs [VK_PIPELINE_STAGE_TOP_OF_PIPE_BIT] true]
      ∧ (∀ x, (present env q (some swapchain) swapchain_image_index n_wait_semaphores
          wait_semaphore_ptrs).outcome = .returned x → x = VK_SUCCESS)
      ∧ ∃ (info : VkSubmitInfo) (fence_vk : VkHandle),
          (present env q (some swapchain) swapchain_image_index n_wait_semaphores
          wait_semaphore_ptrs).trace.filter Event.isSubmit
            = [.vkQueueSubmit universal_queue.m_queue 1 info fence_vk]
          ∧ info.commandBufferCount = 0
          ∧ info.signalSemaphoreCount = 0
          ∧ info.waitSemaphoreCount = n_wait_semaphores
          ∧ (∀ i, i < n_wait_semaphores →
              info.pWaitSemaphores[i]? = some (some (wait_semaphores i).semaphore))
          ∧ ((env.is_vk_call_successful
                (env.vkQueueSubmit universal_queue.m_queue 1 info fence_vk) = true
              ∨ env.assertions_fatal = false ∨ ∃ x, (present env q (some swapchain) swapchain_image_index n_wait_semaphores
          wait_semaphore_ptrs).outcome = .returned x) →
              (present env q (some swapchain) swapchain_image_index n_wait_semaphores
          wait_semaphore_ptrs).trace.filter Event.isWait
                = [.vkWaitForFences universal_queue.m_device_ptr.device_vk 1 fence_vk VK_TRUE
                    UINT64_MAX])
          ∧ ((env.assertions_fatal = false
              ∨ (env.is_vk_call_successful
                  (env.vkQueueSubmit universal_queue.m_queue 1 info fence_vk) = true
                ∧ env.is_vk_call_successful
                  (env.vkWaitForFences universal_queue.m_device_ptr.device_vk 1 fence_vk
                    VK_TRUE UINT64_MAX) = true)) →
              (present env q (some swapchain) swapchain_image_index n_wait_semaphores
          wait_semaphore_ptrs).outcome = .returned VK_SUCCESS) := by
  have hdummy : is_dummy_window (some swapchain) = true :=
    (is_dummy_window_iff (some swapchain)).mpr ⟨swapchain, window, rfl, hwindow, hplatform⟩
  have hrun := present_headless_run env q (some swapchain) swapchain_image_index
    n_wait_semaphores wait_semaphore_ptrs universal_queue hdummy hqueue hsanity
  have hsub := submit_command_buffers_run env.toEnv universal_queue 0 [none] 0 []
    n_wait_semaphores wait_semaphore_ptrs [VK_PIPELINE_STAGE_TOP_OF_PIPE_BIT] true none
    (fun _ => ⟨0⟩) (fun _ => ⟨0⟩) wait_semaphores
    (fun _ => ⟨hdevice, by omega, by omega, by omega⟩) ⟨by omega, by omega, by omega⟩
    (fun _ => hdevice) (fun i hi => absurd hi (by omega)) (fun i hi => absurd hi (by omega))
    hwait
  have hfence : fenceInUse env.toEnv true none = some (env.Fence_create false) := rfl
  rw [hsub, hfence] at hrun
  dsimp only at hrun
  refine ⟨?_, ?_, ?_, submitInfo 0 (fun _ => 0) 0 (fun _ => 0) n_wait_semaphores
    (fun i => (wait_semaphores i).semaphore) [VK_PIPELINE_STAGE_TOP_OF_PIPE_BIT],
    (env.Fence_create false).fence, ?_, rfl, rfl, rfl,
    fun i hi => filledArray_getElem? _ _ i hi, ?_, ?_⟩
  · rw [hrun]
    simp only [List.filter_append, List.filter_cons,
      filter_checkEvents Event.isPresent (fun _ => rfl),
      filter_submit_trace Event.isPresent (fun _ => rfl) (fun _ => rfl) (fun _ _ _ => rfl),
      filter_submit_and_wait_nil Event.isPresent (fun _ => rfl) (fun _ _ _ _ => rfl)
        (fun _ _ _ _ _ => rfl)]
    rfl
  · rw [hrun]
    simp only [List.filter_append, List.filter_cons,
      filter_checkEvents Event.isWaitSubmission (fun _ => rfl),
      filter_submit_trace Event.isWaitSubmission (fun _ => rfl) (fun _ => rfl)
        (fun _ _ _ => rfl),
      filter_submit_and_wait_nil Event.isWaitSubmission (fun _ => rfl) (fun _ _ _ _ => rfl)
        (fun _ _ _ _ _ => rfl)]
    rfl
  · intro x hx
    rw [hrun] at hx
    simp only [Exec.andThen] at hx
    split at hx <;> simp_all [Exec.ret]
  · rw [hrun]
    simp only [List.filter_append, List.filter_cons,
      filter_checkEvents Event.isSubmit (fun _ => rfl),
      filter_submit_trace Event.isSubmit (fun _ => rfl) (fun _ => rfl) (fun _ _ _ => rfl),
      filter_isSubmit_submit_and_wait]
    rfl
  · intro hpast
    have hstop : checkStops env.toEnv (env.is_vk_call_successful (submitResult env.toEnv
        universal_queue (submitInfo 0 (fun _ => 0) 0 (fun _ => 0) n_wait_semaphores
          (fun i => (wait_semaphores i).semaphore) [VK_PIPELINE_STAGE_TOP_OF_PIPE_BIT])
        (some (env.Fence_create false)))) = false := by
      rcases hpast with h1 | h2 | ⟨x, h3⟩
      · simp only [checkStops, submitResult, fenceHandle, h1]; rfl
      · simp [checkStops, h2]
      · rw [hrun] at h3
        simp only [Exec.andThen] at h3
        split at h3
        · rename_i hret
          exact submit_and_wait_returned _ _ _ _ _ hret
        · simp at h3
        · simp at h3
    rw [hrun]
    simp only [List.filter_append, List.filter_cons,
      filter_checkEvents Event.isWait (fun _ => rfl),
      filter_submit_trace Event.isWait (fun _ => rfl) (fun _ => rfl) (fun _ _ _ => rfl),
      filter_isWait_submit_and_wait, hstop]
    rfl
  · intro hret
    have hout := submit_and_wait_outcome_returned env.toEnv universal_queue
      (submitInfo 0 (fun _ => 0) 0 (fun _ => 0) n_wait_semaphores
        (fun i => (wait_semaphores i).semaphore) [VK_PIPELINE_STAGE_TOP_OF_PIPE_BIT])
      true (some (env.Fence_create false))
      (by
        rcases hret with h | ⟨h1, h2⟩
        · exact Or.inl h
        · exact Or.inr ⟨h1, fun _ => h2⟩)
    rw [hrun]
    simp [Exec.andThen, hout, Exec.ret]

theorem present_headless_sample :
    (present (samplePresentEnv true VK_SUCCESS VK_SUCCESS) sampleQueue
        (some (sampleSwapchain .WINDOW_PLATFORM_DUMMY)) 5 2 (sampleSemaphores 2)).trace.filter
          Event.isPresent = []
      ∧ (present (samplePresentEnv true VK_SUCCESS VK_SUCCESS) sampleQueue
        (some (sampleSwapchain .WINDOW_PLATFORM_DUMMY)) 5 2 (sampleSemaphores 2)).trace.filter
          Event.isWaitSubmission
        = [.submit_command_buffer_with_wait_semaphores 8 none 2 (sampleSemaphores 2)
            [VK_PIPELINE_STAGE_TOP_OF_PIPE_BIT] true]
      ∧ (present (samplePresentEnv true VK_SUCCESS VK_SUCCESS) sampleQueue
        (some (sampleSwapchain .WINDOW_PLATFORM_DUMMY)) 5 2 (sampleSemaphores 2)).outcome
          = .returned VK_SUCCESS := by
  obtain ⟨hpresent, hcall, _, info, fence_vk, _, _, _, _, _, _, hreturns⟩ :=
    present_headless (samplePresentEnv true VK_SUCCESS VK_SUCCESS) sampleQueue
      (sampleSwapchain .WINDOW_PLATFORM_DUMMY) ⟨.WINDOW_PLATFORM_DUMMY⟩ 5 2 (sampleSemaphores 2)
      (fun i => ⟨300 + i⟩) ⟨8, sampleQueue.m_device_ptr⟩ rfl (Or.inl rfl) rfl rfl (by decide)
      (fun _ => by decide) (by decide)
  exact ⟨hpresent, hcall, hreturns (Or.inr ⟨rfl, rfl⟩)⟩

/-- C13, at the failing input: a presentation to an off-screen target with two
wait semaphores hands `submit_command_buffer_with_wait_semaphores` a
stage-mask array of one entry (the address of the one static mask of line
250) together with a count of two, and the record of the native submit has a
wait-semaphore count of two and a stage-mask array of one entry, which is
top-of-pipe: index 1 has no entry. -/
theorem present_headless_single_stage_mask :
    (present (samplePresentEnv true VK_SUCCESS VK_SUCCESS) sampleQueue
        (some (sampleSwapchain .WINDOW_PLATFORM_DUMMY)) 5 2 (sampleSemaphores 2)).trace.filter
          Event.isWaitSubmission
      = [.submit_command_buffer_with_wait_semaphores 8 none 2 (sampleSemaphores 2)
          [VK_PIPELINE_STAGE_TOP_OF_PIPE_BIT] true]
      ∧ ((present (samplePresentEnv true VK_SUCCESS VK_SUCCESS) sampleQueue
        (some (sampleSwapchain .WINDOW_PLATFORM_DUMMY)) 5 2 (sampleSemaphores 2)).trace.filter
          Event.isSubmit).map Event.waitStageMasks
        = [some (2, [VK_PIPELINE_STAGE_TOP_OF_PIPE_BIT])]
      ∧ [VK_PIPELINE_STAGE_TOP_OF_PIPE_BIT][0]? = some VK_PIPELINE_STAGE_TOP_OF_PIPE_BIT
      ∧ [VK_PIPELINE_STAGE_TOP_OF_PIPE_BIT][1]? = none := by
  decide

/-! ## Presentation: the code of the target, and the null swapchain -/

/-- The native present call when its code does not count as successful: the
call, the failed assertion of line 285, and nothing else; the result of the
target is not read. -/
theorem present_native_of_failure (env : PresentEnv) (q : Queue) (info : VkPresentInfoKHR)
    (hc : env.is_vk_call_successful (env.vkQueuePresentKHR q.m_queue info) = false) :
    present_native env q info
      = ⟨[.vkQueuePresentKHR q.m_queue info, .assertion_failed 285],
          if env.assertions_fatal = true then .aborted
          else .returned (env.vkQueuePresentKHR q.m_queue info)⟩ := by
  unfold present_native
  simp only [Exec.bind_eq_andThen, Exec.pure_eq_ret]
  cases hf : env.assertions_fatal <;>
    simp [anvil_assert_vk_call_succeeded, anvil_assert, Exec.andThen, Exec.ret, Exec.emit, hc, hf]

theorem Exec.mem_trace_andThen {α β : Type} (m : Exec α) (f : α → Exec β) (e : Event)
    (h : e ∈ m.trace) : e ∈ (Exec.andThen m f).trace := by
  unfold Exec.andThen
  cases m.outcome <;> simp [h]

theorem mostSevere_of_unranked (result presentation_result : VkResult)
    (h : severity result = 0) :
    mostSevere result presentation_result
      = if severity presentation_result ≠ 0 then presentation_result else result := by
  unfold mostSevere
  rw [h]
  by_cases hp : severity presentation_result = 0
  · simp [hp]
  · simp [hp, Nat.pos_of_ne_zero hp]

theorem severity_ne_zero_iff (r : VkResult) :
    severity r ≠ 0 ↔ r ∈ [VK_ERROR_DEVICE_LOST, VK_ERROR_SURFACE_LOST_KHR,
      VK_ERROR_OUT_OF_DATE_KHR, VK_SUBOPTIMAL_KHR] := by
  rcases severity_cases r with ⟨h, hs⟩ | ⟨h, hs⟩ | ⟨h, hs⟩ | ⟨h, hs⟩ | ⟨h1, h2, h3, h4, hs⟩ <;>
    simp_all

/-- The guards of lines 303, 313-314 and 324-326: were the success test of
line 287 to let `VK_ERROR_DEVICE_LOST` through as the code of the native call,
a target reporting `VK_SUBOPTIMAL_KHR` would not replace it; the more severe
code of the call is kept. -/
theorem present_keeps_more_severe_call_code :
    (sampleLenientEnv false VK_ERROR_DEVICE_LOST VK_SUBOPTIMAL_KHR).is_vk_call_successful
        VK_ERROR_DEVICE_LOST = true
      ∧ (present (sampleLenientEnv false VK_ERROR_DEVICE_LOST VK_SUBOPTIMAL_KHR) sampleQueue
          (some (sampleSwapchain (.other 3))) 5 1 [some ⟨301⟩]).outcome
        = .returned VK_ERROR_DEVICE_LOST
      ∧ VK_ERROR_DEVICE_LOST ≠ VK_SUBOPTIMAL_KHR := by
  decide

/-- C24, as stated, fails: with the native call returning `VK_SUCCESS`, which
counts as successful, and the target reporting `VK_ERROR_DEVICE_LOST`, one of
the four codes of the claim, which does not count as successful, the assertion
of line 289 fails and, where a failed assertion ends the operation, `present`
ends there and hands back no code at all, where the claim has it return the
code of the target. -/
theorem present_target_code_not_always_returned :
    (samplePresentEnv true VK_SUCCESS VK_ERROR_DEVICE_LOST).is_vk_call_successful VK_SUCCESS
        = true
      ∧ (present (samplePresentEnv true VK_SUCCESS VK_ERROR_DEVICE_LOST) sampleQueue
          (some (sampleSwapchain (.other 3))) 5 1 [some ⟨301⟩]).trace.filter
            (fun e => !e.isArrayStore)
        = [.vkQueuePresentKHR 7 (presentInfo (sampleSwapchain (.other 3)) 5 1 fun _ => 301),
            .assertion_failed 289]
      ∧ (present (samplePresentEnv true VK_SUCCESS VK_ERROR_DEVICE_LOST) sampleQueue
          (some (sampleSwapchain (.other 3))) 5 1 [some ⟨301⟩]).outcome = .aborted := by
  decide

/-- C24, amended: on the native path (hypotheses of C16) `present` makes one
native call with result code `c` and target code `p`.  If `c` counts as
successful, then whenever `present` returns, it returns `p` if `p` ranks above
`c` in the order device-lost, surface-lost, out-of-date, suboptimal, other,
and `c` otherwise; so for a `c` that is none of the four ranked codes it
returns `p` if `p` is one of the four and `c` otherwise.  It does return
where execution continues behind failed assertions, and also where `p`
counts as successful and is one of the four or `VK_SUCCESS`.  With such a `c`
the assertion of line 285 does not fail; the assertion of line 289 fails
exactly when `p` does not count as successful; the assertion of line 336
fails exactly when the run gets past line 289 and `p` is neither one of the
four nor `VK_SUCCESS`; and nothing is returned (the run ends at the failed
assertion) exactly when failed assertions end the operation and `p` does not
count as successful or is neither one of the four nor `VK_SUCCESS`.  If `c`
does not count as successful, the assertion of line 285 fails and those of
lines 289 and 336 are not reached: `present` returns `c` where execution
continues and returns nothing where the failed assertion ends the operation,
and the whole run is the same whatever the target reports. -/
theorem present_live_code_selection (env : PresentEnv) (q : Queue) (swapchain : Swapchain)
    (swapchain_image_index n_wait_semaphores : Nat)
    (wait_semaphore_ptrs : List (Option Semaphore)) (wait_semaphores : Nat → Semaphore)
    (hlive : is_dummy_window (some swapchain) = false)
    (hfit : n_wait_semaphores ≤ 8)
    (hsanity : env.assertions_fatal = true → n_wait_semaphores < 8)
    (hwait : ∀ i, i < n_wait_semaphores →
      wait_semaphore_ptrs[i]? = some (some (wait_semaphores i))) :
    ∃ info : VkPresentInfoKHR,
      (present env q (some swapchain) swapchain_image_index n_wait_semaphores
          wait_semaphore_ptrs).trace.filter Event.isPresent = [.vkQueuePresentKHR q.m_queue info]
      ∧ (env.is_vk_call_successful (env.vkQueuePresentKHR q.m_queue info) = true →
          (∀ x, (present env q (some swapchain) swapchain_image_index n_wait_semaphores
              wait_semaphore_ptrs).outcome = .returned x →
              x = if severity (env.vkQueuePresentKHR q.m_queue info)
                    < severity (env.presentation_result q.m_queue info)
                  then env.presentation_result q.m_queue info
                  else env.vkQueuePresentKHR q.m_queue info)
          ∧ (env.vkQueuePresentKHR q.m_queue info ∉ [VK_ERROR_DEVICE_LOST,
                VK_ERROR_SURFACE_LOST_KHR, VK_ERROR_OUT_OF_DATE_KHR, VK_SUBOPTIMAL_KHR] →
              ∀ x, (present env q (some swapchain) swapchain_image_index n_wait_semaphores
                wait_semaphore_ptrs).outcome = .returned x →
                x = if env.presentation_result q.m_queue info ∈ [VK_ERROR_DEVICE_LOST,
                      VK_ERROR_SURFACE_LOST_KHR, VK_ERROR_OUT_OF_DATE_KHR, VK_SUBOPTIMAL_KHR]
                    then env.presentation_result q.m_queue info
                    else env.vkQueuePresentKHR q.m_queue info)
          ∧ (env.assertions_fatal = false
              ∨ (env.is_vk_call_successful (env.presentation_result q.m_queue info) = true
                ∧ (env.presentation_result q.m_queue info ∈ [VK_ERROR_DEVICE_LOST,
                      VK_ERROR_SURFACE_LOST_KHR, VK_ERROR_OUT_OF_DATE_KHR, VK_SUBOPTIMAL_KHR]
                  ∨ env.presentation_result q.m_queue info = VK_SUCCESS)) →
              ∃ x, (present env q (some swapchain) swapchain_image_index n_wait_semaphores
                wait_semaphore_ptrs).outcome = .returned x)
          ∧ .assertion_failed 285 ∉ (present env q (some swapchain) swapchain_image_index n_wait_semaphores
                wait_semaphore_ptrs).trace
          ∧ (.assertion_failed 289 ∈ (present env q (some swapchain) swapchain_image_index n_wait_semaphores
                wait_semaphore_ptrs).trace
              ↔ env.is_vk_call_successful (env.presentation_result q.m_queue info) = false)
          ∧ (.assertion_failed 336 ∈ (present env q (some swapchain) swapchain_image_index n_wait_semaphores
                wait_semaphore_ptrs).trace
              ↔ (env.assertions_fatal = false
                  ∨ env.is_vk_call_successful (env.presentation_result q.m_queue info) = true)
                ∧ env.presentation_result q.m_queue info ∉ [VK_ERROR_DEVICE_LOST,
                      VK_ERROR_SURFACE_LOST_KHR, VK_ERROR_OUT_OF_DATE_KHR, VK_SUBOPTIMAL_KHR]
                ∧ env.presentation_result q.m_queue info ≠ VK_SUCCESS)
          ∧ ((present env q (some swapchain) swapchain_image_index n_wait_semaphores
                wait_semaphore_ptrs).outcome = .aborted
              ↔ env.assertions_fatal = true
                ∧ (env.is_vk_call_successful (env.presentation_result q.m_queue info) = false
                  ∨ (env.presentation_result q.m_queue info ∉ [VK_ERROR_DEVICE_LOST,
                      VK_ERROR_SURFACE_LOST_KHR, VK_ERROR_OUT_OF_DATE_KHR, VK_SUBOPTIMAL_KHR]
                    ∧ env.presentation_result q.m_queue info ≠ VK_SUCCESS))))
      ∧ (env.is_vk_call_successful (env.vkQueuePresentKHR q.m_queue info) = false →
          .assertion_failed 285 ∈ (present env q (some swapchain) swapchain_image_index n_wait_semaphores
                wait_semaphore_ptrs).trace
          ∧ .assertion_failed 289 ∉ (present env q (some swapchain) swapchain_image_index n_wait_semaphores
                wait_semaphore_ptrs).trace
          ∧ .assertion_failed 336 ∉ (present env q (some swapchain) swapchain_image_index n_wait_semaphores
                wait_semaphore_ptrs).trace
          ∧ (env.assertions_fatal = false →
              (present env q (some swapchain) swapchain_image_index n_wait_semaphores
                wait_semaphore_ptrs).outcome = .returned (env.vkQueuePresentKHR q.m_queue info))
          ∧ (env.assertions_fatal = true →
              (present env q (some swapchain) swapchain_image_index n_wait_semaphores
                wait_semaphore_ptrs).outcome = .aborted)
          ∧ ∀ target_result : VkHandle → VkPresentInfoKHR → VkResult,
              present { env with presentation_result := target_result } q (some swapchain)
                  swapchain_image_index n_wait_semaphores wait_semaphore_ptrs
                = present env q (some swapchain) swapchain_image_index n_wait_semaphores
                  wait_semaphore_ptrs) := by
  have hrun := present_live_run env q swapchain swapchain_image_index n_wait_semaphores
    wait_semaphore_ptrs wait_semaphores hlive hfit hsanity hwait
  have hcode : ∀ x, (present env q (some swapchain) swapchain_image_index n_wait_semaphores
          wait_semaphore_ptrs).outcome = .returned x →
      x = presentedCode env q (presentInfo swapchain swapchain_image_index n_wait_semaphores
        fun i => (wait_semaphores i).semaphore) := by
    intro x hx
    rw [hrun] at hx
    exact present_native_returned env q _ x hx
  obtain ⟨h285, h289, h336, haborted⟩ := present_live_assertions env q swapchain
    swapchain_image_index n_wait_semaphores wait_semaphore_ptrs wait_semaphores hlive hfit
    hsanity hwait _ rfl
  have hrank : ∀ r : VkResult, severity r = 0 ↔ r ∉ [VK_ERROR_DEVICE_LOST,
      VK_ERROR_SURFACE_LOST_KHR, VK_ERROR_OUT_OF_DATE_KHR, VK_SUBOPTIMAL_KHR] :=
    fun r => ⟨fun h hm => (severity_ne_zero_iff r).mpr hm h,
      fun h => by_contra fun hne => h ((severity_ne_zero_iff r).mp hne)⟩
  refine ⟨presentInfo swapchain swapchain_image_index n_wait_semaphores
    fun i => (wait_semaphores i).semaphore, ?_, ?_, ?_⟩
  · rw [hrun]
    simp only [filter_live_trace Event.isPresent (fun _ => rfl) (fun _ _ _ => rfl),
      filter_present_native Event.isPresent (fun _ => rfl)]
    rfl
  · intro hc
    refine ⟨?_, ?_, ?_, ?_, ?_, ?_, ?_⟩
    rotate_left 3
    · rw [h285, hc]
      simp
    · rw [h289]
      simp only [hc, true_and]
    · rw [h336, hrank]
      simp only [hc, true_and]
    · rw [haborted, hrank]
      simp only [hc, Bool.true_eq_false, false_or]
    · intro x hx
      rw [hcode x hx]
      simp [presentedCode, mostSevere, hc]
    · intro hunranked x hx
      have hzero : severity (env.vkQueuePresentKHR q.m_queue (presentInfo swapchain
          swapchain_image_index n_wait_semaphores fun i => (wait_semaphores i).semaphore)) = 0 := by
        by_contra hne
        exact hunranked ((severity_ne_zero_iff _).mp hne)
      rw [hcode x hx]
      unfold presentedCode
      rw [if_pos hc, mostSevere_of_unranked _ _ hzero]
      by_cases hp : severity (env.presentation_result q.m_queue (presentInfo swapchain
          swapchain_image_index n_wait_semaphores fun i => (wait_semaphores i).semaphore)) = 0
      · have hnot := (not_congr (severity_ne_zero_iff _)).mp (not_not.mpr hp)
        rw [if_neg (not_not.mpr hp), if_neg hnot]
      · rw [if_pos hp, if_pos ((severity_ne_zero_iff _).mp hp)]
    · intro h
      refine ⟨presentedCode env q (presentInfo swapchain swapchain_image_index
        n_wait_semaphores fun i => (wait_semaphores i).semaphore), ?_⟩
      rw [hrun]
      refine present_native_continues env q _ ?_
      rcases h with h | ⟨hp, hrank⟩
      · exact Or.inl h
      · refine Or.inr ⟨hc, hp, ?_⟩
        rcases hrank with hrank | hrank
        · exact Or.inl ((severity_ne_zero_iff _).mpr hrank)
        · exact Or.inr hrank
  · intro hc
    have hnative := present_native_of_failure env q (presentInfo swapchain
      swapchain_image_index n_wait_semaphores fun i => (wait_semaphores i).semaphore) hc
    refine ⟨h285.mpr hc, ?_, ?_, ?_, ?_, ?_⟩
    · rw [h289, hc]
      simp
    · rw [h336, hc]
      simp
    · intro hf
      rw [hrun, hnative]
      simp [hf]
    · intro hf
      rw [hrun, hnative]
      simp [hf]
    · intro target_result
      have hrun2 := present_live_run { env with presentation_result := target_result } q
        swapchain swapchain_image_index n_wait_semaphores wait_semaphore_ptrs wait_semaphores
        hlive hfit hsanity hwait
      have hnative2 := present_native_of_failure { env with presentation_result := target_result }
        q (presentInfo swapchain swapchain_image_index n_wait_semaphores
          fun i => (wait_semaphores i).semaphore) hc
      rw [hrun, hrun2, hnative, hnative2]

theorem present_live_code_selection_sample :
    (present (samplePresentEnv false VK_SUCCESS VK_ERROR_OUT_OF_DATE_KHR) sampleQueue
        (some (sampleSwapchain (.other 3))) 5 1 [some ⟨301⟩]).outcome
      = .returned VK_ERROR_OUT_OF_DATE_KHR
      ∧ .assertion_failed 289 ∈ (present (samplePresentEnv true VK_SUCCESS VK_ERROR_DEVICE_LOST)
          sampleQueue (some (sampleSwapchain (.other 3))) 5 1 [some ⟨301⟩]).trace
      ∧ (present (samplePresentEnv true VK_SUCCESS VK_ERROR_DEVICE_LOST) sampleQueue
          (some (sampleSwapchain (.other 3))) 5 1 [some ⟨301⟩]).outcome = .aborted := by
  obtain ⟨info, _, hsucc, _⟩ :=
    present_live_code_selection (samplePresentEnv false VK_SUCCESS VK_ERROR_OUT_OF_DATE_KHR)
      sampleQueue (sampleSwapchain (.other 3)) 5 1 [some ⟨301⟩] (fun _ => ⟨301⟩) rfl
      (by decide) (fun _ => by decide) (by decide)
  obtain ⟨_, hcode, hreturns, _⟩ := hsucc rfl
  obtain ⟨x, hx⟩ := hreturns (Or.inl rfl)
  have hval := hcode (by simp [samplePresentEnv, VK_SUCCESS, VK_ERROR_DEVICE_LOST,
    VK_ERROR_SURFACE_LOST_KHR, VK_ERROR_OUT_OF_DATE_KHR, VK_SUBOPTIMAL_KHR]) x hx
  obtain ⟨_, _, hsucc', _⟩ :=
    present_live_code_selection (samplePresentEnv true VK_SUCCESS VK_ERROR_DEVICE_LOST)
      sampleQueue (sampleSwapchain (.other 3)) 5 1 [some ⟨301⟩] (fun _ => ⟨301⟩) rfl
      (by decide) (fun _ => by decide) (by decide)
  obtain ⟨_, _, _, _, h289, _, haborted⟩ := hsucc' rfl
  refine ⟨?_, h289.mpr rfl, haborted.mpr ⟨rfl, Or.inl rfl⟩⟩
  rw [hx, hval]
  rfl

/-- The run of `present` without a swapchain: the check of line 226, then
the null dereference of line 264 unless the failed check has ended the
operation. -/
theorem present_null_run (env : PresentEnv) (q : Queue)
    (swapchain_image_index n_wait_semaphores : Nat)
    (wait_semaphore_ptrs : List (Option Semaphore)) :
    present env q none swapchain_image_index n_wait_semaphores wait_semaphore_ptrs
      = ⟨checkEvents 226 (decide (n_wait_semaphores < 8)),
          if checkStops env.toEnv (decide (n_wait_semaphores < 8)) = true then .aborted
          else .fault⟩ := by
  unfold present
  simp only [Exec.bind_eq_andThen, Exec.pure_eq_ret, anvil_assert_andThen]
  cases hstop : checkStops env.toEnv (decide (n_wait_semaphores < 8))
  · simp [is_dummy_window, Exec.deref, Exec.undefined_behaviour, Exec.andThen]
  · have hcond : decide (n_wait_semaphores < 8) = false := by
      cases hc : decide (n_wait_semaphores < 8)
      · rfl
      · simp [checkStops, hc] at hstop
    simp [checkEvents, hcond]

/-- C25: `present` needs a swapchain.  Without one, for every other input,
the branch condition of lines 231-248 is false (the off-screen path is not
taken), no call is made, and no result code is handed back: the run consists
of the check of line 226 and ends in the null dereference of line 264, or,
where the count is 8 or more and a failed check ends the operation, at that
check.  With a swapchain that does not select the off-screen path the lookup
of line 264 succeeds: its handle is stored at index 0 of the swapchain
array. -/
theorem present_requires_swapchain (env : PresentEnv) (q : Queue)
    (swapchain_image_index n_wait_semaphores : Nat)
    (wait_semaphore_ptrs : List (Option Semaphore)) :
    is_dummy_window none = false
      ∧ (∀ x, (present env q none swapchain_image_index n_wait_semaphores
            wait_semaphore_ptrs).outcome ≠ .returned x)
      ∧ (present env q none swapchain_image_index n_wait_semaphores
            wait_semaphore_ptrs).trace = checkEvents 226 (decide (n_wait_semaphores < 8))
      ∧ ((env.assertions_fatal = true → n_wait_semaphores < 8) →
          (present env q none swapchain_image_index n_wait_semaphores
            wait_semaphore_ptrs).outcome = .fault)
      ∧ (∀ swapchain : Swapchain, Exec.deref (some swapchain) = Exec.ret swapchain)
      ∧ (∀ swapchain : Swapchain, is_dummy_window (some swapchain) = false →
          (env.assertions_fatal = true → n_wait_semaphores < 8) →
          Event.array_store .swapchains_vk 0 swapchain.swapchain_vk
            ∈ (present env q (some swapchain) swapchain_image_index n_wait_semaphores
                wait_semaphore_ptrs).trace) := by
  have hrun := present_null_run env q swapchain_image_index n_wait_semaphores wait_semaphore_ptrs
  refine ⟨rfl, ?_, ?_, ?_, fun _ => rfl, ?_⟩
  · intro x hx
    rw [hrun] at hx
    cases hstop : checkStops env.toEnv (decide (n_wait_semaphores < 8)) <;> simp [hstop] at hx
  · rw [hrun]
  · intro hsanity
    rw [hrun]
    have hstop : checkStops env.toEnv (decide (n_wait_semaphores < 8)) = false := by
      cases hf : env.assertions_fatal
      · simp [checkStops, hf]
      · simp [checkStops, hf, hsanity hf]
    simp [hstop]
  · intro swapchain hlive hsanity
    unfold present
    simp only [Exec.bind_eq_andThen, Exec.pure_eq_ret]
    rw [anvil_assert_andThen_of_continues _ _ _ _ (fun h => by simpa using hsanity h)]
    simp only [hlive, Bool.false_eq_true, if_false, Exec.deref, Exec.ret_andThen]
    refine List.mem_append_right _ (Exec.mem_trace_andThen _ _ _ ?_)
    simp [array_store, MAX_SWAPCHAINS]

theorem present_requires_swapchain_sample :
    (present (samplePresentEnv true VK_SUCCESS VK_SUCCESS) sampleQueue none 5 1
        [some ⟨301⟩]).outcome = .fault
      ∧ Event.array_store .swapchains_vk 0 70
        ∈ (present (samplePresentEnv true VK_SUCCESS VK_SUCCESS) sampleQueue
            (some (sampleSwapchain (.other 3))) 5 1 [some ⟨301⟩]).trace := by
  obtain ⟨_, _, _, hfault, _, hstore⟩ :=
    present_requires_swapchain (samplePresentEnv true VK_SUCCESS VK_SUCCESS) sampleQueue 5 1
      [some ⟨301⟩]
  exact ⟨hfault (fun _ => by decide),
    hstore (sampleSwapchain (.other 3)) rfl (fun _ => by decide)⟩

/-! ## The maps of the shader generator -/

theorem StdMap.find_assign {κ β : Type} [LinearOrder κ] (m : StdMap κ β) (key : κ) (value : β)
    (k : κ) :
    StdMap.find (StdMap.assign m key value) k
      = if k = key then some value else StdMap.find m k := by
  induction m with
  | nil =>
    by_cases hk : k = key
    · simp [StdMap.assign, StdMap.find, hk]
    · simp [StdMap.assign, StdMap.find, hk, Ne.symm hk]
  | cons entry rest ih =>
    obtain ⟨k', v'⟩ := entry
    unfold StdMap.assign
    by_cases hlt : key < k'
    · by_cases hk : k = key
      · simp [hlt, StdMap.find, hk]
      · simp [hlt, StdMap.find, hk, Ne.symm hk]
    · by_cases heq : key = k'
      · subst heq
        by_cases hk : k = key
        · simp [StdMap.find, hk]
        · simp [StdMap.find, hk, Ne.symm hk]
      · by_cases hk' : k' = k
        · subst hk'
          simp [hlt, heq, StdMap.find, Ne.symm heq]
        · simp [hlt, heq, StdMap.find, hk', ih]

theorem StdMap.find_isSome_iff {κ β : Type} [LinearOrder κ] (m : StdMap κ β) (key : κ) :
    (StdMap.find m key).isSome = true ↔ key ∈ StdMap.keys m := by
  induction m with
  | nil => simp [StdMap.find, StdMap.keys]
  | cons entry rest ih =>
    obtain ⟨k', v'⟩ := entry
    by_cases hk : k' = key
    · simp [StdMap.find, StdMap.keys, hk]
    · have ih' : (StdMap.find rest key).isSome = true ↔ key ∈ List.map Prod.fst rest := ih
      simp [StdMap.find, StdMap.keys, hk, Ne.symm hk, ih']

theorem StdMap.mem_keys_assign {κ β : Type} [LinearOrder κ] (m : StdMap κ β) (key : κ)
    (value : β) (x : κ) :
    x ∈ StdMap.keys (StdMap.assign m key value) ↔ x = key ∨ x ∈ StdMap.keys m := by
  induction m with
  | nil => simp [StdMap.assign, StdMap.keys]
  | cons entry rest ih =>
    obtain ⟨k', v'⟩ := entry
    have ih' : x ∈ List.map Prod.fst (StdMap.assign rest key value)
        ↔ x = key ∨ x ∈ List.map Prod.fst rest := ih
    unfold StdMap.assign
    by_cases hlt : key < k'
    · simp [hlt, StdMap.keys]
    · by_cases heq : key = k'
      · subst heq
        simp [StdMap.keys]
      · simp only [hlt, heq, if_false, StdMap.keys, List.map_cons, List.mem_cons, ih']
        tauto

/-- An assignment keeps the keys of a map in strictly ascending order. -/
theorem StdMap.sorted_assign {κ β : Type} [LinearOrder κ] (m : StdMap κ β) (key : κ)
    (value : β) (h : (StdMap.keys m).Sorted (· < ·)) :
    (StdMap.keys (StdMap.assign m key value)).Sorted (· < ·) := by
  induction m with
  | nil => simp [StdMap.assign, StdMap.keys]
  | cons entry rest ih =>
    obtain ⟨k', v'⟩ := entry
    have hcons : (k' :: StdMap.keys rest).Sorted (· < ·) := h
    obtain ⟨hhead, htail⟩ := List.sorted_cons.mp hcons
    unfold StdMap.assign
    by_cases hlt : key < k'
    · simp only [hlt, if_true]
      refine List.sorted_cons.mpr ⟨?_, h⟩
      intro x hx
      have hx' : x ∈ k' :: StdMap.keys rest := hx
      rcases List.mem_cons.mp hx' with hx' | hx'
      · rw [hx']
        exact hlt
      · exact lt_trans hlt (hhead x hx')
    · by_cases heq : key = k'
      · subst heq
        rw [if_neg hlt, if_pos rfl]
        exact h
      · simp only [hlt, heq, if_false]
        refine List.sorted_cons.mpr ⟨?_, ih htail⟩
        intro x hx
        rcases (StdMap.mem_keys_assign rest key value x).mp hx with hx' | hx'
        · rw [hx']
          exact lt_of_le_of_ne (not_lt.mp hlt) (Ne.symm heq)
        · exact hhead x hx'

theorem StdMap.size_assign {κ β : Type} [LinearOrder κ] (m : StdMap κ β) (key : κ) (value : β)
    (h : StdMap.find m key = none) :
    StdMap.size (StdMap.assign m key value) = StdMap.size m + 1 := by
  induction m with
  | nil => simp [StdMap.assign, StdMap.size]
  | cons entry rest ih =>
    obtain ⟨k', v'⟩ := entry
    unfold StdMap.assign
    by_cases hlt : key < k'
    · simp [hlt, StdMap.size]
    · by_cases heq : key = k'
      · subst heq
        simp [StdMap.find] at h
      · have hrest : StdMap.find rest key = none := by
          simpa [StdMap.find, Ne.symm heq] using h
        have ih' : (StdMap.assign rest key value).length = rest.length + 1 := ih hrest
        simp [hlt, heq, StdMap.size, ih']

/-! ## Registering definitions and extension behaviours -/

/-- The run of `add_definition_value_pair` in closed form. -/
theorem add_definition_value_pair_run (env : Env) (g : GLSLShaderToSPIRVGenerator)
    (definition_name value : StdString) :
    add_definition_value_pair env g definition_name value
      = if (StdMap.find g.m_definition_values definition_name).isSome = true then
          ⟨[.assertion_failed 296],
            if env.assertions_fatal = true then .aborted else .returned (false, g)⟩
        else
          Exec.ret (true, { g with
            m_definition_values :=
              StdMap.assign g.m_definition_values definition_name value }) := by
  unfold add_definition_value_pair
  cases hfind : (StdMap.find g.m_definition_values definition_name).isSome <;>
    cases hf : env.assertions_fatal <;>
    simp [anvil_assert, Exec.andThen, Exec.ret, hf]

/-- The run of `add_extension_behavior` in closed form. -/
theorem add_extension_behavior_run (env : Env) (g : GLSLShaderToSPIRVGenerator)
    (extension_name : StdString) (behavior : ExtensionBehavior) :
    add_extension_behavior env g extension_name behavior
      = if (StdMap.find g.m_extension_behaviors extension_name).isSome = true then
          ⟨[.assertion_failed 275],
            if env.assertions_fatal = true then .aborted else .returned (false, g)⟩
        else
          Exec.ret (true, { g with
            m_extension_behaviors :=
              StdMap.assign g.m_extension_behaviors extension_name behavior }) := by
  unfold add_extension_behavior
  cases hfind : (StdMap.find g.m_extension_behaviors extension_name).isSome <;>
    cases hf : env.assertions_fatal <;>
    simp [anvil_assert, Exec.andThen, Exec.ret, hf]

/-- C26, as stated, fails: registering the definition `N` a second time fails
the assertion of line 296, and where a failed assertion ends the operation the
call hands back nothing, not `false`. -/
theorem add_definition_value_pair_duplicate_aborts :
    StdMap.find sampleGenerator.m_definition_values "N".toList = some "4".toList
      ∧ (add_definition_value_pair (sampleEnv true VK_SUCCESS) sampleGenerator "N".toList
          "8".toList).trace = [.assertion_failed 296]
      ∧ (add_definition_value_pair (sampleEnv true VK_SUCCESS) sampleGenerator "N".toList
          "8".toList).outcome = .aborted := by
  decide

/-- C26, amended: `add_definition_value_pair(name, value)`.  If `name` is
already registered the assertion of line 296 fails; where execution continues
it returns `false` and leaves the generator as it was (the first value is
kept), and where a failed assertion ends the operation it returns nothing.
Otherwise it returns `true` without a failed assertion, and the definitions
become the old ones plus `name -> value`: a lookup of `name` finds `value`, a
lookup of any other name finds what it found before, and there is one entry
more.  Whenever it returns, the extension behaviours are unchanged.
`add_empty_definition(name)` is `add_definition_value_pair(name, "")`. -/
theorem add_definition_value_pair_registers (env : Env) (g : GLSLShaderToSPIRVGenerator)
    (definition_name value : StdString) :
    (∀ old, StdMap.find g.m_definition_values definition_name = some old →
        (add_definition_value_pair env g definition_name value).trace = [.assertion_failed 296]
        ∧ (env.assertions_fatal = false →
            (add_definition_value_pair env g definition_name value).outcome
              = .returned (false, g))
        ∧ (env.assertions_fatal = true →
            (add_definition_value_pair env g definition_name value).outcome = .aborted))
      ∧ (StdMap.find g.m_definition_values definition_name = none →
          ∃ g', add_definition_value_pair env g definition_name value = Exec.ret (true, g')
            ∧ g'.m_extension_behaviors = g.m_extension_behaviors
            ∧ (∀ k, StdMap.find g'.m_definition_values k
                = if k = definition_name then some value
                  else StdMap.find g.m_definition_values k)
            ∧ StdMap.size g'.m_definition_values = StdMap.size g.m_definition_values + 1)
      ∧ (∀ result g', (add_definition_value_pair env g definition_name value).outcome
            = .returned (result, g') →
          g'.m_extension_behaviors = g.m_extension_behaviors)
      ∧ add_empty_definition env g definition_name
          = add_definition_value_pair env g definition_name [] := by
  have hrun := add_definition_value_pair_run env g definition_name value
  refine ⟨?_, ?_, ?_, rfl⟩
  · intro old hold
    rw [hrun]
    refine ⟨by simp [hold], fun hf => by simp [hold, hf], fun hf => by simp [hold, hf]⟩
  · intro hnone
    refine ⟨{ g with
      m_definition_values := StdMap.assign g.m_definition_values definition_name value },
      by rw [hrun]; simp [hnone], rfl, fun k => ?_, StdMap.size_assign _ _ _ hnone⟩
    show StdMap.find (StdMap.assign g.m_definition_values definition_name value) k = _
    rw [StdMap.find_assign]
    by_cases hk : k = definition_name <;> simp [hk]
  · intro result g' hret
    rw [hrun] at hret
    cases hfind : (StdMap.find g.m_definition_values definition_name).isSome <;>
      cases hf : env.assertions_fatal <;>
      simp [hfind, hf, Exec.ret] at hret
    · rw [← hret.2]
    · rw [← hret.2]
    · rw [← hret.2]

theorem add_definition_value_pair_registers_sample :
    (add_definition_value_pair (sampleEnv false VK_SUCCESS) sampleGenerator "N".toList
        "8".toList).outcome = .returned (false, sampleGenerator)
      ∧ ∃ g', add_definition_value_pair (sampleEnv true VK_SUCCESS) sampleGenerator
          "M".toList "8".toList = Exec.ret (true, g')
        ∧ StdMap.find g'.m_definition_values "M".toList = some "8".toList := by
  obtain ⟨hdup, hnew, _, _⟩ :=
    add_definition_value_pair_registers (sampleEnv false VK_SUCCESS) sampleGenerator
      "N".toList "8".toList
  obtain ⟨_, hfresh, _, _⟩ :=
    add_definition_value_pair_registers (sampleEnv true VK_SUCCESS) sampleGenerator
      "M".toList "8".toList
  obtain ⟨g', hg', _, hfind, _⟩ := hfresh (by decide)
  exact ⟨(hdup "4".toList (by decide)).2.1 rfl, g', hg', by rw [hfind]; simp⟩

/-- C27, as stated, fails: registering the extension `GL_A` a second time
fails the assertion of line 275, and where a failed assertion ends the
operation the call hands back nothing, not `false`. -/
theorem add_extension_behavior_duplicate_aborts :
    StdMap.find sampleGenerator.m_extension_behaviors "GL_A".toList
        = some .EXTENSION_BEHAVIOR_ENABLE
      ∧ (add_extension_behavior (sampleEnv true VK_SUCCESS) sampleGenerator "GL_A".toList
          .EXTENSION_BEHAVIOR_WARN).trace = [.assertion_failed 275]
      ∧ (add_extension_behavior (sampleEnv true VK_SUCCESS) sampleGenerator "GL_A".toList
          .EXTENSION_BEHAVIOR_WARN).outcome = .aborted := by
  decide

/-- C27, amended: `add_extension_behavior(name, behavior)`.  If an extension
of that name is already registered the assertion of line 275 fails; where
execution continues it returns `false` and leaves the generator as it was (the
first behaviour is kept), and where a failed assertion ends the operation it
returns nothing.  Otherwise it returns `true` without a failed assertion, and
the extension behaviours become the old ones plus `name -> behavior`: a lookup
of `name` finds `behavior`, a lookup of any other name finds what it found
before, and there is one entry more.  Whenever it returns, the definitions are
unchanged and every name registered before is still registered.  Hence a call
that follows a successful registration of the same name never returns
`true`. -/
theorem add_extension_behavior_registers (env : Env) (g : GLSLShaderToSPIRVGenerator)
    (extension_name : StdString) (behavior : ExtensionBehavior) :
    (∀ old, StdMap.find g.m_extension_behaviors extension_name = some old →
        (add_extension_behavior env g extension_name behavior).trace = [.assertion_failed 275]
        ∧ (env.assertions_fatal = false →
            (add_extension_behavior env g extension_name behavior).outcome
              = .returned (false, g))
        ∧ (env.assertions_fatal = true →
            (add_extension_behavior env g extension_name behavior).outcome = .aborted))
      ∧ (StdMap.find g.m_extension_behaviors extension_name = none →
          ∃ g', add_extension_behavior env g extension_name behavior = Exec.ret (true, g')
            ∧ g'.m_definition_values = g.m_definition_values
            ∧ (∀ k, StdMap.find g'.m_extension_behaviors k
                = if k = extension_name then some behavior
                  else StdMap.find g.m_extension_behaviors k)
            ∧ StdMap.size g'.m_extension_behaviors
                = StdMap.size g.m_extension_behaviors + 1)
      ∧ (∀ result g', (add_extension_behavior env g extension_name behavior).outcome
            = .returned (result, g') →
          g'.m_definition_values = g.m_definition_values
          ∧ (∀ k, (StdMap.find g.m_extension_behaviors k).isSome = true →
              (StdMap.find g'.m_extension_behaviors k).isSome = true)
          ∧ (result = true → ∀ second_behavior second_result g'',
              (add_extension_behavior env g' extension_name second_behavior).outcome
                = .returned (second_result, g'') →
              second_result = false ∧ g'' = g')) := by
  have hrun := add_extension_behavior_run env g extension_name behavior
  have hfind : ∀ k, StdMap.find (StdMap.assign g.m_extension_behaviors extension_name behavior) k
      = if k = extension_name then some behavior else StdMap.find g.m_extension_behaviors k := by
    intro k
    rw [StdMap.find_assign]
    by_cases hk : k = extension_name <;> simp [hk]
  refine ⟨?_, ?_, ?_⟩
  · intro old hold
    rw [hrun]
    refine ⟨by simp [hold], fun hf => by simp [hold, hf], fun hf => by simp [hold, hf]⟩
  · intro hnone
    exact ⟨{ g with
      m_extension_behaviors := StdMap.assign g.m_extension_behaviors extension_name behavior },
      by rw [hrun]; simp [hnone], rfl, hfind, StdMap.size_assign _ _ _ hnone⟩
  · intro result g' hret
    rw [hrun] at hret
    cases hsome : (StdMap.find g.m_extension_behaviors extension_name).isSome
    · simp only [hsome, Bool.false_eq_true, if_false, Exec.ret, Outcome.returned.injEq,
        Prod.mk.injEq] at hret
      obtain ⟨hres, hg'⟩ := hret
      subst hg'
      refine ⟨rfl, ?_, ?_⟩
      · intro k hk
        show (StdMap.find (StdMap.assign g.m_extension_behaviors extension_name behavior)
          k).isSome = true
        rw [hfind]
        by_cases hkn : k = extension_name <;> simp [hkn, hk]
      · intro _ second_behavior second_result g'' hsecond
        rw [add_extension_behavior_run] at hsecond
        have hreg : (StdMap.find (StdMap.assign g.m_extension_behaviors extension_name
            behavior) extension_name).isSome = true := by
          rw [hfind]
          simp
        simp only [hreg, if_true] at hsecond
        cases hf : env.assertions_fatal <;> simp [hf] at hsecond
        exact ⟨hsecond.1, hsecond.2.symm⟩
    · cases hf : env.assertions_fatal <;> simp [hsome, hf] at hret
      obtain ⟨hres, hg'⟩ := hret
      subst hg'
      refine ⟨rfl, fun k hk => hk, ?_⟩
      intro hres'
      rw [hres] at hres'
      cases hres'

theorem add_extension_behavior_registers_sample :
    (add_extension_behavior (sampleEnv false VK_SUCCESS) sampleGenerator "GL_A".toList
        .EXTENSION_BEHAVIOR_WARN).outcome = .returned (false, sampleGenerator)
      ∧ ∃ g', add_extension_behavior (sampleEnv true VK_SUCCESS) sampleGenerator
          "GL_C".toList .EXTENSION_BEHAVIOR_WARN = Exec.ret (true, g')
        ∧ StdMap.find g'.m_extension_behaviors "GL_C".toList
            = some .EXTENSION_BEHAVIOR_WARN := by
  obtain ⟨hdup, _, _⟩ :=
    add_extension_behavior_registers (sampleEnv false VK_SUCCESS) sampleGenerator
      "GL_A".toList .EXTENSION_BEHAVIOR_WARN
  obtain ⟨_, hfresh, _⟩ :=
    add_extension_behavior_registers (sampleEnv true VK_SUCCESS) sampleGenerator
      "GL_C".toList .EXTENSION_BEHAVIOR_WARN
  obtain ⟨g', hg', _, hfind, _⟩ := hfresh (by decide)
  exact ⟨(hdup .EXTENSION_BEHAVIOR_ENABLE (by decide)).2.1 rfl, g', hg', by rw [hfind]; simp⟩

/-! ## The run of the source injection of `bake_spirv_blob` -/

theorem string_insert_at (before after line : StdString) :
    string_insert (before ++ after) before.length line = Exec.ret (before ++ line ++ after) := by
  unfold string_insert
  rw [if_pos (by simp), List.take_left' rfl, List.drop_left' rfl]

theorem get_extension_behavior_glsl_code_of_enumerator (env : Env) (value : ExtensionBehavior)
    (h : value.isEnumerator = true) :
    get_extension_behavior_glsl_code env value = Exec.ret (behaviorCode value) := by
  cases value <;> first | rfl | cases h

theorem extension_behaviors_loop_run (env : Env) (entries : List (StdString × ExtensionBehavior))
    (hvalid : ∀ entry ∈ entries, entry.2.isEnumerator = true) :
    ∀ before after : StdString,
      before.length + (entries.map extensionLine).flatten.length ≤ SIZE_MAX →
      extension_behaviors_loop env entries (before ++ after) before.length
        = Exec.ret (before ++ (entries.map extensionLine).flatten ++ after,
            before.length + (entries.map extensionLine).flatten.length) := by
  induction entries with
  | nil =>
    intro before after _
    simp [extension_behaviors_loop, Exec.ret]
  | cons entry rest ih =>
    intro before after hfit
    obtain ⟨name, behavior⟩ := entry
    have hline : ("#extension ".toList ++ name ++ " : ".toList ++ behaviorCode behavior
        ++ "\n".toList) = extensionLine (name, behavior) := rfl
    have hflat : ((((name, behavior) :: rest).map extensionLine).flatten).length
        = (extensionLine (name, behavior)).length + ((rest.map extensionLine).flatten).length := by
      simp
    rw [hflat] at hfit
    have hmod : (before.length + (extensionLine (name, behavior)).length) % (SIZE_MAX + 1)
        = (before ++ extensionLine (name, behavior)).length := by
      rw [List.length_append]
      exact Nat.mod_eq_of_lt (by omega)
    unfold extension_behaviors_loop
    simp only [Exec.bind_eq_andThen,
      get_extension_behavior_glsl_code_of_enumerator env behavior
        (hvalid (name, behavior) (List.mem_cons_self _ _)),
      Exec.ret_andThen, hline, string_insert_at, hmod]
    rw [ih (fun entry h => hvalid entry (List.mem_cons_of_mem _ h))
      (before ++ extensionLine (name, behavior)) after
      (by rw [List.length_append]; omega)]
    simp [Nat.add_assoc]

theorem definition_values_loop_run (entries : List (StdString × StdString)) :
    ∀ before after : StdString,
      definition_values_loop entries (before ++ after) before.length
        = Exec.ret (before ++ (entries.reverse.map defineLine).flatten ++ after) := by
  induction entries with
  | nil =>
    intro before after
    simp [definition_values_loop, Exec.ret]
  | cons entry rest ih =>
    intro before after
    obtain ⟨key, value⟩ := entry
    have hline : ("#define ".toList ++ key ++ " ".toList ++ value ++ "\n".toList)
        = defineLine (key, value) := rfl
    unfold definition_values_loop
    simp only [Exec.bind_eq_andThen, hline, string_insert_at, Exec.ret_andThen]
    rw [List.append_assoc before, ih before (defineLine (key, value) ++ after)]
    simp

theorem second_line_index_eq (s : StdString) (h : s.length ≤ SIZE_MAX) :
    (find_first_of s '\n' + 1) % (SIZE_MAX + 1) = secondLineIndex s := by
  unfold find_first_of secondLineIndex
  by_cases hmem : '\n' ∈ s
  · have hlt := List.indexOf_lt_length.mpr hmem
    rw [if_pos hmem, if_pos hmem]
    exact Nat.mod_eq_of_lt (by omega)
  · rw [if_neg hmem, if_neg hmem]
    simp [npos, SIZE_MAX]

theorem secondLineIndex_le (s : StdString) : secondLineIndex s ≤ s.length := by
  unfold secondLineIndex
  by_cases hmem : '\n' ∈ s
  · have hlt := List.indexOf_lt_length.mpr hmem
    rw [if_pos hmem]
    omega
  · rw [if_neg hmem]
    omega

/-- The source injection in closed form, for a generator whose behaviours are
enumerators, whose maps have fewer than 2^32 entries, and whose generated text
fits a `std::string`: the added block stands at the index just after the first
newline of the source, or at index 0 when the source has no newline. -/
theorem bake_spirv_blob_source_run (env : Env) (g : GLSLShaderToSPIRVGenerator) (s : StdString)
    (hvalid : ∀ entry ∈ g.m_extension_behaviors, entry.2.isEnumerator = true)
    (hext : StdMap.size g.m_extension_behaviors < 2 ^ 32)
    (hdef : StdMap.size g.m_definition_values < 2 ^ 32)
    (hfit : s.length + (injectedBlock g).length ≤ SIZE_MAX) :
    bake_spirv_blob_source env g s
      = Exec.ret (s.take (secondLineIndex s) ++ injectedBlock g ++ s.drop (secondLineIndex s)) := by
  have hk := secondLineIndex_le s
  have hlen : (s.take (secondLineIndex s)).length = secondLineIndex s :=
    List.length_take_of_le hk
  unfold bake_spirv_blob_source
  simp only [Nat.mod_eq_of_lt hext, Nat.mod_eq_of_lt hdef]
  by_cases hany : StdMap.size g.m_extension_behaviors > 0 ∨ StdMap.size g.m_definition_values > 0
  · have hblock : (injectedBlock g).length
        = ((g.m_extension_behaviors.map extensionLine).flatten).length
          + ((g.m_definition_values.reverse.map defineLine).flatten).length := by
      simp [injectedBlock, extensionLines, defineLines]
    have hrun := extension_behaviors_loop_run env g.m_extension_behaviors hvalid
      (s.take (secondLineIndex s)) (s.drop (secondLineIndex s)) (by omega)
    rw [List.take_append_drop, hlen] at hrun
    rw [if_pos hany]
    simp only [Exec.bind_eq_andThen, second_line_index_eq s (by omega), hrun, Exec.ret_andThen]
    have hdefs := definition_values_loop_run g.m_definition_values
      (s.take (secondLineIndex s) ++ (g.m_extension_behaviors.map extensionLine).flatten)
      (s.drop (secondLineIndex s))
    rw [List.length_append, hlen] at hdefs
    rw [hdefs]
    simp [injectedBlock, extensionLines, defineLines]
  · have hnone : g.m_extension_behaviors = [] ∧ g.m_definition_values = [] := by
      simp only [StdMap.size, gt_iff_lt, List.length_pos, not_or, ne_eq, not_not] at hany
      exact hany
    rw [if_neg hany]
    simp [injectedBlock, extensionLines, defineLines, hnone.1, hnone.2, Exec.ret]

/-! ## Source injection: the claims -/

/-- The maps of a generator a program can hold have their keys in strictly
ascending order. -/
theorem Registered.sorted (env : Env) (g : GLSLShaderToSPIRVGenerator) (h : Registered env g) :
    (StdMap.keys g.m_extension_behaviors).Sorted (· < ·)
      ∧ (StdMap.keys g.m_definition_values).Sorted (· < ·) := by
  have hdefinition : ∀ (g g' : GLSLShaderToSPIRVGenerator) (name value : StdString)
      (result : Bool),
      ((StdMap.keys g.m_extension_behaviors).Sorted (· < ·)
        ∧ (StdMap.keys g.m_definition_values).Sorted (· < ·)) →
      (add_definition_value_pair env g name value).outcome = .returned (result, g') →
      (StdMap.keys g'.m_extension_behaviors).Sorted (· < ·)
        ∧ (StdMap.keys g'.m_definition_values).Sorted (· < ·) := by
    intro g g' name value result ih hret
    rw [add_definition_value_pair_run] at hret
    cases hsome : (StdMap.find g.m_definition_values name).isSome <;>
      cases hf : env.assertions_fatal <;>
      simp [hsome, hf, Exec.ret] at hret
    · rw [← hret.2]
      exact ⟨ih.1, StdMap.sorted_assign _ _ _ ih.2⟩
    · rw [← hret.2]
      exact ⟨ih.1, StdMap.sorted_assign _ _ _ ih.2⟩
    · rw [← hret.2]
      exact ih
  induction h with
  | create => exact ⟨List.sorted_nil, List.sorted_nil⟩
  | extension g g' name behavior result _ hret ih =>
    rw [add_extension_behavior_run] at hret
    cases hsome : (StdMap.find g.m_extension_behaviors name).isSome <;>
      cases hf : env.assertions_fatal <;>
      simp [hsome, hf, Exec.ret] at hret
    · rw [← hret.2]
      exact ⟨StdMap.sorted_assign _ _ _ ih.1, ih.2⟩
    · rw [← hret.2]
      exact ⟨StdMap.sorted_assign _ _ _ ih.1, ih.2⟩
    · rw [← hret.2]
      exact ih
  | definition g g' name value result _ hret ih => exact hdefinition g g' name value result ih hret
  | empty_definition g g' name result _ hret ih => exact hdefinition g g' name [] result ih hret

/-- C21, at the failing input: for the one-line source `#version 450`, which
has no newline, the added lines are put at index 0, in front of the version
line: the generated text starts with `#extension GL_A : enable` and ends with
the line of the source. -/
theorem bake_spirv_blob_injects_before_single_line :
    (bake_spirv_blob_source (sampleEnv true VK_SUCCESS) sampleGenerator
        "#version 450".toList).trace = []
      ∧ (bake_spirv_blob_source (sampleEnv true VK_SUCCESS) sampleGenerator
          "#version 450".toList).outcome
        = .returned ("#extension GL_A : enable\n#extension GL_B : require\n".toList
            ++ "#define USE_FOG \n#define N 4\n".toList ++ "#version 450".toList) := by
  decide

/-- C22: for a generator a program can hold (built from the constructor by
returning registration calls) whose behaviours are enumerators, whose maps
have fewer than 2^32 entries and whose generated text fits a `std::string`,
`bake_spirv_blob` returns the source with one block added at the index after
the first newline.  The block is the extension lines followed by the define
lines, so every extension line comes before every define line; the extension
lines are those of the registered extensions in ascending order of name, and
the define lines are those of the registered definitions in descending order
of name, the reverse of the order in which the loop of lines 391-401 inserts
them at its one position. -/
theorem bake_spirv_blob_line_order (env : Env) (g : GLSLShaderToSPIRVGenerator) (s : StdString)
    (hreg : Registered env g)
    (hvalid : ∀ entry ∈ g.m_extension_behaviors, entry.2.isEnumerator = true)
    (hext : StdMap.size g.m_extension_behaviors < 2 ^ 32)
    (hdef : StdMap.size g.m_definition_values < 2 ^ 32)
    (hfit : s.length + (injectedBlock g).length ≤ SIZE_MAX) :
    bake_spirv_blob_source env g s
        = Exec.ret (s.take (secondLineIndex s)
            ++ ((extensionLines g).flatten ++ (defineLines g).flatten)
            ++ s.drop (secondLineIndex s))
      ∧ extensionLines g = g.m_extension_behaviors.map extensionLine
      ∧ (g.m_extension_behaviors.map Prod.fst).Sorted (· < ·)
      ∧ defineLines g = g.m_definition_values.reverse.map defineLine
      ∧ (g.m_definition_values.reverse.map Prod.fst).Sorted (· > ·) := by
  obtain ⟨hexts, hdefs⟩ := Registered.sorted env g hreg
  refine ⟨bake_spirv_blob_source_run env g s hvalid hext hdef hfit, rfl, hexts, rfl, ?_⟩
  rw [List.map_reverse]
  exact List.pairwise_reverse.mpr hdefs

theorem bake_spirv_blob_line_order_sample :
    bake_spirv_blob_source (sampleEnv true VK_SUCCESS) sampleGenerator sampleSource
        = Exec.ret ("#version 450\n".toList
            ++ ("#extension GL_A : enable\n#extension GL_B : require\n".toList
              ++ "#define USE_FOG \n#define N 4\n".toList)
            ++ "void main();\n".toList)
      ∧ (sampleGenerator.m_extension_behaviors.map Prod.fst) = ["GL_A".toList, "GL_B".toList]
      ∧ (sampleGenerator.m_definition_values.reverse.map Prod.fst)
          = ["USE_FOG".toList, "N".toList] := by
  have h1 : Registered (sampleEnv true VK_SUCCESS) ⟨[("USE_FOG".toList, [])], []⟩ :=
    .empty_definition emptyGenerator _ "USE_FOG".toList true .create (by decide)
  have h2 : Registered (sampleEnv true VK_SUCCESS)
      ⟨[("USE_FOG".toList, [])], [("GL_B".toList, .EXTENSION_BEHAVIOR_REQUIRE)]⟩ :=
    .extension _ _ "GL_B".toList .EXTENSION_BEHAVIOR_REQUIRE true h1 (by decide)
  have h3 : Registered (sampleEnv true VK_SUCCESS)
      ⟨[("N".toList, "4".toList), ("USE_FOG".toList, [])],
        [("GL_B".toList, .EXTENSION_BEHAVIOR_REQUIRE)]⟩ :=
    .definition _ _ "N".toList "4".toList true h2 (by decide)
  have h4 : Registered (sampleEnv true VK_SUCCESS) sampleGenerator :=
    .extension _ _ "GL_A".toList .EXTENSION_BEHAVIOR_ENABLE true h3 (by decide)
  obtain ⟨hrun, _, _, _, _⟩ :=
    bake_spirv_blob_line_order (sampleEnv true VK_SUCCESS) sampleGenerator sampleSource h4
      (by decide) (by decide) (by decide) (by decide)
  exact ⟨hrun, rfl, rfl⟩

/-- C23: the source injection is a pure insertion.  For a generator whose
behaviours are enumerators, whose maps have fewer than 2^32 entries and whose
generated text fits a `std::string`, and for every source `s`,
`bake_spirv_blob` returns, without a failed assertion,
`s[0..k) ++ B ++ s[k..]`, where `k` is the index just after the first newline
of `s` (0 when `s` has no newline) and `B` is the concatenation of one line
`#extension <name> : <disable|enable|require|warn>` per registered extension
and one line `#define <name> <value>` per registered definition, each ended by
a newline.  Deleting `B` gives back `s`, the length grows by the length of
`B`, and with nothing registered the generated text is `s`. -/
theorem bake_spirv_blob_pure_insertion (env : Env) (g : GLSLShaderToSPIRVGenerator)
    (s : StdString)
    (hvalid : ∀ entry ∈ g.m_extension_behaviors, entry.2.isEnumerator = true)
    (hext : StdMap.size g.m_extension_behaviors < 2 ^ 32)
    (hdef : StdMap.size g.m_definition_values < 2 ^ 32)
    (hfit : s.length + (injectedBlock g).length ≤ SIZE_MAX) :
    ∃ generated : StdString,
      bake_spirv_blob_source env g s = ⟨[], .returned generated⟩
      ∧ generated = s.take (secondLineIndex s) ++ injectedBlock g ++ s.drop (secondLineIndex s)
      ∧ ('\n' ∈ s → secondLineIndex s = s.indexOf '\n' + 1)
      ∧ ('\n' ∉ s → secondLineIndex s = 0)
      ∧ injectedBlock g
          = (g.m_extension_behaviors.map fun entry =>
                "#extension ".toList ++ entry.1 ++ " : ".toList ++ behaviorCode entry.2
                  ++ "\n".toList).flatten
            ++ (g.m_definition_values.reverse.map fun entry =>
                "#define ".toList ++ entry.1 ++ " ".toList ++ entry.2 ++ "\n".toList).flatten
      ∧ (∀ entry ∈ g.m_extension_behaviors, behaviorCode entry.2
          ∈ ["disable".toList, "enable".toList, "require".toList, "warn".toList])
      ∧ generated.take (secondLineIndex s)
          ++ generated.drop (secondLineIndex s + (injectedBlock g).length) = s
      ∧ generated.length = s.length + (injectedBlock g).length
      ∧ (g.m_extension_behaviors = [] → g.m_definition_values = [] → generated = s) := by
  have hk := secondLineIndex_le s
  have hlen : (s.take (secondLineIndex s)).length = secondLineIndex s :=
    List.length_take_of_le hk
  refine ⟨s.take (secondLineIndex s) ++ injectedBlock g ++ s.drop (secondLineIndex s),
    bake_spirv_blob_source_run env g s hvalid hext hdef hfit, rfl, ?_, ?_, rfl, ?_, ?_, ?_, ?_⟩
  · intro hmem
    simp [secondLineIndex, hmem]
  · intro hmem
    simp [secondLineIndex, hmem]
  · intro entry hentry
    have h := hvalid entry hentry
    obtain ⟨name, behavior⟩ := entry
    cases behavior <;> first | (simp [behaviorCode]; done) | cases h
  · rw [List.append_assoc, List.take_left' hlen]
    have hdrop : (s.take (secondLineIndex s) ++ injectedBlock g).length
        = secondLineIndex s + (injectedBlock g).length := by
      rw [List.length_append, hlen]
    rw [← List.append_assoc, List.drop_left' hdrop, List.take_append_drop]
  · have hsum : (s.take (secondLineIndex s)).length + (s.drop (secondLineIndex s)).length
        = s.length := by
      rw [← List.length_append, List.take_append_drop]
    simp only [List.length_append]
    omega
  · intro he hd
    simp [injectedBlock, extensionLines, defineLines, he, hd]

theorem bake_spirv_blob_pure_insertion_sample :
    ∃ generated : StdString,
      bake_spirv_blob_source (sampleEnv true VK_SUCCESS) sampleGenerator sampleSource
        = ⟨[], .returned generated⟩
      ∧ generated.take 13 ++ generated.drop (13 + 80) = sampleSource
      ∧ generated.length = 26 + 80 := by
  obtain ⟨generated, hrun, _, hindex, _, _, _, hdelete, hlength, _⟩ :=
    bake_spirv_blob_pure_insertion (sampleEnv true VK_SUCCESS) sampleGenerator sampleSource
      (by decide) (by decide) (by decide) (by decide)
  have hk : secondLineIndex sampleSource = 13 := by decide
  have hb : (injectedBlock sampleGenerator).length = 80 := by decide
  have hs : sampleSource.length = 26 := by decide
  rw [hk, hb] at hdelete
  rw [hb, hs] at hlength
  exact ⟨generated, hrun, hdelete, hlength⟩

/-! ## Where the limits agree with the claims -/

theorem largestSupportedSampleCount_singleton (m : Nat) :
    largestSupportedSampleCount [m] = sample_count_to_samples m := by
  simp [largestSupportedSampleCount, sample_count_to_samples, VK_SAMPLE_COUNT_16_BIT,
    VK_SAMPLE_COUNT_8_BIT, VK_SAMPLE_COUNT_4_BIT, VK_SAMPLE_COUNT_2_BIT]

theorem largestSupportedSampleCount_cons (m : Nat) (rest : List Nat) :
    largestSupportedSampleCount (m :: rest)
      = max (sample_count_to_samples m) (largestSupportedSampleCount rest) := by
  simp only [largestSupportedSampleCount, sample_count_to_samples, VK_SAMPLE_COUNT_16_BIT,
    VK_SAMPLE_COUNT_8_BIT, VK_SAMPLE_COUNT_4_BIT, VK_SAMPLE_COUNT_2_BIT, List.any_cons]
  by_cases h16 : m &&& 16 ≠ 0 <;> by_cases h8 : m &&& 8 ≠ 0 <;>
    by_cases h4 : m &&& 4 ≠ 0 <;> by_cases h2 : m &&& 2 ≠ 0 <;>
    simp only [h16, h8, h4, h2, decide_True, decide_False, Bool.true_or, Bool.false_or,
      if_true, if_false, not_true_eq_false, not_false_eq_true, ne_eq] <;>
    split_ifs <;> simp

theorem sample_count_to_samples_below_32 (m : Nat) (h : m < 32) :
    sample_count_to_samples m
      = if 16 ≤ m then 16 else if 8 ≤ m then 8 else if 4 ≤ m then 4 else if 2 ≤ m then 2
        else 1 := by
  interval_cases m <;> decide

theorem sample_count_to_samples_max (a b : Nat) (ha : a < 32) (hb : b < 32) :
    sample_count_to_samples (max a b)
      = max (sample_count_to_samples a) (sample_count_to_samples b) := by
  rw [sample_count_to_samples_below_32 a ha, sample_count_to_samples_below_32 b hb,
    sample_count_to_samples_below_32 (max a b) (max_lt ha hb)]
  rcases le_total a b with hab | hab
  · rw [max_eq_right hab]
    split_ifs <;> first | rfl | omega
  · rw [max_eq_left hab]
    split_ifs <;> first | rfl | omega

/-- Where no sampled-image mask has a bit above that of 16 samples, the
sampled-image sample count of the constructor is the largest count among 1,
2, 4, 8, 16 that one of the four kinds supports. -/
theorem max_sampled_image_samples_below_32 (limits : VkPhysicalDeviceLimits)
    (h : ∀ mask ∈ sampledImageMasks limits, mask < 32) :
    max_sampled_image_samples limits
      = largestSupportedSampleCount (sampledImageMasks limits) := by
  have hc := h limits.sampledImageColorSampleCounts (by simp [sampledImageMasks])
  have hd := h limits.sampledImageDepthSampleCounts (by simp [sampledImageMasks])
  have hi := h limits.sampledImageIntegerSampleCounts (by simp [sampledImageMasks])
  have hs := h limits.sampledImageStencilSampleCounts (by simp [sampledImageMasks])
  unfold max_sampled_image_samples max_sampled_image_sample_count sampledImageMasks
  rw [largestSupportedSampleCount_cons, largestSupportedSampleCount_cons,
    largestSupportedSampleCount_cons, largestSupportedSampleCount_singleton]
  rw [sample_count_to_samples_max _ _ (max_lt (max_lt hc hd) hi) hs,
    sample_count_to_samples_max _ _ (max_lt hc hd) hi, sample_count_to_samples_max _ _ hc hd]
  simp only [max_assoc]

/-- The storage-image sample count is the largest count among 1, 2, 4, 8, 16
whose bit is set in the storage mask, and `maxSamples` is the larger of the
two sample counts of the constructor. -/
theorem GLSLangLimits_storage_and_maxSamples (limits : VkPhysicalDeviceLimits) :
    (GLSLangLimits limits).maxImageSamples
        = largestSupportedSampleCount [limits.storageImageSampleCounts]
      ∧ (GLSLangLimits limits).maxSamples
        = max (max_sampled_image_samples limits) (max_storage_image_samples limits) := by
  refine ⟨(largestSupportedSampleCount_singleton _).symm, ?_⟩
  have hbound : ∀ m, sample_count_to_samples m ≤ 16 := by
    intro m
    unfold sample_count_to_samples
    split_ifs <;> simp
  have h1 := hbound (max_sampled_image_sample_count limits)
  have h2 := hbound limits.storageImageSampleCounts
  unfold GLSLangLimits CLAMP_TO_INT_MAX_int32 max_sampled_image_samples
    max_storage_image_samples INT_MAX
  simp only
  simp only [max_def]
  split_ifs <;> omega

theorem static_cast_int32_CLAMP_TO_INT_MAX (x : Nat) :
    static_cast_int32 (CLAMP_TO_INT_MAX x) = ((min x INT_MAX : Nat) : Int) := by
  have hle : CLAMP_TO_INT_MAX x = min x INT_MAX := by
    unfold CLAMP_TO_INT_MAX
    simp only [min_def]
  have hbound : min x INT_MAX < 2 ^ 31 := by
    have := min_le_right x INT_MAX
    unfold INT_MAX at this ⊢
    omega
  unfold static_cast_int32
  rw [hle, Nat.mod_eq_of_lt (by omega), if_pos hbound]

/-- The combined image-uniform limit is never negative, and it is
`min(5 * L, INT_MAX)` where the product `5 * L` stays below 2^32. -/
theorem GLSLangLimits_combined_image_uniforms_exact (limits : VkPhysicalDeviceLimits) :
    0 ≤ (GLSLangLimits limits).maxCombinedImageUniforms
      ∧ (5 * limits.maxPerStageDescriptorStorageImages < 2 ^ 32 →
          (GLSLangLimits limits).maxCombinedImageUniforms
            = ((min (5 * limits.maxPerStageDescriptorStorageImages) INT_MAX : Nat) : Int)) := by
  unfold GLSLangLimits
  simp only [static_cast_int32_CLAMP_TO_INT_MAX]
  refine ⟨Int.natCast_nonneg _, fun h => ?_⟩
  rw [Nat.mod_eq_of_lt h]

/-! ## The limits handed to the shader compiler -/

/-- C28, at the failing input: colour images support 1, 4 and 32 samples
(mask 0x25), depth and stencil images 1 to 16 samples (mask 0x1F).  The
numeric maximum of the masks is 0x25, in which the bits of 16 and 8 are
clear, so the constructor takes 4 as the sampled-image sample count and as
`maxSamples`, although depth and stencil images support 16 samples. -/
theorem GLSLangLimits_sampled_count_from_largest_mask :
    max_sampled_image_sample_count (sampleLimits 8) = 0x25
      ∧ max_sampled_image_samples (sampleLimits 8) = 4
      ∧ (GLSLangLimits (sampleLimits 8)).maxSamples = 4
      ∧ (sampleLimits 8).sampledImageDepthSampleCounts &&& VK_SAMPLE_COUNT_16_BIT ≠ 0
      ∧ largestSupportedSampleCount (sampledImageMasks (sampleLimits 8)) = 16 := by
  decide

/-- C29, at the failing input: for 858993460 storage images per stage the
32-bit product `5 * L` wraps around to 4, so `maxCombinedImageUniforms` is 4,
which is neither `min(5 * L, INT_MAX)` nor at least the per-stage value
858993460 stored in `maxVertexImageUniforms`. -/
theorem GLSLangLimits_combined_image_uniforms_wrap :
    (GLSLangLimits (sampleLimits 858993460)).maxCombinedImageUniforms = 4
      ∧ (GLSLangLimits (sampleLimits 858993460)).maxVertexImageUniforms = 858993460
      ∧ min (5 * 858993460) INT_MAX = 2147483647
      ∧ 858993460 < 2 ^ 32 := by
  decide

end Anvil
